import Mathlib

/-!
# SLSI Wi-Fi control-plane driver: state machine model

A shallow embedding of `apps/netutils/wifi/slsi_wifi_api.c`.

* The file-scope globals (`g_state`, `g_link_up`, ...) are the fields of one record, `Driver`,
  which every function takes and returns.
* C strings are lists of characters without the terminating NUL.
* The supplicant is an environment carried inside `Driver`.  The control connection is the
  record `Channel`: the handle `g_ctrl_conn`, the outcomes `replies` of the successive
  `wpa_ctrl_request` calls, and the trace `sent` of every command handed to
  `wpa_ctrl_request`.  Functions that only talk to the supplicant take and return the
  `Channel`.  `events` holds the lines still to be delivered to the monitor thread, `mq`
  every message accepted by `mq_send`.
* A thread that sleeps in `sem_wait` is resumed by the monitor thread: while it sleeps, the
  monitor handles the pending event lines one by one.  A call that is never resumed has no
  result (`none`).
* Constants, types and helpers that live in headers or files outside this translation unit
  are the fields of `Config`.
* The non-volatile configuration block of the board is the record `Flash`, passed next to
  `Driver` to the functions that read or write it.
* The scan-result list lives in the record `Heap`: scan nodes and vendor-IE nodes by address,
  with the log of every allocation and release.
* `lib/libc/signal/sig_set.c` is embedded over `SigTask`, the signal mask and dispositions of
  the calling task.
-/

namespace Slsi

/-! ## C strings -/

/-- C string: the characters before the terminating NUL. -/
abbrev CStr := List Char

/-- What `snprintf(buf, size, ...)` leaves in `buf` for the formatted text `s`. -/
def snprintf (size : Nat) (s : CStr) : CStr :=
  s.take (size - 1)

/-- Source `str_starts`: `strncmp(src, match, strlen(match)) == 0`. -/
def str_starts (src m : CStr) : Bool :=
  m.isPrefixOf src

/-- C `strchr`: the tail of the string from the first occurrence of `c`. -/
def strchr : CStr → Char → Option CStr
  | [], _ => none
  | x :: xs, c => if x = c then some (x :: xs) else strchr xs c

/-- C `strstr`: the tail of the string from the first occurrence of `needle`. -/
def strstr : CStr → CStr → Option CStr
  | [], needle => if needle.isEmpty then some [] else none
  | x :: xs, needle => if needle.isPrefixOf (x :: xs) then some (x :: xs) else strstr xs needle

/-- C `isspace` in the "C" locale. -/
def isspace (c : Char) : Bool :=
  c = ' ' || c = '\t' || c = '\n' || c = '\x0b' || c = '\x0c' || c = '\r'

/-- Value of the leading run of decimal digits, accumulated onto `acc`. -/
def digits_value : Nat → CStr → Nat
  | acc, [] => acc
  | acc, c :: cs => if c.isDigit then digits_value (acc * 10 + (c.toNat - 48)) cs else acc

/-- C `strtol(s, NULL, 10)` for a `long` whose largest value is `long_max`. -/
def strtol (long_max : Nat) (s : CStr) : Int :=
  match s.dropWhile isspace with
  | '-' :: r => max (-((long_max : Int) + 1)) (-((digits_value 0 r : Nat) : Int))
  | '+' :: r => min (long_max : Int) (digits_value 0 r : Nat)
  | r => min (long_max : Int) (digits_value 0 r : Nat)

/-- Conversion of a C integer to `uint32_t`. -/
def to_uint32 (x : Int) : Nat :=
  (x % 4294967296).toNat

/-- Conversion of a C integer to `uint8_t`. -/
def to_uint8 (x : Int) : Nat :=
  (x % 256).toNat

/-! ## Data model -/

/-- Source `slsi_api_states_t`. -/
inductive slsi_api_states_t where
  | SLSI_WIFIAPI_STATE_NOT_STARTED
  | SLSI_WIFIAPI_STATE_SUPPLICANT_RUNNING
  | SLSI_WIFIAPI_STATE_STA_CONNECTING
  | SLSI_WIFIAPI_STATE_STA_CONNECTED
  | SLSI_WIFIAPI_STATE_STA_DISCONNECTING
  | SLSI_WIFIAPI_STATE_AP_ENABLING
  | SLSI_WIFIAPI_STATE_AP_ENABLED
  | SLSI_WIFIAPI_STATE_AP_CONNECTED
  | SLSI_WIFIAPI_STATE_AP_DISABLING
  | SLSI_WIFIAPI_STATE_TERMINATING
  | SLSI_WIFIAPI_STATE_RECOVERING
  | SLSI_WIFIAPI_STATE_P2P
  deriving DecidableEq, Repr

open slsi_api_states_t

/-- Integer value of an enumerator of `slsi_api_states_t`. -/
def slsi_api_states_t.toNat : slsi_api_states_t → Nat
  | SLSI_WIFIAPI_STATE_NOT_STARTED => 0
  | SLSI_WIFIAPI_STATE_SUPPLICANT_RUNNING => 1
  | SLSI_WIFIAPI_STATE_STA_CONNECTING => 2
  | SLSI_WIFIAPI_STATE_STA_CONNECTED => 3
  | SLSI_WIFIAPI_STATE_STA_DISCONNECTING => 4
  | SLSI_WIFIAPI_STATE_AP_ENABLING => 5
  | SLSI_WIFIAPI_STATE_AP_ENABLED => 6
  | SLSI_WIFIAPI_STATE_AP_CONNECTED => 7
  | SLSI_WIFIAPI_STATE_AP_DISABLING => 8
  | SLSI_WIFIAPI_STATE_TERMINATING => 9
  | SLSI_WIFIAPI_STATE_RECOVERING => 10
  | SLSI_WIFIAPI_STATE_P2P => 11

/-- Modelled from the spec: `WiFi_InterFace_ID_t` of `slsi_wifi_api.h`, the interface kinds
station / soft-AP / P2P and "none", in the order of `slsi_wifi_interface_id`. -/
inductive WiFi_InterFace_ID_t where
  | SLSI_WIFI_NONE
  | SLSI_WIFI_STATION_IF
  | SLSI_WIFI_SOFT_AP_IF
  | SLSI_WIFI_P2P_IF
  deriving DecidableEq, Repr

open WiFi_InterFace_ID_t

/-- Modelled from the spec: the result codes `SLSI_STATUS_*` of `slsi_wifi_api.h`, the closed
set Success, GenericError, CommandFailed, CommandUnknown, ParamFailed, AlreadyStarted,
AlreadyConnected, NotStarted, NotConnected, SecurityFailed, SupplicantStartFailed,
NotSupported, NotAllowed. -/
inductive slsi_status where
  | SLSI_STATUS_SUCCESS
  | SLSI_STATUS_ERROR
  | SLSI_STATUS_COMMAND_FAILED
  | SLSI_STATUS_COMMAND_UNKNOWN
  | SLSI_STATUS_PARAM_FAILED
  | SLSI_STATUS_ALREADY_STARTED
  | SLSI_STATUS_ALREADY_CONNECTED
  | SLSI_STATUS_NOT_STARTED
  | SLSI_STATUS_NOT_CONNECTED
  | SLSI_STATUS_SECURITY_FAILED
  | SLSI_STATUS_SUPPLICANT_START_FAILED
  | SLSI_STATUS_NOT_SUPPORTED
  | SLSI_STATUS_NOT_ALLOWED
  deriving DecidableEq, Repr

open slsi_status

/-- Modelled from the spec: `slsi_security_config_t` of `slsi_wifi_api.h`, a security mode
bitfield and a passphrase. -/
structure slsi_security_config_t where
  secmode : Nat
  passphrase : CStr
  deriving DecidableEq, Repr

/-- Modelled from the spec: one vendor information element of `slsi_wifi_api.h`, a 3-byte OUI
and a content buffer with its length; the `next` link is the list structure. -/
structure slsi_vendor_ie_t where
  oui : List Nat
  content : Option (List Nat)
  content_length : Nat
  deriving DecidableEq, Repr

/-- Modelled from the spec: `slsi_ht_config_t` of `slsi_wifi_api.h`, HT capability info and
the MCS indices. -/
structure slsi_ht_config_t where
  ht_capab_info : Nat
  mcs_index : List Nat
  deriving DecidableEq, Repr

/-- Modelled from the spec: `slsi_ap_config_t` of `slsi_wifi_api.h`, with the fields this
translation unit reads. -/
structure slsi_ap_config_t where
  ssid : List Char
  ssid_len : Nat
  channel : Nat
  beacon_period : Nat
  DTIM : Nat
  phy_mode : Nat
  ht_mode : slsi_ht_config_t
  security : Option slsi_security_config_t
  vsie : List slsi_vendor_ie_t
  deriving DecidableEq, Repr

/-- Modelled from the spec: `slsi_reason_t` of `slsi_wifi_api.h`: bssid, reason code,
locally-generated flag and, for link-up, ssid and ssid length.  The all-zero value is what
`memset(&reason, 0, sizeof(slsi_reason_t))` leaves. -/
structure slsi_reason_t where
  reason_code : Nat := 0
  locally_generated : Nat := 0
  ssid_len : Nat := 0
  ssid : List Char := []
  bssid : List Char := []
  deriving DecidableEq, Repr

/-- Modelled from the spec: the message tags of `slsi_callback_t` (`slsi_wifi_private.h`) that
this translation unit sends. -/
inductive slsi_callback_t where
  | SLSI_CALLBACK_SHUTDOWN
  | SLSI_CALLBACK_LINK_UP
  | SLSI_CALLBACK_LINK_DOWN
  | SLSI_CALLBACK_SCAN_RESULT
  deriving DecidableEq, Repr

open slsi_callback_t

/-- One message of the callback queue: the tag and the `slsi_msg_callback_t` payload. -/
structure mq_message where
  event : slsi_callback_t
  reason : slsi_reason_t
  deriving DecidableEq, Repr

/-- Identity of a registered callback function; `none` is the NULL function pointer. -/
abbrev callback_ptr := Option Nat

/-- Source `slsi_recovery_data_t`.  The default value is the zeroed structure. -/
structure slsi_recovery_data_t where
  old_state : slsi_api_states_t := SLSI_WIFIAPI_STATE_NOT_STARTED
  recovering_state : slsi_api_states_t := SLSI_WIFIAPI_STATE_NOT_STARTED
  old_interface_type : WiFi_InterFace_ID_t := SLSI_WIFI_NONE
  link_up : callback_ptr := none
  link_down : callback_ptr := none
  scan_result_handler : callback_ptr := none
  remote_bssid : List Char := []
  ap_config : Option slsi_ap_config_t := none
  ssid : List Char := []
  ssid_len : Int := 0
  bssid : List Char := []
  security : Option slsi_security_config_t := none
  deriving DecidableEq, Repr

/-- Modelled from the spec: `slsi_wifi_nv_data_t` of `slsi_wifi_nvmap.h`, the persisted record
with its initialization marker, country code and tx power. -/
structure slsi_wifi_nv_data_t where
  initialized : List Char
  country_code : List Char
  tx_power : Nat
  deriving DecidableEq, Repr

/-- The semaphores of the translation unit. -/
inductive sem_id where
  | g_sem_terminate
  | g_sem_ap_mode
  | g_sem_disconnect
  | g_sem_api_block
  | g_sem_recover
  deriving DecidableEq, Repr

open sem_id

/-- Outcome of one `wpa_ctrl_request` call: `-2` (timed out), another negative value
(failed), or `0` with the reply text. -/
inductive wpa_reply where
  | timeout
  | failed
  | text (buf : CStr)
  deriving DecidableEq, Repr

/-- The control connection to the supplicant: the handle `g_ctrl_conn` (`false` is NULL), the
outcomes of the `wpa_ctrl_request` calls still to come, and the commands handed to
`wpa_ctrl_request` so far. -/
structure Channel where
  g_ctrl_conn : Bool := false
  replies : List wpa_reply := []
  sent : List CStr := []
  deriving DecidableEq, Repr

/-- Synchronisation operations, in the order they are executed. -/
inductive sync_op where
  | lock
  | unlock
  | trylock
  | wait (s : sem_id)
  | post (s : sem_id)
  deriving DecidableEq, Repr

/-- The file-scope state of `slsi_wifi_api.c`, the monitor thread's `join_count`, and the
environment (`chan`, `events`) with its traces (`mq`, `sync_log`). -/
structure Driver where
  g_state : slsi_api_states_t := SLSI_WIFIAPI_STATE_NOT_STARTED
  chan : Channel := {}
  g_wpa_attached : Bool := false
  g_running : Bool := false
  g_scanning : Bool := false
  g_recovering : Bool := false
  g_callback_running : Bool := false
  g_send_cbmqfd : Bool := false
  g_recv_cbmqfd : Bool := false
  g_mutex_initialized : Bool := false
  g_scan_result_handler : callback_ptr := none
  g_link_up : callback_ptr := none
  g_link_down : callback_ptr := none
  g_ap_config : Option slsi_ap_config_t := none
  g_task : Int := 0
  g_network_id : Option CStr := none
  g_num_sta_connected : Nat := 0
  g_active_ifname : Option CStr := none
  g_scan_network_id : Option CStr := none
  g_nvram : Option slsi_wifi_nv_data_t := none
  g_country_code : CStr := []
  g_recovery_data : slsi_recovery_data_t := {}
  g_recovery_running : Bool := false
  sem_terminate : Nat := 0
  sem_ap_mode : Nat := 0
  sem_disconnect : Nat := 0
  sem_api_block : Nat := 0
  sem_recover : Nat := 0
  join_count : Nat := 0
  events : List CStr := []
  mq : List mq_message := []
  sync_log : List sync_op := []
  deriving DecidableEq, Repr

/-- Source `slsi_get_op_mode`, on the value of `g_state`; `p2p_api` is the build option
`CONFIG_SLSI_WIFI_P2P_API`. -/
def slsi_get_op_mode (p2p_api : Bool) (g_state : slsi_api_states_t) : WiFi_InterFace_ID_t :=
  if SLSI_WIFIAPI_STATE_SUPPLICANT_RUNNING.toNat ≤ g_state.toNat
      ∧ g_state.toNat ≤ SLSI_WIFIAPI_STATE_STA_DISCONNECTING.toNat then
    SLSI_WIFI_STATION_IF
  else if SLSI_WIFIAPI_STATE_AP_ENABLING.toNat ≤ g_state.toNat
      ∧ g_state.toNat ≤ SLSI_WIFIAPI_STATE_AP_DISABLING.toNat then
    SLSI_WIFI_SOFT_AP_IF
  else if p2p_api ∧ g_state = SLSI_WIFIAPI_STATE_P2P then
    SLSI_WIFI_P2P_IF
  else
    SLSI_WIFI_NONE

/-! ## Configuration: constants and helpers defined outside the translation unit -/

/-- Constants of `slsi_wifi_private.h`, `slsi_wifi_api.h` and `common/wpa_ctrl.h`, the build
options, and the helpers of other translation units (`printf_decode`, `printf_encode`, the
P2P entry points), on which the code of `slsi_wifi_api.c` is parametric.
`HT_CAP_INFO_GREEN_FIELD_str` is the text that `%s` reads when `slsi_set_ap_network` passes the
constant `HT_CAP_INFO_GREEN_FIELD` as a string, `mcs_index_addr` the value that `%x` prints for
the array `ht_mode.mcs_index`. -/
structure Config where
  CONFIG_SCSC_WLAN_AUTO_RECOVERY : Bool
  CONFIG_SLSI_WIFI_P2P_API : Bool
  REQUEST_RETRY_COUNT : Nat
  WPA_COMMAND_MAX_SIZE : Nat
  WPA_BUFFER_SIZE : Nat
  WPA_MAX_SSID_LEN : Nat
  SLSI_SSID_LEN : Nat
  SLSI_STA_JOIN_SCAN_ATTEMPT : Nat
  SLSI_REASON_NETWORK_CONFIGURATION_NOT_FOUND : Nat
  SLSI_REASON_NETWORK_AUTHENTICATION_FAILED : Nat
  SLSI_REASON_ASSOCIATION_REQ_FAILED : Nat
  SLSI_SCAN_INTERVAL : Nat
  SLSI_SCAN_INTERVAL_CONNECT : Nat
  LONG_MAX : Nat
  WPA_EVENT_SCAN_RESULTS : CStr
  WPA_EVENT_HANGED : CStr
  WPA_EVENT_CONNECTED : CStr
  WPA_EVENT_DISCONNECTED : CStr
  WPA_EVENT_NETWORK_NOT_FOUND : CStr
  WPA_EVENT_TEMP_DISABLED : CStr
  WPA_EVENT_TERMINATING : CStr
  AP_EVENT_ENABLED : CStr
  AP_EVENT_DISABLED : CStr
  AP_STA_CONNECTED : CStr
  AP_STA_DISCONNECTED : CStr
  WPA_COMMAND_DISCONNECT : CStr
  WPA_COMMAND_REMOVE_NETWORK : CStr
  WPA_COMMAND_DISABLE_NETWORK : CStr
  WPA_COMMAND_STOP_AP : CStr
  WPA_COMMAND_TERMINATE : CStr
  WPA_COMMAND_SCAN : CStr
  WPA_COMMAND_SCAN_INTERVAL : CStr
  WPA_COMMAND_STATUS : CStr
  WPA_COMMAND_LIST_NETWORKS : CStr
  WPA_COMMAND_ADD_NETWORK : CStr
  WPA_COMMAND_SET_NETWORK : CStr
  WPA_COMMAND_SELECT_NETWORK : CStr
  WPA_PARAM_BSSID : CStr
  WPA_PARAM_SSID : CStr
  WPA_PARAM_REASON : CStr
  WPA_PARAM_REASON_CODE : CStr
  WPA_PARAM_LOACLLY_GENERATED : CStr
  WPA_PARAM_WPA_STATE : CStr
  WPA_STATE_DISCONNECTED : CStr
  WPA_STATE_COMPLETED : CStr
  WPA_PARAM_SSID_ : CStr
  WPA_PARAM_BSSID_ : CStr
  WPA_PARAM_SCAN_SSID : CStr
  WPA_PARAM_KEY_MGMT_NONE : CStr
  WPA_PARAM_KEY_MGMT_WEP : CStr
  WPA_PARAM_KEY_MGMT_WPA_PSK : CStr
  WPA_PARAM_PROTO : CStr
  WPA_PARAM_PAIRWISE : CStr
  WPA_PARAM_GROUP : CStr
  WPA_PARAM_AUTH_ALG : CStr
  WPA_PARAM_WEPKEY : CStr
  WPA_PARAM_PSK : CStr
  WPA_VALUE_AUTH_ALG_OPEN : CStr
  WPA_VALUE_AUTH_ALG_SHARED : CStr
  WPA_VALUE_PROTO_MIXED : CStr
  WPA_VALUE_PROTO_RSN : CStr
  WPA_VALUE_PROTO_WPA : CStr
  WPA_VALUE_CIPHER_MIXED : CStr
  WPA_VALUE_CIPHER_CCMP : CStr
  WPA_VALUE_CIPHER_TKIP : CStr
  SLSI_PASSPHRASE_LEN : Nat
  SLSI_SEC_MODE_OPEN : Nat
  SLSI_SEC_MODE_WEP : Nat
  SLSI_SEC_MODE_WEP_SHARED : Nat
  SLSI_SEC_MODE_WPA_CCMP : Nat
  SLSI_SEC_MODE_WPA_MIXED : Nat
  SLSI_SEC_MODE_WPA2_CCMP : Nat
  SLSI_SEC_MODE_WPA2_MIXED : Nat
  SLSI_SEC_MODE_EAP : Nat
  CONFIG_HT_OVERRIDES : Bool
  HT_CAP_INFO_GREEN_FIELD : Nat
  HT_CAP_INFO_SHORT_GI20MHZ : Nat
  WPA_COMMAND_SET : CStr
  WPA_PARAM_MODE_AP : CStr
  WPA_PARAM_NETWORK_DISABLED : CStr
  WPA_PARAM_FREQUENCY_ : CStr
  WPA_PARAM_BEACON_INT_ : CStr
  WPA_PARAM_DTIM_PERIOD_ : CStr
  WPA_PARAM_VSIE : CStr
  WPA_PARAM_DISABLE_HT : CStr
  WPA_PARAM_HT_CAPAB : CStr
  WPA_PARAM_DISABLE_SHORT_GI : CStr
  WPA_PARAM_HT_MCS : CStr
  SLSI_WIFI_NV_DEFAULT_COUNTRY_CODE : CStr
  SLSI_WIFI_NV_DEFAULT_TX_POWER : Nat
  HT_CAP_INFO_GREEN_FIELD_str : CStr
  mcs_index_addr : Nat
  CONFIG_SLSI_WIFI_FILESYSTEM_SUPPORT : Bool
  WPA_COMMAND_SET_TX_POWER : CStr
  WPA_COMMAND_DRIVER : CStr
  WPA_PARAM_COUNTRY : CStr
  SLSI_SEC_MODE_WPA_TKIP : Nat
  SLSI_SEC_MODE_WPA2_TKIP : Nat
  WPA_COMMAND_BSS : CStr
  WPA_COMMAND_SCAN_RESULTS : CStr
  WPA_PARAM_FREQ : CStr
  WPA_PARAM_BEACON_INT : CStr
  WPA_PARAM_CAPABILITIES : CStr
  WPA_PARAM_QUAL : CStr
  WPA_PARAM_IE : CStr
  WPA_PARAM_FLAGS : CStr
  IEEE80211_CAP_IBSS : Nat
  WLAN_EID_HT_CAP : Nat
  WLAN_EID_VENDOR_SPECIFIC : Nat
  WPS_IE_VENDOR_TYPE : Nat
  ieee80211_freq_to_chan : Int → Nat
  printf_decode : Nat → CStr → List Char
  printf_encode : Nat → List Char → CStr
  slsi_p2p_event_handle : CStr → Driver → Driver
  slsi_p2p_stop : Driver → slsi_status × Driver

/-- Source `SLSI_EVENT_ASSOCIATION_REQ_FAILED`. -/
def SLSI_EVENT_ASSOCIATION_REQ_FAILED : CStr :=
  "Association request to the driver failed".toList

/-- Source `SLSI_SCAN_INTERVAL_MIN`. -/
def SLSI_SCAN_INTERVAL_MIN : Nat := 10

/-- Source `SLSI_SCAN_INTERVAL_MAX`. -/
def SLSI_SCAN_INTERVAL_MAX : Nat := 60

/-! ## Semaphores and the callback queue -/

/-- Count of a semaphore. -/
def Driver.semcount (d : Driver) : sem_id → Nat
  | g_sem_terminate => d.sem_terminate
  | g_sem_ap_mode => d.sem_ap_mode
  | g_sem_disconnect => d.sem_disconnect
  | g_sem_api_block => d.sem_api_block
  | g_sem_recover => d.sem_recover

/-- Store a semaphore count. -/
def Driver.set_semcount (d : Driver) (s : sem_id) (n : Nat) : Driver :=
  match s with
  | g_sem_terminate => { d with sem_terminate := n }
  | g_sem_ap_mode => { d with sem_ap_mode := n }
  | g_sem_disconnect => { d with sem_disconnect := n }
  | g_sem_api_block => { d with sem_api_block := n }
  | g_sem_recover => { d with sem_recover := n }

/-- C `sem_post`: one more unit on the semaphore. -/
def sem_post (s : sem_id) (d : Driver) : Driver :=
  { d.set_semcount s (d.semcount s + 1) with sync_log := d.sync_log ++ [sync_op.post s] }

/-- Source `slsi_send_mqueue`: the message is queued when the sender descriptor is open. -/
def slsi_send_mqueue (event : slsi_callback_t) (msg : Option slsi_reason_t) (d : Driver) :
    slsi_status × Driver :=
  if d.g_send_cbmqfd then
    (SLSI_STATUS_SUCCESS, { d with mq := d.mq ++ [⟨event, msg.getD {}⟩] })
  else
    (SLSI_STATUS_ERROR, d)

/-! ## Control channel -/

/-- Result of `slsi_send_request`: the returned buffer (`none` is NULL), the value stored
through the `result` pointer (`none` when nothing was stored), and the channel. -/
structure send_result where
  buf : Option CStr
  result : Option slsi_status
  chan : Channel

/-- Classification of a reply text in `slsi_send_request`. -/
def slsi_classify_reply (buf : CStr) : slsi_status :=
  if str_starts buf "OK".toList then SLSI_STATUS_SUCCESS
  else if str_starts buf "FAIL".toList then SLSI_STATUS_COMMAND_FAILED
  else if str_starts buf "UNKNOWN COMMAND".toList then SLSI_STATUS_COMMAND_UNKNOWN
  else SLSI_STATUS_ERROR

/-- The retry loop of `slsi_send_request` with `n` attempts left; `r` is the value last stored
through `result`.  An exhausted `replies` list is a supplicant that stays silent (timeout). -/
def slsi_send_request_loop (k : Config) (cmd : CStr) :
    Nat → Option slsi_status → Channel → send_result
  | 0, r, ch => ⟨some [], r, ch⟩
  | n + 1, _, ch =>
    let ch1 := { ch with sent := ch.sent ++ [cmd], replies := ch.replies.tail }
    match ch.replies.head? with
    | some (wpa_reply.text t) =>
      let buf := t.take (k.WPA_BUFFER_SIZE - 1)
      ⟨some buf, some (slsi_classify_reply buf), ch1⟩
    | some wpa_reply.failed => slsi_send_request_loop k cmd n (some SLSI_STATUS_ERROR) ch1
    | _ => slsi_send_request_loop k cmd n (some SLSI_STATUS_ERROR) ch1

/-- Source `slsi_send_request` (buffer allocation assumed to succeed). -/
def slsi_send_request (k : Config) (cmd : CStr) (ch : Channel) : send_result :=
  if !ch.g_ctrl_conn then ⟨none, none, ch⟩
  else slsi_send_request_loop k cmd k.REQUEST_RETRY_COUNT none ch

/-- Source `slsi_send_command_str_digit`: returns the value stored through `result`. -/
def slsi_send_command_str_digit (k : Config) (string : CStr) (digit : Nat) (ch : Channel) :
    Option slsi_status × Channel :=
  let r := slsi_send_request k
    (snprintf k.WPA_COMMAND_MAX_SIZE (string ++ Nat.toDigits 10 digit)) ch
  (r.result, r.chan)

/-- Source `slsi_send_command_str`, on the text `command` produced by the format: returns the
value stored through `result`. -/
def slsi_send_command_str (k : Config) (command : CStr) (ch : Channel) :
    Option slsi_status × Channel :=
  let command := snprintf k.WPA_COMMAND_MAX_SIZE command
  if command ≠ [] then
    let r := slsi_send_request k command ch
    (r.result, r.chan)
  else (none, ch)

/-- Source `slsi_send_command_str_upto_4`: returns the value stored through `result`. -/
def slsi_send_command_str_upto_4 (k : Config) (one two three four : Option CStr)
    (ch : Channel) : Option slsi_status × Channel :=
  let command : CStr :=
    match one, two, three, four with
    | some a, some b, some c, some e => snprintf k.WPA_COMMAND_MAX_SIZE (a ++ b ++ [' '] ++ c ++ e)
    | some a, some b, some c, none => snprintf k.WPA_COMMAND_MAX_SIZE (a ++ b ++ [' '] ++ c)
    | some a, some b, _, _ => snprintf k.WPA_COMMAND_MAX_SIZE (a ++ b)
    | some a, _, _, _ => snprintf k.WPA_COMMAND_MAX_SIZE a
    | none, _, _, _ => []
  if command ≠ [] then
    let r := slsi_send_request k command ch
    (r.result, r.chan)
  else
    (none, ch)

/-- Source `slsi_leave_network`. -/
def slsi_leave_network (k : Config) (ch : Channel) : slsi_status × Channel :=
  let r := slsi_send_command_str_upto_4 k (some k.WPA_COMMAND_DISCONNECT) none none none ch
  (r.1.getD SLSI_STATUS_ERROR, r.2)

/-- Source `slsi_remove_network`. -/
def slsi_remove_network (k : Config) (network_id : CStr) (ch : Channel) : Channel :=
  (slsi_send_command_str_upto_4 k (some k.WPA_COMMAND_REMOVE_NETWORK) (some network_id)
    none none ch).2

/-- Source `slsi_disable_all_networks`. -/
def slsi_disable_all_networks (k : Config) (ch : Channel) : slsi_status × Channel :=
  (SLSI_STATUS_SUCCESS,
    (slsi_send_command_str_upto_4 k (some k.WPA_COMMAND_DISABLE_NETWORK) none none none ch).2)

/-- Source `slsi_terminate_supplicant`. -/
def slsi_terminate_supplicant (k : Config) (ch : Channel) : slsi_status × Channel :=
  let r := slsi_send_command_str_upto_4 k (some k.WPA_COMMAND_TERMINATE) none none none ch
  (r.1.getD SLSI_STATUS_ERROR, r.2)

/-- Source `slsi_set_scan_interval`; the argument is converted to `uint8_t`. -/
def slsi_set_scan_interval (k : Config) (interval : Nat) (ch : Channel) : Channel :=
  let i := interval % 256
  let i := if i < SLSI_SCAN_INTERVAL_MIN then SLSI_SCAN_INTERVAL_MIN
    else if i > SLSI_SCAN_INTERVAL_MAX then SLSI_SCAN_INTERVAL_MAX else i
  (slsi_send_command_str_digit k k.WPA_COMMAND_SCAN_INTERVAL i ch).2

/-- Source `slsi_start_scan`. -/
def slsi_start_scan (k : Config) (d : Driver) : slsi_status × Driver :=
  let r := slsi_send_command_str_upto_4 k (some k.WPA_COMMAND_SCAN) none none none d.chan
  let result := r.1.getD SLSI_STATUS_ERROR
  (result, { d with chan := r.2,
                    g_scanning := if result = SLSI_STATUS_SUCCESS then true else d.g_scanning })

/-! ## Event helpers -/

/-- Source `slsi_event_received`. -/
def slsi_event_received (str event : CStr) : Bool :=
  if str_starts str event then true else false

/-- Source `slsi_scan_event_handler`. -/
def slsi_scan_event_handler (k : Config) (str event : CStr) (d : Driver) : Driver :=
  if str_starts str event then
    if str_starts str k.WPA_EVENT_SCAN_RESULTS then
      let d := { d with g_scanning := false }
      let d := (slsi_send_mqueue SLSI_CALLBACK_SCAN_RESULT none d).2
      match d.g_scan_network_id with
      | some id =>
        { d with chan := (slsi_send_command_str_upto_4 k (some k.WPA_COMMAND_REMOVE_NETWORK)
            (some id) none none d.chan).2 }
      | none => d
    else d
  else d

/-- Source `slsi_sta_disconnect_event_handler`: the reason parsed from a disconnect line. -/
def slsi_sta_disconnect_event_handler (k : Config) (str : CStr) : slsi_reason_t :=
  let reason : slsi_reason_t := {}
  let p : slsi_reason_t × CStr :=
    match strstr str k.WPA_PARAM_BSSID with
    | some s => ({ reason with bssid := (s.drop 6).take 17 }, (s.drop 6).drop 17)
    | none => ({ reason with bssid := [] }, str)
  let q : slsi_reason_t × CStr :=
    match strstr p.2 k.WPA_PARAM_REASON with
    | some s => ({ p.1 with reason_code := to_uint32 (strtol k.LONG_MAX (s.drop 7)) }, s)
    | none => (p.1, str)
  match strstr q.2 k.WPA_PARAM_LOACLLY_GENERATED with
  | none => { q.1 with locally_generated := 0 }
  | some s => { q.1 with locally_generated := to_uint8 (strtol k.LONG_MAX (s.drop 18)) }

/-- Source `slsi_check_status`, called with the `ssid`, `ssid_len` and `bssid` fields of
`reason`. -/
def slsi_check_status (k : Config) (reason : slsi_reason_t) (ch : Channel) :
    slsi_status × slsi_reason_t × Channel :=
  let reason := { reason with ssid_len := 0 }
  let r := slsi_send_request k (snprintf k.WPA_COMMAND_MAX_SIZE k.WPA_COMMAND_STATUS) ch
  match r.buf with
  | none => (SLSI_STATUS_ERROR, reason, r.chan)
  | some pbuf =>
    match strstr pbuf k.WPA_PARAM_WPA_STATE with
    | none => (SLSI_STATUS_ERROR, reason, r.chan)
    | some pos =>
      let pos := pos.drop 10
      if str_starts pos k.WPA_STATE_DISCONNECTED then (SLSI_STATUS_SUCCESS, reason, r.chan)
      else if str_starts pos k.WPA_STATE_COMPLETED then
        match strstr pbuf k.WPA_PARAM_BSSID with
        | none => (SLSI_STATUS_SUCCESS, reason, r.chan)
        | some pos =>
          let pos := pos.drop 6
          match strchr pos '\n' with
          | none => (SLSI_STATUS_ERROR, reason, r.chan)
          | some e =>
            let reason := { reason with bssid := (pos.take (pos.length - e.length)).take 18 }
            match strstr (e.drop 1) k.WPA_PARAM_SSID with
            | none => (SLSI_STATUS_SUCCESS, reason, r.chan)
            | some pos =>
              let pos := pos.drop 5
              match strchr pos '\n' with
              | none => (SLSI_STATUS_ERROR, reason, r.chan)
              | some e =>
                let ssid :=
                  k.printf_decode (k.SLSI_SSID_LEN + 1) (pos.take (pos.length - e.length))
                (SLSI_STATUS_SUCCESS, { reason with ssid := ssid, ssid_len := ssid.length },
                  r.chan)
      else (SLSI_STATUS_SUCCESS, reason, r.chan)

/-- Character of the reply buffer at offset `i`; there is none before the start of the buffer
or after its end. -/
def char_at (buf : CStr) (i : Int) : Option Char :=
  if i < 0 then none else buf.get? i.toNat

/-- Source `slsi_get_network`: the result and the string stored through `network_id`.  In the
reply `pbuf`, `name` is the offset where the encoded ssid is found; a read before the start of
the buffer does not find a newline. -/
def slsi_get_network (k : Config) (ssid : List Char) (ssid_len : Nat) (ch : Channel) :
    slsi_status × Option CStr × Channel :=
  let ssid_formated := k.printf_encode (k.WPA_MAX_SSID_LEN - 1) (ssid.take ssid_len)
  let r := slsi_send_request k (snprintf k.WPA_COMMAND_MAX_SIZE k.WPA_COMMAND_LIST_NETWORKS) ch
  match r.buf with
  | none => (SLSI_STATUS_ERROR, none, r.chan)
  | some pbuf =>
    match strchr pbuf '\n' with
    | none => (SLSI_STATUS_ERROR, none, r.chan)
    | some nl =>
      let pos := nl.drop 1
      match strstr pos ssid_formated with
      | none => (SLSI_STATUS_ERROR, none, r.chan)
      | some found =>
        let name : Int := (pbuf.length : Int) - found.length
        if char_at pbuf (name - 3) = some '\n' then
          (SLSI_STATUS_SUCCESS, some ((char_at pbuf (name - 2)).toList), r.chan)
        else if char_at pbuf (name - 4) = some '\n' then
          (SLSI_STATUS_SUCCESS,
            some ((char_at pbuf (name - 3)).toList ++ (char_at pbuf (name - 2)).toList), r.chan)
        else (SLSI_STATUS_ERROR, none, r.chan)

/-- Source `slsi_wpa_close`. -/
def slsi_wpa_close (terminate : Bool) (d : Driver) : slsi_status × Driver :=
  if d.chan.g_ctrl_conn then
    let d := if d.g_wpa_attached && !terminate then { d with g_wpa_attached := false } else d
    (SLSI_STATUS_SUCCESS, { d with chan := { d.chan with g_ctrl_conn := false } })
  else
    (SLSI_STATUS_ERROR, d)

/-- Source `slsi_deinit`; `sem_destroy` leaves the count as it is. -/
def slsi_deinit (d : Driver) : Driver :=
  let d := { d with
    g_scan_result_handler := none, g_link_up := none, g_link_down := none,
    g_wpa_attached := false, g_callback_running := false, g_running := false,
    g_scanning := false, g_state := SLSI_WIFIAPI_STATE_NOT_STARTED, g_task := 0,
    g_num_sta_connected := 0 }
  let d := sem_post g_sem_terminate d
  let d := sem_post g_sem_ap_mode d
  let d := sem_post g_sem_disconnect d
  let d := sem_post g_sem_api_block d
  { d with g_nvram := none, g_ap_config := none, g_network_id := none }

/-! ## Recovery -/

/-- Source `slsi_verify_back`. -/
def slsi_verify_back (k : Config) (d : Driver) : Driver :=
  let d := { d with g_link_up := d.g_recovery_data.link_up,
                    g_link_down := d.g_recovery_data.link_down }
  let d := if d.g_recovery_data.scan_result_handler.isSome then (slsi_start_scan k d).2 else d
  let d := sem_post g_sem_api_block d
  { d with g_recovering := false }

/-- Source `slsi_verify_recovered`. -/
def slsi_verify_recovered (k : Config) (d : Driver) : Driver :=
  if d.g_recovering then
    if d.g_recovery_data.recovering_state = d.g_state then
      let d := slsi_verify_back k d
      if d.g_recovery_data.recovering_state ≠ d.g_recovery_data.old_state then
        let reason : slsi_reason_t := {}
        match d.g_recovery_data.old_state with
        | SLSI_WIFIAPI_STATE_STA_DISCONNECTING =>
          if d.g_link_down.isSome then
            (slsi_send_mqueue SLSI_CALLBACK_LINK_DOWN (some reason) d).2 else d
        | SLSI_WIFIAPI_STATE_STA_CONNECTING =>
          if d.g_link_up.isSome then
            (slsi_send_mqueue SLSI_CALLBACK_LINK_UP (some reason) d).2 else d
        | SLSI_WIFIAPI_STATE_AP_CONNECTED =>
          if d.g_link_down.isSome then
            (slsi_send_mqueue SLSI_CALLBACK_LINK_DOWN (some reason) d).2 else d
        | _ => d
      else d
    else d
  else d

/-- Source `slsi_recovery_handler`: whether the line was handled, and the state. -/
def slsi_recovery_handler (k : Config) (str : CStr) (d : Driver) : Bool × Driver :=
  if slsi_event_received str k.WPA_EVENT_HANGED
      && d.g_state ≠ SLSI_WIFIAPI_STATE_TERMINATING then
    let d := { d with sync_log := d.sync_log ++ [sync_op.trylock, sync_op.unlock] }
    let d := { d with
      g_recovery_data := { d.g_recovery_data with old_state := d.g_state,
                                                   recovering_state := d.g_state },
      g_state := SLSI_WIFIAPI_STATE_RECOVERING }
    (true, { d with chan := (slsi_terminate_supplicant k d.chan).2 })
  else
    (false, d)

/-- Source `slsi_clean_recover`. -/
def slsi_clean_recover (d : Driver) : Driver :=
  let d := { d with g_recovery_running := false }
  let d := sem_post g_sem_recover d
  { d with g_recovery_data := {} }

/-! ## Monitor thread -/

/-- Link-down report of the `AP_STA_DISCONNECTED` branches of the monitor: `result` is the
line after the event name. -/
def slsi_ap_sta_disconnected_reason (k : Config) (result : CStr) : slsi_reason_t :=
  let reason : slsi_reason_t := if result.length ≥ 17 then { bssid := result.take 17 } else {}
  match strstr result k.WPA_PARAM_REASON_CODE with
  | some r =>
    { reason with
      reason_code := to_uint32 (strtol k.LONG_MAX (r.drop k.WPA_PARAM_REASON_CODE.length)) }
  | none => reason

/-- Source `slsi_monitor_thread_handler`, lines 1490-1517 of the `STA_CONNECTING` case: whether
the event is handled, the reason to report, and the state. -/
def slsi_monitor_sta_connecting_event (k : Config) (result : CStr) (d : Driver) :
    Bool × slsi_reason_t × Driver :=
  if slsi_event_received result k.WPA_EVENT_CONNECTED then
    let cs := slsi_check_status k {} d.chan
    let d := { d with chan := cs.2.2, g_state := SLSI_WIFIAPI_STATE_STA_CONNECTED }
    (true, cs.2.1, { d with chan := slsi_set_scan_interval k k.SLSI_SCAN_INTERVAL d.chan })
  else if slsi_event_received result k.WPA_EVENT_NETWORK_NOT_FOUND then
    if d.join_count = k.SLSI_STA_JOIN_SCAN_ATTEMPT then
      (true, { reason_code := k.SLSI_REASON_NETWORK_CONFIGURATION_NOT_FOUND % 4294967296 }, d)
    else
      (false, {}, { d with join_count := (d.join_count + 1) % 256 })
  else if slsi_event_received result k.WPA_EVENT_TEMP_DISABLED then
    (true, { reason_code := k.SLSI_REASON_NETWORK_AUTHENTICATION_FAILED % 4294967296 }, d)
  else if slsi_event_received result SLSI_EVENT_ASSOCIATION_REQ_FAILED then
    (true, { reason_code := k.SLSI_REASON_ASSOCIATION_REQ_FAILED % 4294967296 }, d)
  else if slsi_event_received result k.WPA_EVENT_DISCONNECTED then
    (true, { reason_code := k.SLSI_REASON_ASSOCIATION_REQ_FAILED % 4294967296 }, d)
  else (false, {}, d)

/-- Source `slsi_monitor_thread_handler`, the `switch (g_state)` statement applied to the
event text `result`. -/
def slsi_monitor_switch (k : Config) (result : CStr) (d : Driver) : Driver :=
  match d.g_state with
  | SLSI_WIFIAPI_STATE_SUPPLICANT_RUNNING =>
    let d :=
      if slsi_event_received result k.WPA_EVENT_CONNECTED then
        let cs := slsi_check_status k {} d.chan
        let reason := cs.2.1
        let gn := slsi_get_network k reason.ssid reason.ssid_len cs.2.2
        let d := { d with chan := gn.2.2 }
        let d := match gn.2.1 with
          | some id => { d with g_network_id := some id }
          | none => d
        let d := { d with g_state := SLSI_WIFIAPI_STATE_STA_CONNECTED }
        let d := { d with chan := slsi_set_scan_interval k k.SLSI_SCAN_INTERVAL d.chan }
        if d.g_link_up.isSome then (slsi_send_mqueue SLSI_CALLBACK_LINK_UP (some reason) d).2
        else d
      else d
    { d with join_count := 0 }
  | SLSI_WIFIAPI_STATE_AP_ENABLING =>
    if slsi_event_received result k.AP_EVENT_ENABLED then
      sem_post g_sem_ap_mode { d with g_state := SLSI_WIFIAPI_STATE_AP_ENABLED }
    else if slsi_event_received result k.AP_EVENT_DISABLED then
      sem_post g_sem_ap_mode { d with g_state := SLSI_WIFIAPI_STATE_SUPPLICANT_RUNNING }
    else d
  | SLSI_WIFIAPI_STATE_AP_ENABLED =>
    if slsi_event_received result k.AP_STA_CONNECTED then
      let d := { d with g_num_sta_connected := (d.g_num_sta_connected + 1) % 256 }
      let d := if d.g_num_sta_connected = 1 then
          { d with g_state := SLSI_WIFIAPI_STATE_AP_CONNECTED } else d
      let result := result.drop k.AP_STA_CONNECTED.length
      let reason : slsi_reason_t :=
        if result.length ≥ 17 then { bssid := result.take 17 } else {}
      if d.g_link_up.isSome then (slsi_send_mqueue SLSI_CALLBACK_LINK_UP (some reason) d).2
      else d
    else d
  | SLSI_WIFIAPI_STATE_AP_CONNECTED =>
    if slsi_event_received result k.AP_STA_DISCONNECTED then
      let d := { d with g_num_sta_connected := (d.g_num_sta_connected + 255) % 256 }
      let d := if d.g_num_sta_connected = 0 then
          { d with g_state := SLSI_WIFIAPI_STATE_AP_ENABLED } else d
      let reason := slsi_ap_sta_disconnected_reason k (result.drop k.AP_STA_DISCONNECTED.length)
      if d.g_link_down.isSome then (slsi_send_mqueue SLSI_CALLBACK_LINK_DOWN (some reason) d).2
      else d
    else d
  | SLSI_WIFIAPI_STATE_AP_DISABLING =>
    if slsi_event_received result k.AP_EVENT_DISABLED then
      sem_post g_sem_ap_mode { d with g_state := SLSI_WIFIAPI_STATE_SUPPLICANT_RUNNING }
    else if slsi_event_received result k.AP_EVENT_ENABLED then
      sem_post g_sem_ap_mode { d with g_state := SLSI_WIFIAPI_STATE_AP_ENABLED }
    else if slsi_event_received result k.AP_STA_DISCONNECTED then
      let d := { d with g_num_sta_connected := (d.g_num_sta_connected + 255) % 256 }
      let reason := slsi_ap_sta_disconnected_reason k (result.drop k.AP_STA_DISCONNECTED.length)
      if d.g_link_down.isSome then (slsi_send_mqueue SLSI_CALLBACK_LINK_DOWN (some reason) d).2
      else d
    else d
  | SLSI_WIFIAPI_STATE_STA_CONNECTING =>
    let r := slsi_monitor_sta_connecting_event k result d
    let event_handled := r.1
    let reason := r.2.1
    let d := r.2.2
    if event_handled then
      let d := { d with join_count := 0 }
      let d :=
        if reason.reason_code ≠ 0 then
          let d := { d with g_state := SLSI_WIFIAPI_STATE_SUPPLICANT_RUNNING }
          match d.g_network_id with
          | some id => { d with chan := slsi_remove_network k id d.chan, g_network_id := none }
          | none => d
        else d
      if d.g_link_up.isSome then (slsi_send_mqueue SLSI_CALLBACK_LINK_UP (some reason) d).2
      else d
    else d
  | SLSI_WIFIAPI_STATE_STA_CONNECTED =>
    if slsi_event_received result k.WPA_EVENT_DISCONNECTED then
      let reason := slsi_sta_disconnect_event_handler k result
      let d := { d with g_state := SLSI_WIFIAPI_STATE_SUPPLICANT_RUNNING }
      let d := if d.g_link_down.isSome then
          (slsi_send_mqueue SLSI_CALLBACK_LINK_DOWN (some reason) d).2 else d
      { d with g_network_id := none }
    else d
  | SLSI_WIFIAPI_STATE_STA_DISCONNECTING =>
    if slsi_event_received result k.WPA_EVENT_DISCONNECTED then
      let reason := slsi_sta_disconnect_event_handler k result
      let d := { d with g_state := SLSI_WIFIAPI_STATE_SUPPLICANT_RUNNING }
      let d := { d with chan := (slsi_disable_all_networks k d.chan).2 }
      let d := match d.g_network_id with
        | some id => { d with chan := slsi_remove_network k id d.chan, g_network_id := none }
        | none => d
      let d := sem_post g_sem_disconnect d
      if d.g_link_down.isSome then (slsi_send_mqueue SLSI_CALLBACK_LINK_DOWN (some reason) d).2
      else d
    else d
  | SLSI_WIFIAPI_STATE_TERMINATING =>
    if slsi_event_received result k.WPA_EVENT_TERMINATING then
      sem_post g_sem_terminate { d with g_running := false }
    else d
  | SLSI_WIFIAPI_STATE_RECOVERING =>
    if slsi_event_received result k.WPA_EVENT_TERMINATING = true then
      let d := if d.g_running then { d with g_running := false } else d
      let d := (slsi_wpa_close true d).2
      let d := slsi_deinit d
      if k.CONFIG_SCSC_WLAN_AUTO_RECOVERY then
        sem_post g_sem_recover { d with g_recovering := true }
      else d
    else d
  | _ => d

/-- Source `slsi_monitor_thread_handler`, the body of the `while (g_running)` loop for one
received `line`: framing prefix, hang detection, P2P or STA/AP dispatch, recovery check. -/
def slsi_monitor_handle_line (k : Config) (line : CStr) (d : Driver) : Driver :=
  match strchr line '>' with
  | none => d
  | some r =>
    let result := r.drop 1
    let h := if k.CONFIG_SCSC_WLAN_AUTO_RECOVERY then slsi_recovery_handler k result d
      else (false, d)
    let d := h.2
    let d :=
      if h.1 = false then
        if k.CONFIG_SLSI_WIFI_P2P_API && d.g_state = SLSI_WIFIAPI_STATE_P2P then
          k.slsi_p2p_event_handle result d
        else
          let d := if d.g_scanning then
              slsi_scan_event_handler k result k.WPA_EVENT_SCAN_RESULTS d else d
          slsi_monitor_switch k result d
      else d
    if k.CONFIG_SCSC_WLAN_AUTO_RECOVERY then slsi_verify_recovered k d else d

/-- One turn of the monitor thread: while it runs on an open control connection it takes the
next pending line and handles it; when that clears `g_running` it closes the sender queue and
ends.  `none`: the monitor has nothing to do. -/
def monitor_step (k : Config) (d : Driver) : Option Driver :=
  if d.g_running && d.chan.g_ctrl_conn then
    match d.events with
    | [] => none
    | line :: rest =>
      let d := slsi_monitor_handle_line k line { d with events := rest }
      if d.g_running then some d else some { d with g_send_cbmqfd := false }
  else none

/-- The sleep of `sem_wait` with `fuel` monitor turns at most: the caller is resumed as soon as
the count is positive. -/
def sem_wait_loop (k : Config) (s : sem_id) : Nat → Driver → Option Driver
  | 0, _ => none
  | fuel + 1, d =>
    if 0 < d.semcount s then some (d.set_semcount s (d.semcount s - 1))
    else
      match monitor_step k d with
      | none => none
      | some d1 => sem_wait_loop k s fuel d1

/-- C `sem_wait`.  Each monitor turn takes one pending line, so one turn per pending line and
one more is all the fuel the sleep can use. -/
def sem_wait (k : Config) (s : sem_id) (d : Driver) : Option Driver :=
  sem_wait_loop k s (d.events.length + 1) { d with sync_log := d.sync_log ++ [sync_op.wait s] }

/-- Source `ENTER_CRITICAL`, with `pthread_mutex_init` and `pthread_mutex_lock` succeeding. -/
def ENTER_CRITICAL (k : Config) (d : Driver) : Option Driver :=
  let d := if !d.g_mutex_initialized then { d with g_mutex_initialized := true } else d
  let d := { d with sync_log := d.sync_log ++ [sync_op.lock] }
  if (d.g_state = SLSI_WIFIAPI_STATE_RECOVERING || d.g_recovering) && d.g_mutex_initialized then
    if k.CONFIG_SCSC_WLAN_AUTO_RECOVERY then sem_wait k g_sem_api_block d else some d
  else some d

/-- Source `LEAVE_CRITICAL`. -/
def LEAVE_CRITICAL (d : Driver) : Driver :=
  if d.g_mutex_initialized then { d with sync_log := d.sync_log ++ [sync_op.unlock] } else d

/-! ## Start, stop, leave -/

/-- Source `slsi_is_connected`. -/
def slsi_is_connected (d : Driver) : Bool :=
  if d.g_state = SLSI_WIFIAPI_STATE_STA_CONNECTED
      ∨ d.g_state = SLSI_WIFIAPI_STATE_AP_CONNECTED then true else false

/-- Source `slsi_stop_ap`. -/
def slsi_stop_ap (k : Config) (d : Driver) : Option (slsi_status × Driver) :=
  let r := slsi_send_command_str_upto_4 k (some k.WPA_COMMAND_STOP_AP) none none none d.chan
  let result := r.1.getD SLSI_STATUS_ERROR
  let d := { d with chan := r.2 }
  if result = SLSI_STATUS_SUCCESS then
    match sem_wait k g_sem_ap_mode d with
    | none => none
    | some d =>
      if d.g_state ≠ SLSI_WIFIAPI_STATE_SUPPLICANT_RUNNING then some (SLSI_STATUS_ERROR, d)
      else some (result, d)
  else some (result, d)

/-- Source `slsi_stop_supplicant`. -/
def slsi_stop_supplicant (k : Config) (d : Driver) : Option (slsi_status × Driver) :=
  let d := if d.g_callback_running then (slsi_send_mqueue SLSI_CALLBACK_SHUTDOWN none d).2 else d
  let d := { d with g_state := SLSI_WIFIAPI_STATE_TERMINATING }
  let t := slsi_terminate_supplicant k d.chan
  let d := { d with chan := t.2 }
  let w := if t.1 = SLSI_STATUS_SUCCESS then sem_wait k g_sem_terminate d else some d
  match w with
  | none => none
  | some d =>
    let d := { d with g_active_ifname := none, g_task := 0 }
    let d := if d.g_running then { d with g_running := false } else d
    let d := if d.g_callback_running then { d with g_callback_running := false } else d
    let d := if d.g_send_cbmqfd then { d with g_send_cbmqfd := false } else d
    let d := if d.g_recv_cbmqfd then { d with g_recv_cbmqfd := false } else d
    some (slsi_wpa_close true d)

/-- Source `WiFiGetOpMode`: the status and the value stored through `ret`. -/
def WiFiGetOpMode (k : Config) (d : Driver) : slsi_status × WiFi_InterFace_ID_t :=
  (SLSI_STATUS_SUCCESS, slsi_get_op_mode k.CONFIG_SLSI_WIFI_P2P_API d.g_state)

/-- Source `WiFiStart`.  The start sequence proper, `slsi_api_start` (supplicant spawn, thread
creation, mode set-up), is the parameter `api_start`. -/
def WiFiStart (k : Config)
    (api_start : WiFi_InterFace_ID_t → Option slsi_ap_config_t → Driver → Option (slsi_status × Driver))
    (interface_id : WiFi_InterFace_ID_t) (ap_config : Option slsi_ap_config_t) (d : Driver) :
    Option (slsi_status × Driver) :=
  if interface_id = SLSI_WIFI_NONE
      ∨ (interface_id = SLSI_WIFI_SOFT_AP_IF ∧ ap_config = none) then
    some (SLSI_STATUS_PARAM_FAILED, d)
  else if interface_id = slsi_get_op_mode k.CONFIG_SLSI_WIFI_P2P_API d.g_state then
    some (SLSI_STATUS_ALREADY_STARTED, d)
  else
    match ENTER_CRITICAL k d with
    | none => none
    | some d =>
      match api_start interface_id ap_config d with
      | none => none
      | some r => some (r.1, LEAVE_CRITICAL r.2)

/-- Source `WiFiStop`, lines 3659-3693: the stop of the running mode. -/
def WiFiStop_mode (k : Config) (d : Driver) : Option (slsi_status × Driver) :=
  if d.g_state = SLSI_WIFIAPI_STATE_STA_CONNECTED then
    let d := { d with g_state := SLSI_WIFIAPI_STATE_STA_DISCONNECTING }
    let l := slsi_leave_network k d.chan
    let d := { d with chan := l.2 }
    if l.1 = SLSI_STATUS_SUCCESS then
      match sem_wait k g_sem_disconnect d with
      | none => none
      | some d => some (l.1, d)
    else some (l.1, d)
  else if slsi_get_op_mode k.CONFIG_SLSI_WIFI_P2P_API d.g_state = SLSI_WIFI_SOFT_AP_IF then
    let d := { d with g_state := SLSI_WIFIAPI_STATE_AP_DISABLING }
    match slsi_stop_ap k d with
    | none => none
    | some r =>
      match r.2.g_network_id with
      | some id =>
        some (r.1, { r.2 with chan := slsi_remove_network k id r.2.chan, g_network_id := none })
      | none => some r
  else if k.CONFIG_SLSI_WIFI_P2P_API && d.g_state = SLSI_WIFIAPI_STATE_P2P then
    some (k.slsi_p2p_stop d)
  else some (SLSI_STATUS_SUCCESS, d)

/-- Source `WiFiStop`. -/
def WiFiStop (k : Config) (d : Driver) : Option (slsi_status × Driver) :=
  if d.g_state = SLSI_WIFIAPI_STATE_NOT_STARTED then some (SLSI_STATUS_SUCCESS, d)
  else
    match ENTER_CRITICAL k d with
    | none => none
    | some d =>
      match WiFiStop_mode k d with
      | none => none
      | some m =>
        let d := LEAVE_CRITICAL (sem_post g_sem_disconnect m.2)
        match ENTER_CRITICAL k d with
        | none => none
        | some d =>
          let r : Option (slsi_status × Driver) :=
            if m.1 = SLSI_STATUS_SUCCESS then
              let d := if k.CONFIG_SCSC_WLAN_AUTO_RECOVERY then slsi_clean_recover d else d
              match slsi_stop_supplicant k d with
              | none => none
              | some s => some (s.1, slsi_deinit s.2)
            else some (m.1, d)
          match r with
          | none => none
          | some r => some (r.1, { r.2 with g_mutex_initialized := false })

/-- Source `WiFiNetworkLeave`. -/
def WiFiNetworkLeave (k : Config) (d : Driver) : Option (slsi_status × Driver) :=
  match ENTER_CRITICAL k d with
  | none => none
  | some d =>
    let r : Option (slsi_status × Driver) :=
      if d.g_state ≠ SLSI_WIFIAPI_STATE_NOT_STARTED then
        if slsi_is_connected d then
          let d := { d with g_state := SLSI_WIFIAPI_STATE_STA_DISCONNECTING }
          let l := slsi_leave_network k d.chan
          let d := { d with chan := l.2 }
          if l.1 = SLSI_STATUS_SUCCESS then
            match sem_wait k g_sem_disconnect d with
            | none => none
            | some d => some (l.1, d)
          else some (l.1, d)
        else some (SLSI_STATUS_NOT_CONNECTED, d)
      else some (SLSI_STATUS_NOT_STARTED, d)
    match r with
    | none => none
    | some r => some (r.1, LEAVE_CRITICAL r.2)

/-! ## Join -/

/-- Source `SLSI_WIFI_WEP_ASCII_KEY_MIN`. -/
def SLSI_WIFI_WEP_ASCII_KEY_MIN : Nat := 5

/-- Source `SLSI_WIFI_WEP_ASCII_KEY_MAX`. -/
def SLSI_WIFI_WEP_ASCII_KEY_MAX : Nat := 13

/-- Source `SLSI_WIFI_WEP_HEX_KEY_MIN`. -/
def SLSI_WIFI_WEP_HEX_KEY_MIN : Nat := 10

/-- Source `SLSI_WIFI_WEP_HEX_KEY_MAX`. -/
def SLSI_WIFI_WEP_HEX_KEY_MAX : Nat := 26

/-- Source `SLSI_WIFI_WPA_ASCII_KEY_MIN`. -/
def SLSI_WIFI_WPA_ASCII_KEY_MIN : Nat := 8

/-- Source `SLSI_WIFI_WPA_ASCII_KEY_MAX`. -/
def SLSI_WIFI_WPA_ASCII_KEY_MAX (k : Config) : Nat := k.SLSI_PASSPHRASE_LEN - 1

/-- Source `slsi_set_security`, lines 1903-1963: the choice of `keymgmt` with the protocol and
cipher commands; on the left the `goto errout` exits.  `op_mode` is `slsi_get_op_mode()`. -/
def slsi_set_security_mode (k : Config) (op_mode : WiFi_InterFace_ID_t)
    (sec : slsi_security_config_t) (network_id : CStr) (result : slsi_status) (ch : Channel) :
    (slsi_status × Channel) ⊕ (CStr × slsi_status × Channel) :=
  if sec.secmode = k.SLSI_SEC_MODE_OPEN then
    .inr (k.WPA_PARAM_KEY_MGMT_NONE, result, ch)
  else if sec.secmode = k.SLSI_SEC_MODE_WEP ∨ sec.secmode = k.SLSI_SEC_MODE_WEP_SHARED then
    if op_mode = SLSI_WIFI_SOFT_AP_IF then .inl (SLSI_STATUS_PARAM_FAILED, ch)
    else .inr (k.WPA_PARAM_KEY_MGMT_WEP, result, ch)
  else if sec.secmode = k.SLSI_SEC_MODE_EAP then .inl (SLSI_STATUS_PARAM_FAILED, ch)
  else if sec.secmode = (k.SLSI_SEC_MODE_WEP ||| k.SLSI_SEC_MODE_WEP_SHARED) then
    .inl (SLSI_STATUS_PARAM_FAILED, ch)
  else if sec.secmode &&& (k.SLSI_SEC_MODE_WPA_MIXED ||| k.SLSI_SEC_MODE_WPA2_MIXED) ≠ 0 then
    let proto :=
      if sec.secmode &&& k.SLSI_SEC_MODE_WPA_MIXED ≠ 0
          ∧ sec.secmode &&& k.SLSI_SEC_MODE_WPA2_MIXED ≠ 0 then k.WPA_VALUE_PROTO_MIXED
      else if sec.secmode &&& k.SLSI_SEC_MODE_WPA2_MIXED ≠ 0 then k.WPA_VALUE_PROTO_RSN
      else k.WPA_VALUE_PROTO_WPA
    let r1 := slsi_send_command_str_upto_4 k (some k.WPA_COMMAND_SET_NETWORK) (some network_id)
      (some k.WPA_PARAM_PROTO) (some proto) ch
    let result := r1.1.getD result
    if result ≠ SLSI_STATUS_SUCCESS then .inl (result, r1.2)
    else
      let pairwise :=
        if sec.secmode = k.SLSI_SEC_MODE_WPA_MIXED ∨ sec.secmode = k.SLSI_SEC_MODE_WPA2_MIXED
            ∨ sec.secmode = (k.SLSI_SEC_MODE_WPA_MIXED ||| k.SLSI_SEC_MODE_WPA2_MIXED) then
          k.WPA_VALUE_CIPHER_MIXED
        else if sec.secmode = k.SLSI_SEC_MODE_WPA_CCMP
            ∨ sec.secmode = k.SLSI_SEC_MODE_WPA2_CCMP then k.WPA_VALUE_CIPHER_CCMP
        else k.WPA_VALUE_CIPHER_TKIP
      let r2 := slsi_send_command_str_upto_4 k (some k.WPA_COMMAND_SET_NETWORK)
        (some network_id) (some k.WPA_PARAM_PAIRWISE) (some pairwise) r1.2
      let result := r2.1.getD result
      if result ≠ SLSI_STATUS_SUCCESS then .inl (result, r2.2)
      else if op_mode = SLSI_WIFI_SOFT_AP_IF then
        let r3 := slsi_send_command_str_upto_4 k (some k.WPA_COMMAND_SET_NETWORK)
          (some network_id) (some k.WPA_PARAM_GROUP) (some pairwise) r2.2
        let result := r3.1.getD result
        if result ≠ SLSI_STATUS_SUCCESS then .inl (result, r3.2)
        else .inr (k.WPA_PARAM_KEY_MGMT_WPA_PSK, result, r3.2)
      else .inr (k.WPA_PARAM_KEY_MGMT_WPA_PSK, result, r2.2)
  else .inl (SLSI_STATUS_PARAM_FAILED, ch)

/-- Source `slsi_set_security`, lines 1982-2016: the key command for a non-empty passphrase,
`none` when its length is out of bounds. -/
def slsi_set_security_key (k : Config) (sec : slsi_security_config_t) (network_id : CStr) :
    Option CStr :=
  let len := sec.passphrase.length
  if sec.secmode = k.SLSI_SEC_MODE_WEP ∨ sec.secmode = k.SLSI_SEC_MODE_WEP_SHARED then
    if sec.passphrase.head? = some '"' then
      if len ≥ SLSI_WIFI_WEP_ASCII_KEY_MIN + 2 ∧ len ≤ SLSI_WIFI_WEP_ASCII_KEY_MAX + 2 then
        some (snprintf k.WPA_COMMAND_MAX_SIZE
          (k.WPA_COMMAND_SET_NETWORK ++ network_id ++ [' '] ++ k.WPA_PARAM_WEPKEY ++ sec.passphrase))
      else none
    else
      if len ≥ SLSI_WIFI_WEP_HEX_KEY_MIN ∧ len ≤ SLSI_WIFI_WEP_HEX_KEY_MAX then
        some (snprintf k.WPA_COMMAND_MAX_SIZE
          (k.WPA_COMMAND_SET_NETWORK ++ network_id ++ [' '] ++ k.WPA_PARAM_WEPKEY ++ sec.passphrase))
      else none
  else
    if len ≥ SLSI_WIFI_WPA_ASCII_KEY_MIN ∧ len ≤ SLSI_WIFI_WPA_ASCII_KEY_MAX k then
      some (snprintf k.WPA_COMMAND_MAX_SIZE
        (k.WPA_COMMAND_SET_NETWORK ++ network_id ++ [' '] ++ k.WPA_PARAM_PSK ++ ['"']
          ++ sec.passphrase ++ ['"']))
    else none

/-- Source `slsi_set_security`; `op_mode` is `slsi_get_op_mode()`. -/
def slsi_set_security (k : Config) (op_mode : WiFi_InterFace_ID_t)
    (sec_config : Option slsi_security_config_t) (network_id : CStr) (ch : Channel) :
    slsi_status × Channel :=
  let result := SLSI_STATUS_SECURITY_FAILED
  match sec_config with
  | none =>
    let r := slsi_send_command_str_upto_4 k (some k.WPA_COMMAND_SET_NETWORK) (some network_id)
      (some k.WPA_PARAM_KEY_MGMT_NONE) none ch
    (r.1.getD result, r.2)
  | some sec =>
    match slsi_set_security_mode k op_mode sec network_id result ch with
    | .inl e => e
    | .inr (keymgmt, result, ch) =>
      let r := slsi_send_command_str_upto_4 k (some k.WPA_COMMAND_SET_NETWORK) (some network_id)
        (some keymgmt) none ch
      let result := r.1.getD result
      if result ≠ SLSI_STATUS_SUCCESS then (result, r.2)
      else
        let authalg := if sec.secmode = k.SLSI_SEC_MODE_WEP_SHARED then
            k.WPA_VALUE_AUTH_ALG_SHARED else k.WPA_VALUE_AUTH_ALG_OPEN
        let r := slsi_send_command_str_upto_4 k (some k.WPA_COMMAND_SET_NETWORK)
          (some network_id) (some k.WPA_PARAM_AUTH_ALG) (some authalg) r.2
        let result := r.1.getD result
        if result ≠ SLSI_STATUS_SUCCESS then (result, r.2)
        else if sec.secmode ≠ k.SLSI_SEC_MODE_OPEN ∧ sec.passphrase ≠ [] then
          match slsi_set_security_key k sec network_id with
          | none => (SLSI_STATUS_PARAM_FAILED, r.2)
          | some command =>
            let q := slsi_send_request k command r.2
            match q.buf with
            | some _ => (q.result.getD result, q.chan)
            | none => (result, q.chan)
        else (result, r.2)

/-- Source `slsi_save_join`. -/
def slsi_save_join (ssid : List Char) (ssid_len : Nat) (bssid : Option CStr)
    (sec_config : Option slsi_security_config_t) (d : Driver) : Driver :=
  { d with g_recovery_data := { d.g_recovery_data with
      ssid := ssid, ssid_len := ssid_len, bssid := bssid.getD [], security := sec_config } }

/-- Source `slsi_join_network`, lines 2166-2212: the network entry to join, found in the list
or newly added; on the left the `goto errout` exits.  (`slsi_get_network` stores a network id
exactly when it succeeds, so the last case is not reached.) -/
def slsi_join_network_entry (k : Config) (ssid : List Char) (ssid_len : Nat)
    (bssid : Option CStr) (ch : Channel) : (slsi_status × Channel) ⊕ (CStr × Channel) :=
  let g := slsi_get_network k ssid ssid_len ch
  let result := g.1
  match g.2.1 with
  | some network_id => .inr (network_id, g.2.2)
  | none =>
    if result ≠ SLSI_STATUS_SUCCESS then
      let r := slsi_send_request k (snprintf k.WPA_COMMAND_MAX_SIZE k.WPA_COMMAND_ADD_NETWORK)
        g.2.2
      match r.buf with
      | none => .inl (result, r.chan)
      | some pbuf =>
        let network_id := pbuf.takeWhile (fun c => c ≠ '\r' && c ≠ '\n')
        let ssid_formatted := k.printf_encode k.WPA_MAX_SSID_LEN (ssid.take ssid_len)
        let r1 := slsi_send_request k (snprintf k.WPA_COMMAND_MAX_SIZE
          (k.WPA_COMMAND_SET_NETWORK ++ network_id ++ [' '] ++ k.WPA_PARAM_SSID_ ++ ['P', '"']
            ++ ssid_formatted ++ ['"'])) r.chan
        let result := r1.result.getD result
        if r1.buf.isSome ∧ result ≠ SLSI_STATUS_SUCCESS then .inl (result, r1.chan)
        else
          let r2 := slsi_send_request k (snprintf k.WPA_COMMAND_MAX_SIZE
            (k.WPA_COMMAND_SET_NETWORK ++ network_id ++ [' '] ++ k.WPA_PARAM_SCAN_SSID
              ++ Nat.toDigits 10 1)) r1.chan
          let result := r2.result.getD result
          if r2.buf.isSome ∧ result ≠ SLSI_STATUS_SUCCESS then .inl (result, r2.chan)
          else
            match bssid with
            | some (b :: bs) =>
              let r3 := slsi_send_command_str k
                (k.WPA_COMMAND_SET_NETWORK ++ network_id ++ [' '] ++ k.WPA_PARAM_BSSID_ ++ (b :: bs))
                r2.chan
              let result := r3.1.getD result
              if result ≠ SLSI_STATUS_SUCCESS then .inl (result, r3.2)
              else .inr (network_id, r3.2)
            | _ => .inr (network_id, r2.chan)
    else .inr ([], g.2.2)

/-- Source `slsi_join_network`. -/
def slsi_join_network (k : Config) (ssid : List Char) (ssid_len : Nat) (bssid : Option CStr)
    (sec_config : Option slsi_security_config_t) (d : Driver) : slsi_status × Driver :=
  match slsi_join_network_entry k ssid ssid_len bssid d.chan with
  | .inl e => (e.1, { d with chan := e.2 })
  | .inr (network_id, ch) =>
    let s := slsi_set_security k (slsi_get_op_mode k.CONFIG_SLSI_WIFI_P2P_API d.g_state)
      sec_config network_id ch
    if s.1 ≠ SLSI_STATUS_SUCCESS then
      (s.1, { d with chan := (slsi_send_command_str_upto_4 k (some k.WPA_COMMAND_REMOVE_NETWORK)
        (some network_id) none none s.2).2 })
    else
      let d := { d with chan := s.2, g_state := SLSI_WIFIAPI_STATE_STA_CONNECTING }
      let d := { d with chan := slsi_set_scan_interval k k.SLSI_SCAN_INTERVAL_CONNECT d.chan }
      let r := slsi_send_command_str_upto_4 k (some k.WPA_COMMAND_SELECT_NETWORK)
        (some network_id) none none d.chan
      let result := r.1.getD s.1
      if result ≠ SLSI_STATUS_SUCCESS then
        (result, { d with chan := r.2, g_state := SLSI_WIFIAPI_STATE_SUPPLICANT_RUNNING })
      else
        (result, { d with chan := r.2, g_network_id := some network_id })

/-- Source `WiFiNetworkJoin`, line 3825: the test on the security configuration. -/
def WiFiNetworkJoin_security_ok (security_config : Option slsi_security_config_t) : Bool :=
  match security_config with
  | none => true
  | some sec => sec.secmode ≠ 0 && sec.passphrase ≠ []

/-- Source `WiFiNetworkJoin`. -/
def WiFiNetworkJoin (k : Config) (ssid : List Char) (ssid_len : Nat) (bssid : Option CStr)
    (security_config : Option slsi_security_config_t) (d : Driver) :
    Option (slsi_status × Driver) :=
  match ENTER_CRITICAL k d with
  | none => none
  | some d =>
    let r : slsi_status × Driver :=
      if d.g_state = SLSI_WIFIAPI_STATE_STA_CONNECTED then (SLSI_STATUS_ALREADY_CONNECTED, d)
      else if d.g_state = SLSI_WIFIAPI_STATE_SUPPLICANT_RUNNING then
        if WiFiNetworkJoin_security_ok security_config then
          let d := if k.CONFIG_SCSC_WLAN_AUTO_RECOVERY && !d.g_recovering then
              slsi_save_join ssid ssid_len bssid security_config d else d
          slsi_join_network k ssid ssid_len bssid security_config d
        else (SLSI_STATUS_NOT_STARTED, d)
      else (SLSI_STATUS_NOT_STARTED, d)
    some (r.1, LEAVE_CRITICAL r.2)

/-- Channel of an outcome of `slsi_set_security_mode`. -/
def slsi_set_security_mode_chan :
    (slsi_status × Channel) ⊕ (CStr × slsi_status × Channel) → Channel
  | .inl e => e.2
  | .inr e => e.2.2

/-- Channel of an outcome of `slsi_join_network_entry`. -/
def slsi_join_network_entry_chan : (slsi_status × Channel) ⊕ (CStr × Channel) → Channel
  | .inl e => e.2
  | .inr e => e.2

/-! ## Event lines -/

/-- The event text of a received line, as the monitor loop takes it: what follows the first
`>` of the line. -/
def event_text (line : CStr) : Option CStr :=
  match strchr line '>' with
  | none => none
  | some r => some (r.drop 1)

/-- The received `line` carries the event `name`: its event text starts with `name`. -/
def is_event (line name : CStr) : Bool :=
  match event_text line with
  | some ev => slsi_event_received ev name
  | none => false

/-- The event names the monitor thread tests for. -/
def Config.event_names (k : Config) : List CStr :=
  [k.WPA_EVENT_SCAN_RESULTS, k.WPA_EVENT_HANGED, k.WPA_EVENT_CONNECTED,
   k.WPA_EVENT_DISCONNECTED, k.WPA_EVENT_NETWORK_NOT_FOUND, k.WPA_EVENT_TEMP_DISABLED,
   k.WPA_EVENT_TERMINATING, k.AP_EVENT_ENABLED, k.AP_EVENT_DISABLED, k.AP_STA_CONNECTED,
   k.AP_STA_DISCONNECTED, SLSI_EVENT_ASSOCIATION_REQ_FAILED]

/-- No event name is a prefix of another one: a line carries at most one event. -/
def Config.events_distinct (k : Config) : Prop :=
  k.event_names.Pairwise (fun a b => a.isPrefixOf b = false ∧ b.isPrefixOf a = false)

/-- Whether the event names are pairwise prefix-free can be computed. -/
instance Config.events_distinct_decidable (k : Config) : Decidable k.events_distinct :=
  inferInstanceAs (Decidable (List.Pairwise _ _))

/-- The monitor thread handling the received `lines` one after the other. -/
def monitor_run (k : Config) (lines : List CStr) (d : Driver) : Driver :=
  lines.foldl (fun d line => slsi_monitor_handle_line k line d) d

/-! ## A concrete configuration -/

/-- Configuration with the control-interface vocabulary of wpa_supplicant, both build options
on, and P2P entry points that do nothing; used to run the model on concrete inputs. -/
def wpa_config : Config where
  CONFIG_SCSC_WLAN_AUTO_RECOVERY := true
  CONFIG_SLSI_WIFI_P2P_API := true
  REQUEST_RETRY_COUNT := 3
  WPA_COMMAND_MAX_SIZE := 256
  WPA_BUFFER_SIZE := 4096
  WPA_MAX_SSID_LEN := 128
  SLSI_SSID_LEN := 32
  SLSI_STA_JOIN_SCAN_ATTEMPT := 2
  SLSI_REASON_NETWORK_CONFIGURATION_NOT_FOUND := 45
  SLSI_REASON_NETWORK_AUTHENTICATION_FAILED := 46
  SLSI_REASON_ASSOCIATION_REQ_FAILED := 47
  SLSI_SCAN_INTERVAL := 10
  SLSI_SCAN_INTERVAL_CONNECT := 5
  LONG_MAX := 2147483647
  WPA_EVENT_SCAN_RESULTS := "CTRL-EVENT-SCAN-RESULTS ".toList
  WPA_EVENT_HANGED := "CTRL-EVENT-HANGED ".toList
  WPA_EVENT_CONNECTED := "CTRL-EVENT-CONNECTED ".toList
  WPA_EVENT_DISCONNECTED := "CTRL-EVENT-DISCONNECTED ".toList
  WPA_EVENT_NETWORK_NOT_FOUND := "CTRL-EVENT-NETWORK-NOT-FOUND ".toList
  WPA_EVENT_TEMP_DISABLED := "CTRL-EVENT-SSID-TEMP-DISABLED ".toList
  WPA_EVENT_TERMINATING := "CTRL-EVENT-TERMINATING ".toList
  AP_EVENT_ENABLED := "AP-ENABLED ".toList
  AP_EVENT_DISABLED := "AP-DISABLED ".toList
  AP_STA_CONNECTED := "AP-STA-CONNECTED ".toList
  AP_STA_DISCONNECTED := "AP-STA-DISCONNECTED ".toList
  WPA_COMMAND_DISCONNECT := "DISCONNECT".toList
  WPA_COMMAND_REMOVE_NETWORK := "REMOVE_NETWORK ".toList
  WPA_COMMAND_DISABLE_NETWORK := "DISABLE_NETWORK all".toList
  WPA_COMMAND_STOP_AP := "STOP_AP".toList
  WPA_COMMAND_TERMINATE := "TERMINATE".toList
  WPA_COMMAND_SCAN := "SCAN".toList
  WPA_COMMAND_SCAN_INTERVAL := "SCAN_INTERVAL ".toList
  WPA_COMMAND_STATUS := "STATUS".toList
  WPA_COMMAND_LIST_NETWORKS := "LIST_NETWORKS".toList
  WPA_COMMAND_ADD_NETWORK := "ADD_NETWORK".toList
  WPA_COMMAND_SET_NETWORK := "SET_NETWORK ".toList
  WPA_COMMAND_SELECT_NETWORK := "SELECT_NETWORK ".toList
  WPA_PARAM_BSSID := "bssid=".toList
  WPA_PARAM_SSID := "ssid=".toList
  WPA_PARAM_REASON := "reason=".toList
  WPA_PARAM_REASON_CODE := "reason_code=".toList
  WPA_PARAM_LOACLLY_GENERATED := "locally_generated=".toList
  WPA_PARAM_WPA_STATE := "wpa_state=".toList
  WPA_STATE_DISCONNECTED := "DISCONNECTED".toList
  WPA_STATE_COMPLETED := "COMPLETED".toList
  WPA_PARAM_SSID_ := "ssid ".toList
  WPA_PARAM_BSSID_ := "bssid ".toList
  WPA_PARAM_SCAN_SSID := "scan_ssid ".toList
  WPA_PARAM_KEY_MGMT_NONE := "key_mgmt NONE".toList
  WPA_PARAM_KEY_MGMT_WEP := "key_mgmt NONE".toList
  WPA_PARAM_KEY_MGMT_WPA_PSK := "key_mgmt WPA-PSK".toList
  WPA_PARAM_PROTO := "proto ".toList
  WPA_PARAM_PAIRWISE := "pairwise ".toList
  WPA_PARAM_GROUP := "group ".toList
  WPA_PARAM_AUTH_ALG := "auth_alg ".toList
  WPA_PARAM_WEPKEY := "wep_key0 ".toList
  WPA_PARAM_PSK := "psk ".toList
  WPA_VALUE_AUTH_ALG_OPEN := "OPEN".toList
  WPA_VALUE_AUTH_ALG_SHARED := "SHARED".toList
  WPA_VALUE_PROTO_MIXED := "WPA RSN".toList
  WPA_VALUE_PROTO_RSN := "RSN".toList
  WPA_VALUE_PROTO_WPA := "WPA".toList
  WPA_VALUE_CIPHER_MIXED := "CCMP TKIP".toList
  WPA_VALUE_CIPHER_CCMP := "CCMP".toList
  WPA_VALUE_CIPHER_TKIP := "TKIP".toList
  SLSI_PASSPHRASE_LEN := 65
  SLSI_SEC_MODE_OPEN := 0
  SLSI_SEC_MODE_WEP := 1
  SLSI_SEC_MODE_WEP_SHARED := 2
  SLSI_SEC_MODE_WPA_CCMP := 8
  SLSI_SEC_MODE_WPA_MIXED := 12
  SLSI_SEC_MODE_WPA2_CCMP := 32
  SLSI_SEC_MODE_WPA2_MIXED := 48
  SLSI_SEC_MODE_EAP := 64
  CONFIG_HT_OVERRIDES := true
  HT_CAP_INFO_GREEN_FIELD := 16
  HT_CAP_INFO_SHORT_GI20MHZ := 32
  WPA_COMMAND_SET := "SET ".toList
  WPA_PARAM_MODE_AP := "mode 2".toList
  WPA_PARAM_NETWORK_DISABLED := "disabled 0".toList
  WPA_PARAM_FREQUENCY_ := "frequency ".toList
  WPA_PARAM_BEACON_INT_ := "beacon_int".toList
  WPA_PARAM_DTIM_PERIOD_ := "dtim_period".toList
  WPA_PARAM_VSIE := "ap_vendor_elements dd".toList
  WPA_PARAM_DISABLE_HT := "disable_ht 1".toList
  WPA_PARAM_HT_CAPAB := "ht_capab ".toList
  WPA_PARAM_DISABLE_SHORT_GI := "disable_sgi 1".toList
  WPA_PARAM_HT_MCS := "ht_mcs ".toList
  SLSI_WIFI_NV_DEFAULT_COUNTRY_CODE := "00".toList
  SLSI_WIFI_NV_DEFAULT_TX_POWER := 30
  HT_CAP_INFO_GREEN_FIELD_str := []
  mcs_index_addr := 0
  CONFIG_SLSI_WIFI_FILESYSTEM_SUPPORT := true
  WPA_COMMAND_SET_TX_POWER := "SET_TX_POWER ".toList
  WPA_COMMAND_DRIVER := "DRIVER ".toList
  WPA_PARAM_COUNTRY := "COUNTRY".toList
  SLSI_SEC_MODE_WPA_TKIP := 4
  SLSI_SEC_MODE_WPA2_TKIP := 16
  WPA_COMMAND_BSS := "BSS ".toList
  WPA_COMMAND_SCAN_RESULTS := "SCAN_RESULTS".toList
  WPA_PARAM_FREQ := "freq=".toList
  WPA_PARAM_BEACON_INT := "beacon_int=".toList
  WPA_PARAM_CAPABILITIES := "capabilities=".toList
  WPA_PARAM_QUAL := "qual=".toList
  WPA_PARAM_IE := "ie=".toList
  WPA_PARAM_FLAGS := "flags=".toList
  IEEE80211_CAP_IBSS := 2
  WLAN_EID_HT_CAP := 45
  WLAN_EID_VENDOR_SPECIFIC := 221
  WPS_IE_VENDOR_TYPE := 5304836
  ieee80211_freq_to_chan := fun f =>
    if 2412 ≤ f ∧ f ≤ 2472 then ((f - 2407) / 5).toNat else if f = 2484 then 14 else 0
  printf_decode := fun n s => s.take (n - 1)
  printf_encode := fun n s => s.take (n - 1)
  slsi_p2p_event_handle := fun _ d => d
  slsi_p2p_stop := fun d => (SLSI_STATUS_SUCCESS, d)

/-- Driver used to exercise the monitor: a station that is joining network `0`, with both link
callbacks registered, the sender queue open and the supplicant acknowledging each command. -/
def joining_driver : Driver :=
  { g_state := SLSI_WIFIAPI_STATE_STA_CONNECTING
    chan := { g_ctrl_conn := true, replies := [wpa_reply.text "OK\n".toList] }
    g_running := true
    g_send_cbmqfd := true
    g_link_up := some 1
    g_link_down := some 2
    g_network_id := some "0".toList }

/-- Station connected to network `0`, with the given replies of the supplicant pending. -/
def connected_driver (replies : List wpa_reply) : Driver :=
  { g_state := SLSI_WIFIAPI_STATE_STA_CONNECTED
    chan := { g_ctrl_conn := true, replies := replies }
    g_wpa_attached := true
    g_running := true
    g_send_cbmqfd := true
    g_callback_running := true
    g_mutex_initialized := true
    g_task := 7
    g_link_up := some 1
    g_link_down := some 2
    g_network_id := some "0".toList }

/-- Soft AP with one station connected, with the given replies of the supplicant pending. -/
def ap_connected_driver (replies : List wpa_reply) : Driver :=
  { connected_driver replies with
    g_state := SLSI_WIFIAPI_STATE_AP_CONNECTED
    g_num_sta_connected := 1 }

/-- Station interface started and idle, with the given replies of the supplicant pending. -/
def running_driver (replies : List wpa_reply) : Driver :=
  { connected_driver replies with
    g_state := SLSI_WIFIAPI_STATE_SUPPLICANT_RUNNING
    g_network_id := none }

/-- Station that has asked the supplicant to disconnect and waits for the report. -/
def disconnecting_driver : Driver :=
  { connected_driver [wpa_reply.text "OK\n".toList] with
    g_state := SLSI_WIFIAPI_STATE_STA_DISCONNECTING }

/-- Station back in state StaConnected at the end of a recovery that started while it was in
state `old_state`. -/
def recovered_driver (old_state : slsi_api_states_t) : Driver :=
  { connected_driver [] with
    g_recovering := true
    g_link_up := none
    g_link_down := none
    g_recovery_data :=
      { old_state := old_state
        recovering_state := SLSI_WIFIAPI_STATE_STA_CONNECTED
        link_up := some 1
        link_down := some 2 } }

/-! ## Decimal numbers -/

/-- Decimal value of a string of digits, most significant first. -/
def decimal_value (ds : CStr) : Nat :=
  Nat.ofDigits 10 ((ds.map (fun c => c.toNat - 48)).reverse)

/-! ## Persisted configuration: the block and its initialisation -/

/-- Modelled from the spec: the non-volatile configuration block behind `up_wlan_read_config`,
`up_wlan_erase_config` and `up_wlan_write_config` (board code): the persisted record, what the
block reads after an erase, whether reads and writes succeed, and the numbers of erases and
writes done so far. -/
structure Flash where
  record : slsi_wifi_nv_data_t
  erased : slsi_wifi_nv_data_t
  read_ok : Bool := true
  write_ok : Bool := true
  erases : Nat := 0
  writes : Nat := 0
  deriving DecidableEq, Repr

/-- Modelled from the spec: `up_wlan_read_config`, the record read into the buffer, `none` when
the read fails. -/
def up_wlan_read_config (f : Flash) : Option slsi_wifi_nv_data_t :=
  if f.read_ok then some f.record else none

/-- Modelled from the spec: `up_wlan_erase_config`. -/
def up_wlan_erase_config (f : Flash) : Flash :=
  { f with record := f.erased, erases := f.erases + 1 }

/-- Modelled from the spec: `up_wlan_write_config`, whether the write succeeded, and the
block. -/
def up_wlan_write_config (buf : slsi_wifi_nv_data_t) (f : Flash) : Bool × Flash :=
  if f.write_ok then (true, { f with record := buf, writes := f.writes + 1 })
  else (false, { f with writes := f.writes + 1 })

/-- Source `slsi_init_nvram` (buffer allocation assumed to succeed): the marker is the first
four bytes of `initialized`. -/
def slsi_init_nvram (k : Config) (f : Flash) (d : Driver) : Flash × Driver :=
  let d := if d.g_nvram = none then { d with g_nvram := some ⟨[], [], 0⟩ } else d
  match up_wlan_read_config f with
  | some data =>
    let d := { d with g_nvram := some data }
    if data.initialized.take 4 ≠ "SLSI".toList then
      let f := up_wlan_erase_config f
      let data : slsi_wifi_nv_data_t :=
        { data with
          initialized := "SLSI".toList
          country_code := k.SLSI_WIFI_NV_DEFAULT_COUNTRY_CODE.take 2
          tx_power := k.SLSI_WIFI_NV_DEFAULT_TX_POWER % 256 }
      let d := { d with g_nvram := some data }
      ((up_wlan_write_config data f).2, d)
    else (f, d)
  | none => (f, d)

/-! ## Soft AP start -/

/-- Source `slsi_get_country_code`: the result, the two characters stored through
`country_code`, the block and the state; the buffer `g_nvram` is freed at the end. -/
def slsi_get_country_code (k : Config) (f : Flash) (d : Driver) :
    slsi_status × CStr × Flash × Driver :=
  let i := slsi_init_nvram k f d
  match up_wlan_read_config i.1 with
  | some data => (SLSI_STATUS_SUCCESS, data.country_code.take 2, i.1, { i.2 with g_nvram := none })
  | none => (SLSI_STATUS_ERROR, [], i.1, { i.2 with g_nvram := none })

/-- C format `%02X` of a byte. -/
def hex2 (b : Nat) : CStr :=
  let ds := (Nat.toDigits 16 (b % 256)).map Char.toUpper
  if ds.length < 2 then '0' :: ds else ds

/-- Source `slsi_bytearray_2_hexstr` (allocation assumed to succeed). -/
def slsi_bytearray_2_hexstr (bytes : List Nat) (size : Nat) : CStr :=
  ((bytes.take size).map hex2).flatten

/-- Source `slsi_set_ap_network`, lines 2327-2342: the network entry of the ssid, found in the
list or newly added; `none` when no entry was obtained. -/
def slsi_set_ap_network_entry (k : Config) (ap_config : slsi_ap_config_t) (ch : Channel) :
    Option CStr × Channel :=
  let g := slsi_get_network k ap_config.ssid ap_config.ssid_len ch
  if g.1 ≠ SLSI_STATUS_SUCCESS ∧ g.2.1 = none then
    let r := slsi_send_request k (snprintf k.WPA_COMMAND_MAX_SIZE k.WPA_COMMAND_ADD_NETWORK) g.2.2
    match r.buf with
    | some pbuf => (some (pbuf.takeWhile (fun c => c ≠ '\r' && c ≠ '\n')), r.chan)
    | none => (none, r.chan)
  else (g.2.1, g.2.2)

/-- Source `slsi_set_ap_network`, lines 2346-2367: mode, ssid and `disabled` of the entry; on
the left the `goto errout` exits. -/
def slsi_set_ap_network_params (k : Config) (ap_config : slsi_ap_config_t) (network_id : CStr)
    (ch : Channel) : (slsi_status × Channel) ⊕ (slsi_status × Channel) :=
  let ssid_formated :=
    k.printf_encode (k.WPA_MAX_SSID_LEN - 1) (ap_config.ssid.take ap_config.ssid_len)
  let r1 := slsi_send_command_str_upto_4 k (some k.WPA_COMMAND_SET_NETWORK) (some network_id)
    (some k.WPA_PARAM_MODE_AP) none ch
  let result := r1.1.getD SLSI_STATUS_ERROR
  if result ≠ SLSI_STATUS_SUCCESS then .inl (result, r1.2)
  else
    let r2 : send_result :=
      if ap_config.ssid_len ≠ 0 then
        slsi_send_request k (snprintf k.WPA_COMMAND_MAX_SIZE
          (k.WPA_COMMAND_SET_NETWORK ++ network_id ++ [' '] ++ k.WPA_PARAM_SSID_ ++ ['P', '"']
            ++ ssid_formated ++ ['"'])) r1.2
      else ⟨none, none, r1.2⟩
    let result := r2.result.getD result
    if r2.buf.isSome ∧ result ≠ SLSI_STATUS_SUCCESS then .inl (result, r2.chan)
    else
      let r3 := slsi_send_command_str_upto_4 k (some k.WPA_COMMAND_SET_NETWORK)
        (some network_id) (some k.WPA_PARAM_NETWORK_DISABLED) none r2.chan
      let result := r3.1.getD result
      if result ≠ SLSI_STATUS_SUCCESS then .inl (result, r3.2)
      else .inr (result, r3.2)

/-- Source `slsi_set_ap_network`, lines 2377-2390: the frequency of the channel for the
country code read, 0 when there is none. -/
def slsi_set_ap_network_freq (channel : Nat) (ccode : Option CStr) : Nat :=
  match ccode with
  | none => 0
  | some ccode =>
    let endchannel :=
      if str_starts ccode "US".toList ∨ str_starts ccode "CA".toList then 11 else 13
    let localFreq := if channel ≥ 1 ∧ channel ≤ endchannel then 2407 + 5 * channel else 0
    if str_starts ccode "JP".toList ∧ channel = 14 then 2484 else localFreq

/-- A `slsi_send_request` of `slsi_set_ap_network` followed by
`if (pbuf) { if (result != SLSI_STATUS_SUCCESS) goto errout; }`. -/
def slsi_set_ap_network_request (k : Config) (command : CStr) (result : slsi_status)
    (ch : Channel) : (slsi_status × Channel) ⊕ (slsi_status × Channel) :=
  let r := slsi_send_request k command ch
  let result := r.result.getD result
  if r.buf.isSome ∧ result ≠ SLSI_STATUS_SUCCESS then .inl (result, r.chan)
  else .inr (result, r.chan)

/-- A `slsi_send_command_str_upto_4` of `slsi_set_ap_network` followed by
`if (result != SLSI_STATUS_SUCCESS) goto errout;`. -/
def slsi_set_ap_network_command (k : Config) (one two three four : Option CStr)
    (result : slsi_status) (ch : Channel) :
    (slsi_status × Channel) ⊕ (slsi_status × Channel) :=
  let r := slsi_send_command_str_upto_4 k one two three four ch
  let result := r.1.getD result
  if result ≠ SLSI_STATUS_SUCCESS then .inl (result, r.2)
  else .inr (result, r.2)

/-- Source `slsi_set_ap_network`, lines 2408-2469: beacon interval, DTIM period and the vendor
information element (allocations assumed to succeed); on the left the `goto errout` exits. -/
def slsi_set_ap_network_intervals (k : Config) (ap_config : slsi_ap_config_t)
    (network_id : CStr) (result : slsi_status) (ch : Channel) :
    (slsi_status × Channel) ⊕ (slsi_status × Channel) :=
  let s1 : (slsi_status × Channel) ⊕ (slsi_status × Channel) :=
    if ap_config.beacon_period ≠ 100 then
      slsi_set_ap_network_request k (snprintf k.WPA_COMMAND_MAX_SIZE
        (k.WPA_COMMAND_SET_NETWORK ++ network_id ++ [' '] ++ k.WPA_PARAM_BEACON_INT_ ++ [' ']
          ++ Nat.toDigits 10 ap_config.beacon_period)) result ch
    else .inr (result, ch)
  match s1 with
  | .inl e => .inl e
  | .inr (result, ch) =>
    let s2 : (slsi_status × Channel) ⊕ (slsi_status × Channel) :=
      if ap_config.DTIM ≠ 2 then
        slsi_set_ap_network_request k (snprintf k.WPA_COMMAND_MAX_SIZE
          (k.WPA_COMMAND_SET_NETWORK ++ network_id ++ [' '] ++ k.WPA_PARAM_DTIM_PERIOD_ ++ [' ']
            ++ Nat.toDigits 10 ap_config.DTIM)) result ch
      else .inr (result, ch)
    match s2 with
    | .inl e => .inl e
    | .inr (result, ch) =>
      match ap_config.vsie.head? with
      | none => .inr (result, ch)
      | some vsie =>
        if vsie.content_length > 253 then .inl (SLSI_STATUS_PARAM_FAILED, ch)
        else
          let cmdsize := (vsie.content_length * 3 + 30) % 4294967296
          let iehex := slsi_bytearray_2_hexstr (vsie.content.getD []) vsie.content_length
          slsi_set_ap_network_request k (snprintf cmdsize
            (k.WPA_COMMAND_SET ++ k.WPA_PARAM_VSIE ++ hex2 (vsie.oui.getD 0 0)
              ++ hex2 (vsie.oui.getD 1 0) ++ hex2 (vsie.oui.getD 2 0) ++ [' '] ++ iehex))
            result ch

/-- Source `slsi_set_ap_network`, lines 2470-2530: the HT settings; on the left the
`goto errout` exits. -/
def slsi_set_ap_network_ht (k : Config) (ap_config : slsi_ap_config_t) (network_id : CStr)
    (result : slsi_status) (ch : Channel) :
    (slsi_status × Channel) ⊕ (slsi_status × Channel) :=
  let capab := ap_config.ht_mode.ht_capab_info
  if ap_config.phy_mode = 0 then
    if k.CONFIG_HT_OVERRIDES then
      slsi_set_ap_network_command k (some k.WPA_COMMAND_SET_NETWORK) (some network_id)
        (some k.WPA_PARAM_DISABLE_HT) none result ch
    else .inl (SLSI_STATUS_COMMAND_UNKNOWN, ch)
  else if capab &&& k.HT_CAP_INFO_GREEN_FIELD ≠ 0 ∧ capab &&& k.HT_CAP_INFO_SHORT_GI20MHZ ≠ 0 then
    .inl (SLSI_STATUS_PARAM_FAILED, ch)
  else
    let s1 : (slsi_status × Channel) ⊕ (slsi_status × Channel) :=
      if capab &&& k.HT_CAP_INFO_GREEN_FIELD ≠ 0 then
        if k.CONFIG_HT_OVERRIDES then
          slsi_set_ap_network_command k (some k.WPA_COMMAND_SET_NETWORK) (some network_id)
            (some k.WPA_PARAM_HT_CAPAB)
            (if k.HT_CAP_INFO_GREEN_FIELD ≠ 0 then some k.HT_CAP_INFO_GREEN_FIELD_str else none)
            result ch
        else .inl (SLSI_STATUS_COMMAND_UNKNOWN, ch)
      else .inr (result, ch)
    match s1 with
    | .inl e => .inl e
    | .inr (result, ch) =>
      let s2 : (slsi_status × Channel) ⊕ (slsi_status × Channel) :=
        if k.CONFIG_HT_OVERRIDES ∧ capab &&& k.HT_CAP_INFO_SHORT_GI20MHZ = 0 then
          slsi_set_ap_network_command k (some k.WPA_COMMAND_SET_NETWORK) (some network_id)
            (some k.WPA_PARAM_DISABLE_SHORT_GI) none result ch
        else .inr (result, ch)
      match s2 with
      | .inl e => .inl e
      | .inr (result, ch) =>
        if ap_config.ht_mode.mcs_index.getD 0 0 ≠ 0 ∨ ap_config.ht_mode.mcs_index.getD 1 0 ≠ 0 then
          if k.CONFIG_HT_OVERRIDES then
            slsi_set_ap_network_request k (snprintf k.WPA_COMMAND_MAX_SIZE
              (k.WPA_COMMAND_SET_NETWORK ++ network_id ++ [' '] ++ k.WPA_PARAM_HT_MCS
                ++ Nat.toDigits 16 k.mcs_index_addr)) result ch
          else .inl (SLSI_STATUS_COMMAND_UNKNOWN, ch)
        else .inr (result, ch)

/-- Source `slsi_set_ap_network`, lines 2346-2548: the body executed with a network entry, up
to the label `errout`: the value of `result` there, the block and the state.  `none`: the wait
for the AP event never ends. -/
def slsi_set_ap_network_body (k : Config) (ap_config : slsi_ap_config_t) (network_id : CStr)
    (f : Flash) (d : Driver) : Option (slsi_status × Flash × Driver) :=
  match slsi_set_ap_network_params k ap_config network_id d.chan with
  | .inl e => some (e.1, f, { d with chan := e.2 })
  | .inr (_, ch) =>
    let s := slsi_set_security k (slsi_get_op_mode k.CONFIG_SLSI_WIFI_P2P_API d.g_state)
      ap_config.security network_id ch
    let d := { d with chan := s.2 }
    if s.1 ≠ SLSI_STATUS_SUCCESS then some (s.1, f, d)
    else
      let c : (slsi_status × Flash × Driver) ⊕ (slsi_status × Flash × Driver) :=
        if ap_config.channel ≠ 0 then
          let cc := slsi_get_country_code k f d
          let localFreq := slsi_set_ap_network_freq ap_config.channel
            (if cc.1 = SLSI_STATUS_SUCCESS then some cc.2.1 else none)
          if localFreq ≠ 0 then
            match slsi_set_ap_network_request k (snprintf k.WPA_COMMAND_MAX_SIZE
              (k.WPA_COMMAND_SET_NETWORK ++ network_id ++ [' '] ++ k.WPA_PARAM_FREQUENCY_
                ++ Nat.toDigits 10 localFreq)) s.1 cc.2.2.2.chan with
            | .inl e => .inl (e.1, cc.2.2.1, { cc.2.2.2 with chan := e.2 })
            | .inr e => .inr (e.1, cc.2.2.1, { cc.2.2.2 with chan := e.2 })
          else .inl (SLSI_STATUS_PARAM_FAILED, cc.2.2.1, cc.2.2.2)
        else .inr (s.1, f, d)
      match c with
      | .inl e => some e
      | .inr (result, f, d) =>
        match slsi_set_ap_network_intervals k ap_config network_id result d.chan with
        | .inl e => some (e.1, f, { d with chan := e.2 })
        | .inr (result, ch) =>
          match slsi_set_ap_network_ht k ap_config network_id result ch with
          | .inl e => some (e.1, f, { d with chan := e.2 })
          | .inr (result, ch) =>
            match slsi_set_ap_network_command k (some k.WPA_COMMAND_SELECT_NETWORK)
              (some network_id) none none result ch with
            | .inl e => some (e.1, f, { d with chan := e.2 })
            | .inr (result, ch) =>
              match sem_wait k g_sem_ap_mode { d with chan := ch } with
              | none => none
              | some d =>
                if d.g_state ≠ SLSI_WIFIAPI_STATE_AP_ENABLED then some (SLSI_STATUS_ERROR, f, d)
                else some (result, f, { d with g_network_id := some network_id })

/-- Source `slsi_set_ap_network`. -/
def slsi_set_ap_network (k : Config) (ap_config : slsi_ap_config_t) (f : Flash) (d : Driver) :
    Option (slsi_status × Flash × Driver) :=
  let d := { d with g_state := SLSI_WIFIAPI_STATE_AP_ENABLING }
  let e := slsi_set_ap_network_entry k ap_config d.chan
  let d := { d with chan := e.2 }
  match e.1 with
  | none => some (SLSI_STATUS_ERROR, f, d)
  | some network_id =>
    match slsi_set_ap_network_body k ap_config network_id f d with
    | none => none
    | some r =>
      if r.1 ≠ SLSI_STATUS_SUCCESS then
        some (r.1, r.2.1, { r.2.2 with chan := slsi_remove_network k network_id r.2.2.chan,
                                       g_state := SLSI_WIFIAPI_STATE_SUPPLICANT_RUNNING })
      else some r

/-! ## Concrete soft AP inputs -/

/-- Open soft AP `ap` on channel 6 with default beacon and DTIM periods. -/
def open_ap_config : slsi_ap_config_t :=
  { ssid := "ap".toList, ssid_len := 2, channel := 6, beacon_period := 100, DTIM := 2,
    phy_mode := 1, ht_mode := ⟨0, []⟩, security := none, vsie := [] }

/-- Configuration block that holds the marker, country code `KR` and tx power 20. -/
def initialised_flash : Flash :=
  { record := ⟨"SLSI".toList, "KR".toList, 20⟩, erased := ⟨[], [], 255⟩ }

/-! ## Signals: `lib/libc/signal/sig_set.c` -/

/-- Values of `_sa_handler_t`: the three special dispositions, the error value, and the address
of a handler function. -/
inductive sa_handler_t where
  | SIG_ERR
  | SIG_DFL
  | SIG_IGN
  | SIG_HOLD
  | handler (addr : Nat)
  deriving DecidableEq, Repr

/-- Modelled from the spec: the signal state of the calling task that `signal` and
`sigprocmask` (other translation units) work on: the signal mask, the disposition of every
signal, and whether the next `signal` and `sigprocmask` calls succeed. -/
structure SigTask where
  sigprocmask : Nat → Bool
  sigactions : Nat → sa_handler_t
  signal_ok : Bool := true
  sigprocmask_ok : Bool := true

/-- The `how` argument of `sigprocmask`. -/
inductive sigprocmask_how where
  | SIG_BLOCK
  | SIG_UNBLOCK
  deriving DecidableEq, Repr

/-- Modelled from the spec: `signal(sig, func)` as the description of `sigset` uses it: it
stores the disposition `func` for `sig` and returns the previous one, or returns `SIG_ERR` and
changes nothing. -/
def signal (sig : Nat) (func : sa_handler_t) (t : SigTask) : sa_handler_t × SigTask :=
  if t.signal_ok then
    (t.sigactions sig,
      { t with sigactions := fun s => if s = sig then func else t.sigactions s })
  else (sa_handler_t.SIG_ERR, t)

/-- Modelled from the spec: `sigprocmask(how, set, NULL)`: `SIG_BLOCK` adds the signals of
`set` to the mask, `SIG_UNBLOCK` removes them; a negative value is returned, and nothing
changed, when the call fails. -/
def sigprocmask (how : sigprocmask_how) (set : Nat → Bool) (t : SigTask) : Int × SigTask :=
  if t.sigprocmask_ok then
    match how with
    | sigprocmask_how.SIG_BLOCK =>
      (0, { t with sigprocmask := fun s => t.sigprocmask s || set s })
    | sigprocmask_how.SIG_UNBLOCK =>
      (0, { t with sigprocmask := fun s => t.sigprocmask s && !set s })
  else (-1, t)

/-- Source `sigset`; `set` is the signal set that holds `sig` alone. -/
def sigset (sig : Nat) (func : sa_handler_t) (t : SigTask) : sa_handler_t × SigTask :=
  let set : Nat → Bool := fun s => decide (s = sig)
  if func = sa_handler_t.SIG_HOLD then
    let r := sigprocmask sigprocmask_how.SIG_BLOCK set t
    (if r.1 < 0 then sa_handler_t.SIG_ERR else sa_handler_t.SIG_HOLD, r.2)
  else
    let s := signal sig func t
    if s.1 ≠ sa_handler_t.SIG_ERR then
      let r := sigprocmask sigprocmask_how.SIG_UNBLOCK set s.2
      if r.1 < 0 then (sa_handler_t.SIG_ERR, (signal sig s.1 r.2).2)
      else (s.1, r.2)
    else (s.1, s.2)

/-- Task used to run `sigset`: signal 3 blocked with a handler installed, every other signal
unblocked with the default disposition. -/
def sample_task : SigTask :=
  { sigprocmask := fun s => decide (s = 3)
    sigactions := fun s => if s = 3 then sa_handler_t.handler 100 else sa_handler_t.SIG_DFL }

/-! ## Hex strings -/

/-- Source `slsi_hexstr_2_bytearray`, the value of one hex digit:
`a <= '9' ? a - '0' : a - 'a' + 10`, on the code of an ASCII character. -/
def hex_digit_value (a : Char) : Int :=
  if a.toNat ≤ '9'.toNat then (a.toNat : Int) - ('0'.toNat : Int)
  else (a.toNat : Int) - ('a'.toNat : Int) + 10

/-- Source `slsi_hexstr_2_bytearray`, one byte of the array: the two digit values combined and
stored as `uint8_t`. -/
def hex_pair_value (a b : Char) : Nat :=
  to_uint8 (hex_digit_value a * 16 + hex_digit_value b)

/-- Source `slsi_hexstr_2_bytearray` (allocation assumed to succeed): the array returned (`none`
is NULL) with the count stored through `array_size`; `none` for `str` is the NULL pointer.  A
character read past the end of the string is the terminating NUL. -/
def slsi_hexstr_2_bytearray (str : Option CStr) (str_size : Nat) : Option (List Nat × Nat) :=
  match str with
  | none => none
  | some string =>
    if str_size % 2 ≠ 0 then none
    else
      let array_len := str_size / 2
      some ((List.range array_len).map
          (fun j => hex_pair_value (string.getD (2 * j) '\x00') (string.getD (2 * j + 1) '\x00')),
        array_len)

/-! ## Settings and queries -/

/-- Source `slsi_set_country_code` (buffer allocation assumed to succeed): the record keeps the
first two characters of `country_code`. -/
def slsi_set_country_code (k : Config) (country_code : CStr)
    (write_to_nvram write_to_driver : Bool) (f : Flash) (d : Driver) :
    slsi_status × Flash × Driver :=
  let i := slsi_init_nvram k f d
  let r :=
    if write_to_driver then
      slsi_send_command_str_upto_4 k (some k.WPA_COMMAND_DRIVER) (some k.WPA_PARAM_COUNTRY)
        (some country_code) none i.2.chan
    else (none, i.2.chan)
  let result := r.1.getD SLSI_STATUS_ERROR
  let d := { i.2 with chan := r.2 }
  let w : slsi_status × Flash × Driver :=
    if write_to_nvram then
      let d := if d.g_nvram = none then { d with g_nvram := some ⟨[], [], 0⟩ } else d
      match up_wlan_read_config i.1 with
      | some data =>
        let f := up_wlan_erase_config i.1
        let data : slsi_wifi_nv_data_t := { data with country_code := country_code.take 2 }
        let d := { d with g_nvram := some data, g_country_code := country_code.take 2 }
        let w := up_wlan_write_config data f
        (if w.1 then SLSI_STATUS_SUCCESS else result, w.2, d)
      | none => (result, i.1, d)
    else (result, i.1, d)
  let d :=
    if w.2.2.g_state = SLSI_WIFIAPI_STATE_NOT_STARTED then { w.2.2 with g_nvram := none }
    else w.2.2
  (w.1, w.2.1, d)

/-- Source `slsi_set_tx_power`; `dbm` is the byte pointed to. -/
def slsi_set_tx_power (k : Config) (dbm : Nat) (write_to_nvram write_to_sup : Bool)
    (f : Flash) (d : Driver) : slsi_status × Flash × Driver :=
  if dbm > 30 ∨ dbm < 12 then (SLSI_STATUS_PARAM_FAILED, f, d)
  else
    let d :=
      if write_to_sup then
        { d with chan := (slsi_send_command_str_digit k k.WPA_COMMAND_SET_TX_POWER dbm d.chan).2 }
      else d
    let w : slsi_status × Flash × Driver :=
      if write_to_nvram then
        let i := slsi_init_nvram k f d
        match up_wlan_read_config i.1 with
        | some data =>
          let f := up_wlan_erase_config i.1
          let data : slsi_wifi_nv_data_t := { data with tx_power := dbm }
          let d := { i.2 with g_nvram := some data }
          let w := up_wlan_write_config data f
          (if w.1 then SLSI_STATUS_SUCCESS else SLSI_STATUS_ERROR, w.2, d)
        | none => (SLSI_STATUS_ERROR, i.1, i.2)
      else (SLSI_STATUS_ERROR, f, d)
    let d :=
      if w.2.2.g_state = SLSI_WIFIAPI_STATE_NOT_STARTED then { w.2.2 with g_nvram := none }
      else w.2.2
    (w.1, w.2.1, d)

/-- A helper of the translation unit that works on the persisted record and the driver state,
passed to the entry points that call it outside state NotStarted. -/
abbrev nv_helper := Flash → Driver → slsi_status × Flash × Driver

/-- A helper of the translation unit that works on the driver state only. -/
abbrev sup_helper := Driver → slsi_status × Driver

/-- Source `WiFiGetTxPower`; `dbm` tells whether the pointer is non-null, `slsi_get_tx_power`
is the helper called. -/
def WiFiGetTxPower (k : Config) (slsi_get_tx_power : nv_helper) (dbm : Bool) (f : Flash)
    (d : Driver) : Option (slsi_status × Flash × Driver) :=
  match ENTER_CRITICAL k d with
  | none => none
  | some d =>
    let r : slsi_status × Flash × Driver :=
      if d.g_state ≠ SLSI_WIFIAPI_STATE_NOT_STARTED then
        if dbm then slsi_get_tx_power f d
        else if slsi_is_connected d then (SLSI_STATUS_PARAM_FAILED, f, d)
        else (SLSI_STATUS_NOT_CONNECTED, f, d)
      else (SLSI_STATUS_NOT_STARTED, f, d)
    some (r.1, r.2.1, LEAVE_CRITICAL r.2.2)

/-- Source `WiFiSetTxPower`; `dbm` is the byte pointed to, `none` for a null pointer. -/
def WiFiSetTxPower (k : Config) (dbm : Option Nat) (f : Flash) (d : Driver) :
    Option (slsi_status × Flash × Driver) :=
  match ENTER_CRITICAL k d with
  | none => none
  | some d =>
    let r : slsi_status × Flash × Driver :=
      match dbm with
      | some v =>
        if d.g_state ≠ SLSI_WIFIAPI_STATE_NOT_STARTED then
          if slsi_is_connected d then slsi_set_tx_power k v true true f d
          else slsi_set_tx_power k v true false f d
        else slsi_set_tx_power k v true false f d
      | none => (SLSI_STATUS_PARAM_FAILED, f, d)
    some (r.1, r.2.1, LEAVE_CRITICAL r.2.2)

/-- Source `WiFiGetMac`; `mac` tells whether the pointer is non-null. -/
def WiFiGetMac (k : Config) (slsi_get_mac : sup_helper) (mac : Bool) (d : Driver) :
    Option (slsi_status × Driver) :=
  match ENTER_CRITICAL k d with
  | none => none
  | some d =>
    let r : slsi_status × Driver :=
      if mac then
        if d.g_state ≠ SLSI_WIFIAPI_STATE_NOT_STARTED then slsi_get_mac d
        else (SLSI_STATUS_NOT_STARTED, d)
      else (SLSI_STATUS_PARAM_FAILED, d)
    some (r.1, LEAVE_CRITICAL r.2)

/-- Source `WiFiGetRssi`; `rssi` tells whether the pointer is non-null. -/
def WiFiGetRssi (k : Config) (slsi_get_rssi : sup_helper) (rssi : Bool) (d : Driver) :
    Option (slsi_status × Driver) :=
  match ENTER_CRITICAL k d with
  | none => none
  | some d =>
    let r : slsi_status × Driver :=
      if rssi then
        if d.g_state ≠ SLSI_WIFIAPI_STATE_NOT_STARTED then
          if slsi_is_connected d then slsi_get_rssi d else (SLSI_STATUS_NOT_CONNECTED, d)
        else (SLSI_STATUS_NOT_STARTED, d)
      else (SLSI_STATUS_PARAM_FAILED, d)
    some (r.1, LEAVE_CRITICAL r.2)

/-- Source `WiFiGetChannel`; `channel` tells whether the pointer is non-null. -/
def WiFiGetChannel (k : Config) (slsi_get_channel : sup_helper) (channel : Bool) (d : Driver) :
    Option (slsi_status × Driver) :=
  match ENTER_CRITICAL k d with
  | none => none
  | some d =>
    let r : slsi_status × Driver :=
      if channel then
        if d.g_state ≠ SLSI_WIFIAPI_STATE_NOT_STARTED then
          if slsi_is_connected d then slsi_get_channel d else (SLSI_STATUS_NOT_CONNECTED, d)
        else (SLSI_STATUS_NOT_STARTED, d)
      else (SLSI_STATUS_PARAM_FAILED, d)
    some (r.1, LEAVE_CRITICAL r.2)

/-- Source `WiFiIsConnected`: the result, the count stored through `ret`, the structure stored
through `details` (`none` for a null pointer) and the state. -/
def WiFiIsConnected (k : Config) (details : Option slsi_reason_t) (d : Driver) :
    Option (slsi_status × Nat × Option slsi_reason_t × Driver) :=
  match ENTER_CRITICAL k d with
  | none => none
  | some d =>
    let details := details.map (fun _ => ({} : slsi_reason_t))
    let r : slsi_status × Nat × Option slsi_reason_t × Driver :=
      if d.g_state = SLSI_WIFIAPI_STATE_STA_CONNECTED then
        match details with
        | some reason =>
          let c := slsi_check_status k reason d.chan
          (c.1, 1, some c.2.1, { d with chan := c.2.2 })
        | none => (SLSI_STATUS_SUCCESS, 1, none, d)
      else if d.g_state = SLSI_WIFIAPI_STATE_AP_CONNECTED then
        (SLSI_STATUS_SUCCESS, d.g_num_sta_connected, details, d)
      else if d.g_state = SLSI_WIFIAPI_STATE_NOT_STARTED then
        (SLSI_STATUS_NOT_STARTED, 0, details, d)
      else (SLSI_STATUS_NOT_CONNECTED, 0, details, d)
    some (r.1, r.2.1, r.2.2.1, LEAVE_CRITICAL r.2.2.2)

/-- Source `WiFiSetCountryCode`; `country_code` is `none` for a null pointer. -/
def WiFiSetCountryCode (k : Config) (country_code : Option CStr) (f : Flash) (d : Driver) :
    Option (slsi_status × Flash × Driver) :=
  match ENTER_CRITICAL k d with
  | none => none
  | some d =>
    let r : slsi_status × Flash × Driver :=
      match country_code with
      | some cc =>
        if slsi_get_op_mode k.CONFIG_SLSI_WIFI_P2P_API d.g_state = SLSI_WIFI_STATION_IF then
          slsi_set_country_code k cc true true f d
        else slsi_set_country_code k cc true false f d
      | none => (SLSI_STATUS_PARAM_FAILED, f, d)
    some (r.1, r.2.1, LEAVE_CRITICAL r.2.2)

/-- Source `WiFiGetCountryCode`: the result, the characters stored through `country_code`
(`none` when nothing is stored), the block and the state. -/
def WiFiGetCountryCode (k : Config) (f : Flash) (d : Driver) :
    Option (slsi_status × Option CStr × Flash × Driver) :=
  match ENTER_CRITICAL k d with
  | none => none
  | some d =>
    let r : slsi_status × Option CStr × Flash × Driver :=
      if d.g_state ≠ SLSI_WIFIAPI_STATE_NOT_STARTED then
        let g := slsi_get_country_code k f d
        (g.1, some g.2.1, g.2.2.1, g.2.2.2)
      else (SLSI_STATUS_NOT_STARTED, none, f, d)
    some (r.1, r.2.1, r.2.2.1, LEAVE_CRITICAL r.2.2.2)

/-- Source `WiFiSaveConfig`; `slsi_save_config` is the helper called in station mode. -/
def WiFiSaveConfig (k : Config) (slsi_save_config : sup_helper) (d : Driver) :
    Option (slsi_status × Driver) :=
  if k.CONFIG_SLSI_WIFI_FILESYSTEM_SUPPORT then
    match ENTER_CRITICAL k d with
    | none => none
    | some d =>
      let r : slsi_status × Driver :=
        if slsi_get_op_mode k.CONFIG_SLSI_WIFI_P2P_API d.g_state = SLSI_WIFI_STATION_IF then
          slsi_save_config d
        else if d.g_state = SLSI_WIFIAPI_STATE_NOT_STARTED then (SLSI_STATUS_NOT_STARTED, d)
        else (SLSI_STATUS_NOT_ALLOWED, d)
      some (r.1, LEAVE_CRITICAL r.2)
  else some (SLSI_STATUS_NOT_SUPPORTED, d)

/-! ## Waits under the mutex -/

/-- The semaphores waited on while the mutex is held, read off a log of synchronisation
operations; `held` tells whether the mutex is held at the start of the log. -/
def waits_while_locked : Bool → List sync_op → List sem_id
  | _, [] => []
  | _, sync_op.lock :: rest => waits_while_locked true rest
  | _, sync_op.trylock :: rest => waits_while_locked true rest
  | _, sync_op.unlock :: rest => waits_while_locked false rest
  | held, sync_op.wait s :: rest =>
    (if held then [s] else []) ++ waits_while_locked held rest
  | held, sync_op.post _ :: rest => waits_while_locked held rest

/-- Connected station whose supplicant acknowledges every command and reports the
disconnection and its own termination when asked. -/
def leaving_driver : Driver :=
  { connected_driver (List.replicate 5 (wpa_reply.text "OK\n".toList)) with
    events := ["<3>CTRL-EVENT-DISCONNECTED bssid=00:11:22:33:44:55 reason=3".toList,
               "<3>CTRL-EVENT-TERMINATING ".toList] }

/-! ## Connected-station count -/

/-- The count of connected stations is 1 in state ApConnected. -/
def ap_connected_count (d : Driver) : Prop :=
  d.g_state = SLSI_WIFIAPI_STATE_AP_CONNECTED → d.g_num_sta_connected = 1

instance (d : Driver) : Decidable (ap_connected_count d) := by
  unfold ap_connected_count
  infer_instance

/-- Something that happens to a running driver: the monitor thread handles a received line;
lines become pending at the supplicant, to be received while an entry point waits; the
supplicant's answers to the coming requests are fixed; or the application runs the soft-AP
set-up of `WiFiStart` (`slsi_set_ap_network`), `WiFiStop` or `WiFiNetworkLeave`. -/
inductive driver_action where
  | received (line : CStr)
  | pending (lines : List CStr)
  | answers (replies : List wpa_reply)
  | set_ap (ap_config : slsi_ap_config_t) (f : Flash)
  | stop
  | leave

/-- The driver state after one action; `none` when the entry point called never returns. -/
def run_action (k : Config) (a : driver_action) (d : Driver) : Option Driver :=
  match a with
  | driver_action.received line => some (slsi_monitor_handle_line k line d)
  | driver_action.pending lines => some { d with events := d.events ++ lines }
  | driver_action.answers replies =>
    some { d with chan := { d.chan with replies := d.chan.replies ++ replies } }
  | driver_action.set_ap ap_config f => (slsi_set_ap_network k ap_config f d).map (fun r => r.2.2)
  | driver_action.stop => (WiFiStop k d).map (fun r => r.2)
  | driver_action.leave => (WiFiNetworkLeave k d).map (fun r => r.2)

/-- The driver state after a sequence of actions. -/
def run_actions (k : Config) : List driver_action → Driver → Option Driver
  | [], d => some d
  | a :: rest, d =>
    match run_action k a d with
    | none => none
    | some d1 => run_actions k rest d1

/-- The actions that bring the started, idle driver to state ApEnabled: the supplicant lists no
network, creates entry `0`, acknowledges the seven set-up commands and reports `AP-ENABLED`
while `slsi_set_ap_network` waits. -/
def soft_ap_started : List driver_action :=
  [driver_action.answers
      ([wpa_reply.text "network id / ssid / bssid / flags\n".toList, wpa_reply.text "0\n".toList]
        ++ List.replicate 7 (wpa_reply.text "OK\n".toList)),
    driver_action.pending ["<3>AP-ENABLED ".toList],
    driver_action.set_ap open_ap_config initialised_flash]

/-- A `WiFiStop` during which the supplicant acknowledges `STOP_AP` and `REMOVE_NETWORK` and
sends the given lines. -/
def soft_ap_stop (lines : List CStr) : List driver_action :=
  [driver_action.answers (List.replicate 2 (wpa_reply.text "OK\n".toList)),
    driver_action.pending lines,
    driver_action.stop]

/-! ## Scan results: heap -/

/-- An allocation or a release of a heap block, by address. -/
inductive heap_op where
  | alloc (a : Nat)
  | free (a : Nat)
  deriving DecidableEq, Repr

/-- A node of the vendor-IE list of a scan result (`slsi_vendor_ie_t`) in the heap: `content`
is the address of the content buffer, `content_bytes` what the buffer holds, `next` the address
of the next node. -/
structure vsie_node where
  oui : List Nat := [0, 0, 0]
  content : Option Nat := none
  content_bytes : List Nat := []
  content_length : Nat := 0
  next : Option Nat := none
  deriving DecidableEq, Repr

/-- Modelled from the spec: `slsi_scan_info_t` of `slsi_wifi_api.h`, with the fields that
`slsi_get_bss_info` fills apart from `ht_mode`.  `vsie`, `sec_modes` and `next` are addresses
(`none` is NULL); `sec_values` holds the `secmode` of the entries of the array at `sec_modes`;
the numeric fields hold the value assigned, before its conversion to the field's type. -/
structure slsi_scan_info_t where
  ssid : List Char := []
  ssid_len : Nat := 0
  bssid : CStr := []
  channel : Nat := 0
  beacon_period : Int := 0
  bss_type : Nat := 0
  rssi : Int := 0
  phy_mode : Nat := 0
  wps_support : Nat := 0
  vsie : Option Nat := none
  sec_modes : Option Nat := none
  sec_values : List Nat := []
  num_sec_modes : Nat := 0
  next : Option Nat := none
  deriving DecidableEq, Repr

/-- The heap as the scan code uses it: the next fresh address, the allocations and releases in
the order they happen, the scan nodes and vendor-IE nodes by address (latest value first), the
bytes that lie in memory behind a decoded information-element buffer (zero where the list
ends), and whether a NULL pointer has been written through. -/
structure Heap where
  brk : Nat := 1
  log : List heap_op := []
  scan : List (Nat × slsi_scan_info_t) := []
  vsie : List (Nat × vsie_node) := []
  beyond : List Nat := []
  fault : Bool := false
  deriving DecidableEq, Repr

/-- C `zalloc`, the allocation succeeding: the address of the block. -/
def zalloc (h : Heap) : Nat × Heap :=
  (h.brk, { h with brk := h.brk + 1, log := h.log ++ [heap_op.alloc h.brk] })

/-- C `free`; `none` is the NULL pointer. -/
def free (p : Option Nat) (h : Heap) : Heap :=
  match p with
  | none => h
  | some a => { h with log := h.log ++ [heap_op.free a] }

/-- The scan node at an address. -/
def Heap.scan_at (h : Heap) (a : Nat) : slsi_scan_info_t :=
  ((h.scan.find? (fun e => e.1 = a)).map (fun e => e.2)).getD {}

/-- Store a scan node at an address. -/
def Heap.set_scan (h : Heap) (a : Nat) (v : slsi_scan_info_t) : Heap :=
  { h with scan := (a, v) :: h.scan }

/-- The vendor-IE node at an address. -/
def Heap.vsie_at (h : Heap) (a : Nat) : vsie_node :=
  ((h.vsie.find? (fun e => e.1 = a)).map (fun e => e.2)).getD {}

/-- Store a vendor-IE node at an address. -/
def Heap.set_vsie (h : Heap) (a : Nat) (v : vsie_node) : Heap :=
  { h with vsie := (a, v) :: h.vsie }

/-- Blocks allocated and not released, after a log of heap operations. -/
def heap_live : List heap_op → List Nat → List Nat
  | [], live => live
  | heap_op.alloc a :: rest, live => heap_live rest (live ++ [a])
  | heap_op.free a :: rest, live => heap_live rest (live.erase a)

/-- Addresses released while not allocated (released twice, or never allocated), after a log of
heap operations. -/
def heap_bad_free : List heap_op → List Nat → List Nat
  | [], _ => []
  | heap_op.alloc a :: rest, live => heap_bad_free rest (live ++ [a])
  | heap_op.free a :: rest, live =>
    (if a ∈ live then [] else [a]) ++ heap_bad_free rest (live.erase a)

/-! ## Scan results: details of one BSS -/

/-- Value of a hexadecimal digit. -/
def hex_digit (c : Char) : Option Nat :=
  if c.isDigit then some (c.toNat - 48)
  else if 'a'.toNat ≤ c.toNat ∧ c.toNat ≤ 'f'.toNat then some (c.toNat - 87)
  else if 'A'.toNat ≤ c.toNat ∧ c.toNat ≤ 'F'.toNat then some (c.toNat - 55)
  else none

/-- Value of the leading run of hexadecimal digits, accumulated onto `acc`. -/
def hex_digits_value : Nat → CStr → Nat
  | acc, [] => acc
  | acc, c :: cs =>
    match hex_digit c with
    | some v => hex_digits_value (acc * 16 + v) cs
    | none => acc

/-- C `strtol(s, NULL, 16)` for a `long` whose largest value is `long_max`: an optional `0x`
is skipped when a digit follows. -/
def strtol16 (long_max : Nat) (s : CStr) : Int :=
  let body (r : CStr) : Nat :=
    match r with
    | '0' :: x :: c :: rest =>
      if (x = 'x' ∨ x = 'X') ∧ (hex_digit c).isSome then hex_digits_value 0 (c :: rest)
      else hex_digits_value 0 r
    | _ => hex_digits_value 0 r
  match s.dropWhile isspace with
  | '-' :: r => max (-((long_max : Int) + 1)) (-((body r : Nat) : Int))
  | '+' :: r => min (long_max : Int) (body r : Nat)
  | r => min (long_max : Int) (body r : Nat)

/-- The steps `pos = strstr(pos, param); pos += skip; end = strchr(pos, '\n'); *end = '\0'` of
`slsi_get_bss_info`: the text between `pos` and `end`, and the text after `end`; `none` is the
`goto errout`. -/
def bss_field (pos param : CStr) (skip : Nat) : Option (CStr × CStr) :=
  match strstr pos param with
  | none => none
  | some p =>
    let p := p.drop skip
    match strchr p '\n' with
    | none => none
    | some e => some (p.take (p.length - e.length), e.drop 1)

/-- The walk of `slsi_get_ie` from offset `pos` up to offset `e` over the memory `mem`. -/
def slsi_get_ie_loop (mem : Nat → Nat) (e ie_type : Nat) : Nat → Nat → Option Nat
  | 0, _ => none
  | fuel + 1, pos =>
    if pos + 1 < e then
      if pos + 2 + mem (pos + 1) > e then none
      else if mem pos = ie_type then some pos
      else slsi_get_ie_loop mem e ie_type fuel (pos + 2 + mem (pos + 1))
    else none

/-- Source `slsi_get_ie`: the offset of the first element of type `ie_type` in the `size` bytes
of `mem` from offset `byte_array` on (`none` is NULL).  Every turn advances by two bytes at
least. -/
def slsi_get_ie (mem : Nat → Nat) (byte_array size ie_type : Nat) : Option Nat :=
  slsi_get_ie_loop mem (byte_array + size) ie_type (size + 1) byte_array

/-- Source `slsi_get_security_from_flags`, lines 474-489: the number of `[` that are followed
by neither `E` nor `P`, as the `uint8_t` counter holds it. -/
def security_mode_count : CStr → Nat
  | [] => 0
  | c :: rest =>
    ((if c = '[' ∧ rest.head? ≠ some 'E' ∧ rest.head? ≠ some 'P' then 1 else 0)
      + security_mode_count rest) % 256

/-- Source `slsi_get_security_from_flags`, lines 519-560: the effect of one bracketed flag
`buffer` on entry `i` of the array `sec`: the array and the index of the entry to use next. -/
def security_from_flag (k : Config) (buffer : CStr) (sec : List Nat) (i : Nat) :
    List Nat × Nat :=
  let cipher (mixed ccmp tkip : Nat) : List Nat :=
    if (strstr buffer "CCMP+TKIP".toList).isSome then sec.set i mixed
    else if (strstr buffer "CCMP".toList).isSome then sec.set i ccmp
    else if (strstr buffer "TKIP".toList).isSome then sec.set i tkip
    else sec
  if (strstr buffer "WPA2-PSK".toList).isSome then
    (cipher k.SLSI_SEC_MODE_WPA2_MIXED k.SLSI_SEC_MODE_WPA2_CCMP k.SLSI_SEC_MODE_WPA2_TKIP, i + 1)
  else if (strstr buffer "WPA-PSK".toList).isSome then
    (cipher k.SLSI_SEC_MODE_WPA_MIXED k.SLSI_SEC_MODE_WPA_CCMP k.SLSI_SEC_MODE_WPA_TKIP, i + 1)
  else if (strstr buffer "WEP".toList).isSome then
    (sec.set i (k.SLSI_SEC_MODE_WEP ||| k.SLSI_SEC_MODE_WEP_SHARED), i)
  else if (strstr buffer "WPA2-EAP".toList).isSome then (sec.set i k.SLSI_SEC_MODE_EAP, i)
  else if (strstr buffer "WPA-EAP".toList).isSome then (sec.set i k.SLSI_SEC_MODE_EAP, i)
  else if (strstr buffer "NONE".toList).isSome then (sec, i)
  else if (strstr buffer "IBSS".toList).isSome then (sec, i)
  else if (strstr buffer "ESS".toList).isSome then (sec.set i k.SLSI_SEC_MODE_OPEN, i)
  else (sec, i)

/-- Source `slsi_get_security_from_flags`, the `for` loop with `n` turns left: `pos` is the
text still to scan, `sec` the array, `i` the entry `tmpsec` points to.  A `[` without `]` makes
`end` NULL; the turn is then modelled with the text up to the end of the string. -/
def security_from_flags_loop (k : Config) : Nat → CStr → List Nat → Nat → List Nat
  | 0, _, sec, _ => sec
  | n + 1, pos, sec, i =>
    match strchr pos '[' with
    | none => sec
    | some p =>
      let pos := p.drop 1
      let strlen :=
        match strchr pos ']' with
        | some e => (pos.length - e.length) % 256
        | none => pos.length % 256
      let r := security_from_flag k (pos.take strlen) sec i
      security_from_flags_loop k n pos r.1 r.2

/-- Source `slsi_get_security_from_flags` for a non-null `flag_str` (allocation assumed to
succeed): the value returned, and the node with `sec_modes` and `num_sec_modes` stored. -/
def slsi_get_security_from_flags (k : Config) (flag_str : CStr) (info : slsi_scan_info_t)
    (h : Heap) : Bool × slsi_scan_info_t × Heap :=
  let mode_count := security_mode_count flag_str
  if mode_count = 0 then
    (flag_str.isPrefixOf "[ESS]".toList, info, h)
  else
    let a := zalloc h
    let sec := security_from_flags_loop k mode_count flag_str (List.replicate mode_count 0) 0
    (true, { info with num_sec_modes := mode_count, sec_modes := some a.1, sec_values := sec },
      a.2)

/-- Source `slsi_get_bss_info`, lines 805-845: the loop over the vendor-specific elements
(allocations assumed to succeed).  `mem` is the memory from the start of the decoded buffer,
`size` the number of decoded bytes, `length` the length of the hexadecimal text, `tmpBytes` the
offset reached and `tmpvsie` the last node of the list.  A content length below 3 makes the
size of the content buffer wrap and the copy write through NULL. -/
def slsi_get_bss_info_vsie (k : Config) (mem : Nat → Nat) (size length : Nat) :
    Nat → Nat → Option Nat → slsi_scan_info_t → Heap → slsi_scan_info_t × Heap
  | 0, _, _, info, h => (info, h)
  | fuel + 1, tmpBytes, tmpvsie, info, h =>
    if tmpBytes + 1 < length then
      match slsi_get_ie mem tmpBytes size k.WLAN_EID_VENDOR_SPECIFIC with
      | none => (info, h)
      | some vs =>
        let a := zalloc h
        let vsie := a.1
        let h := a.2.set_vsie vsie {}
        let b := zalloc h
        let info1 := if info.vsie = none then { info with vsie := some b.1 } else info
        let tmpvsie := if info.vsie = none then some b.1 else tmpvsie
        let h := if info.vsie = none then b.2.set_vsie b.1 {} else h
        let be32 := mem (vs + 2) * 16777216 + mem (vs + 3) * 65536 + mem (vs + 4) * 256
          + mem (vs + 5)
        let info2 := if k.WPS_IE_VENDOR_TYPE = be32 then { info1 with wps_support := 1 } else info1
        let content_length := mem (vs + 1)
        let c := zalloc h
        let node : vsie_node :=
          { oui := [mem (vs + 2), mem (vs + 3), mem (vs + 4)]
            content_length := content_length
            content := if content_length < 3 then none else some c.1
            content_bytes := (List.range (content_length - 3)).map (fun i => mem (vs + 5 + i)) }
        let h := if content_length < 3 then { h with fault := true } else c.2
        let h := h.set_vsie vsie node
        let h :=
          match tmpvsie with
          | none => h
          | some t => h.set_vsie t { h.vsie_at t with next := some vsie }
        slsi_get_bss_info_vsie k mem size length fuel (tmpBytes + 2 + content_length)
          (some vsie) info2 h
    else (info, h)

/-- Source `slsi_get_bss_info`, lines 762-853: the information elements of the text `ie`. -/
def slsi_get_bss_info_ie (k : Config) (ie : CStr) (info : slsi_scan_info_t) (h : Heap) :
    slsi_scan_info_t × Heap :=
  match slsi_hexstr_2_bytearray (some ie) ie.length with
  | none => (info, h)
  | some (bytes, size) =>
    let mem : Nat → Nat := fun i =>
      if i < bytes.length then bytes.getD i 0
      else if i = bytes.length then 0
      else h.beyond.getD (i - bytes.length - 1) 0
    let info :=
      if (slsi_get_ie mem 0 size k.WLAN_EID_HT_CAP).isSome then { info with phy_mode := 1 }
      else info
    slsi_get_bss_info_vsie k mem size ie.length ie.length 0 none info h

/-- Source `slsi_get_bss_info`, the body under `if (pbuf)`: whether the end is reached (`false`
is a `goto errout`), the node as filled so far, and the heap. -/
def slsi_get_bss_info_parse (k : Config) (pbuf : CStr) (info : slsi_scan_info_t) (h : Heap) :
    Bool × slsi_scan_info_t × Heap :=
  match bss_field pbuf k.WPA_PARAM_BSSID 6 with
  | none => (false, info, h)
  | some (v, pos) =>
    let info := { info with bssid := v.take 18 }
    match bss_field pos k.WPA_PARAM_FREQ 5 with
    | none => (false, info, h)
    | some (v, pos) =>
      let info := { info with channel := k.ieee80211_freq_to_chan (strtol k.LONG_MAX v) }
      match bss_field pos k.WPA_PARAM_BEACON_INT 11 with
      | none => (false, info, h)
      | some (v, pos) =>
        let info := { info with beacon_period := strtol k.LONG_MAX v }
        match bss_field pos k.WPA_PARAM_CAPABILITIES 13 with
        | none => (false, info, h)
        | some (v, pos) =>
          let caps := strtol16 k.LONG_MAX v
          let info :=
            if to_uint32 caps &&& k.IEEE80211_CAP_IBSS ≠ 0 then { info with bss_type := 1 }
            else info
          match bss_field pos k.WPA_PARAM_QUAL 5 with
          | none => (false, info, h)
          | some (v, pos) =>
            let info := { info with rssi := strtol k.LONG_MAX v }
            match bss_field pos k.WPA_PARAM_IE 3 with
            | none => (false, info, h)
            | some (v, pos) =>
              let i := slsi_get_bss_info_ie k v info h
              match bss_field pos k.WPA_PARAM_FLAGS 6 with
              | none => (false, i.1, i.2)
              | some (v, pos) =>
                let s := slsi_get_security_from_flags k v i.1 i.2
                if !s.1 then (false, s.2.1, s.2.2)
                else
                  match bss_field pos k.WPA_PARAM_SSID 5 with
                  | none => (false, s.2.1, s.2.2)
                  | some (v, _) =>
                    let ssid := k.printf_decode (k.SLSI_SSID_LEN + 1) v
                    (true, { s.2.1 with ssid := ssid, ssid_len := ssid.length }, s.2.2)

/-- Source `slsi_get_bss_info`: whether it succeeded, the node `info`, the heap and the
channel.  The buffers `pbuf`, `bytes` and `tmpflags`, released before the function returns,
are left out of the heap log. -/
def slsi_get_bss_info (k : Config) (bssid : CStr) (info : slsi_scan_info_t) (h : Heap)
    (ch : Channel) : Bool × slsi_scan_info_t × Heap × Channel :=
  let r := slsi_send_request k (snprintf k.WPA_COMMAND_MAX_SIZE (k.WPA_COMMAND_BSS ++ bssid)) ch
  match r.buf with
  | none => (false, info, h, r.chan)
  | some pbuf =>
    let p := slsi_get_bss_info_parse k pbuf info h
    (p.1, p.2.1, p.2.2, r.chan)

/-! ## Scan results: the list -/

/-- Source `slsi_parse_scan_results`, the `while (*pos)` loop with `fuel` turns at most
(allocations assumed to succeed): the text left, the node being filled, the last node linked
before it, and whether the last line was discarded.  Each turn consumes a line. -/
def slsi_parse_scan_results_loop (k : Config) :
    Nat → CStr → Option Nat → Option Nat → Bool → Heap → Channel →
      Option Nat × Option Nat × Bool × Heap × Channel
  | 0, _, local_scan_result, local_prev, discarted, h, ch =>
    (local_scan_result, local_prev, discarted, h, ch)
  | fuel + 1, pos, local_scan_result, local_prev, discarted, h, ch =>
    if pos = [] then (local_scan_result, local_prev, discarted, h, ch)
    else
      match local_scan_result with
      | none => (local_scan_result, local_prev, discarted, h, ch)
      | some l =>
        let h := h.set_scan l {}
        match strchr pos '\n' with
        | none => (local_scan_result, local_prev, discarted, h, ch)
        | some e =>
          let info : slsi_scan_info_t := { bssid := (pos.take (pos.length - e.length)).take 18 }
          let g := slsi_get_bss_info k info.bssid info h ch
          let h := g.2.2.1.set_scan l g.2.1
          let pos := e.drop 1
          if g.1 then
            if pos ≠ [] then
              let a := zalloc h
              let h := (a.2.set_scan a.1 {}).set_scan l { g.2.1 with next := some a.1 }
              slsi_parse_scan_results_loop k fuel pos (some a.1) (some l) false h g.2.2.2
            else
              let h := h.set_scan l { g.2.1 with next := none }
              slsi_parse_scan_results_loop k fuel pos local_scan_result local_prev false h
                g.2.2.2
          else slsi_parse_scan_results_loop k fuel pos local_scan_result local_prev true h g.2.2.2

/-- Source `slsi_parse_scan_results` (allocations assumed to succeed): the pointer returned
(`none` is NULL), the heap and the channel. -/
def slsi_parse_scan_results (k : Config) (sr : CStr) (h : Heap) (ch : Channel) :
    Option Nat × Heap × Channel :=
  match strchr sr '\n' with
  | none => (none, h, ch)
  | some p =>
    let a := zalloc h
    let results := a.1
    let h := a.2.set_scan a.1 {}
    let pos := p.drop 1
    let r := slsi_parse_scan_results_loop k (pos.length + 1) pos (some a.1) none false h ch
    let h := r.2.2.2.1
    let h :=
      if r.2.2.1 then
        match r.1 with
        | some l =>
          let h := free (some l) h
          match r.2.1 with
          | some prev => h.set_scan prev { h.scan_at prev with next := none }
          | none => h
        | none => h
      else h
    (some results, h, r.2.2.2.2)

/-- Source `slsi_get_api_scan_results`: the result, the pointer behind `result_handler`, the
heap and the channel. -/
def slsi_get_api_scan_results (k : Config) (result_handler : Option Nat) (h : Heap)
    (ch : Channel) : slsi_status × Option Nat × Heap × Channel :=
  let r := slsi_send_request k (snprintf k.WPA_COMMAND_MAX_SIZE k.WPA_COMMAND_SCAN_RESULTS) ch
  match r.buf with
  | some pbuf =>
    let p := slsi_parse_scan_results k pbuf h r.chan
    (SLSI_STATUS_SUCCESS, p.1, p.2.1, p.2.2)
  | none => (SLSI_STATUS_ERROR, result_handler, h, r.chan)

/-- Source `WiFiGetScanResults`; `scan_results` is the caller's pointer before the call. -/
def WiFiGetScanResults (k : Config) (scan_results : Option Nat) (h : Heap) (d : Driver) :
    Option (slsi_status × Option Nat × Heap × Driver) :=
  match ENTER_CRITICAL k d with
  | none => none
  | some d =>
    let r : slsi_status × Option Nat × Heap × Driver :=
      if d.g_state ≠ SLSI_WIFIAPI_STATE_NOT_STARTED then
        let g := slsi_get_api_scan_results k scan_results h d.chan
        (g.1, g.2.1, g.2.2.1, { d with chan := g.2.2.2 })
      else (SLSI_STATUS_NOT_STARTED, scan_results, h, d)
    some (r.1, r.2.1, r.2.2.1, LEAVE_CRITICAL r.2.2.2)

/-- Source `WiFiFreeScanResults`, the inner loop over the vendor-IE list from `vsielist` on,
with `fuel` nodes at most. -/
def WiFiFreeScanResults_vsie : Nat → Option Nat → Heap → Heap
  | 0, _, h => h
  | _ + 1, none, h => h
  | fuel + 1, some vsie, h =>
    let node := h.vsie_at vsie
    let h := free node.content h
    let h := h.set_vsie vsie { node with content := none }
    let h := free (some vsie) h
    WiFiFreeScanResults_vsie fuel node.next h

/-- Source `WiFiFreeScanResults`, the loop over the list from `tmp_bss_list` on, with `fuel`
nodes at most. -/
def WiFiFreeScanResults_list : Nat → Option Nat → Heap → Heap
  | 0, _, h => h
  | _ + 1, none, h => h
  | fuel + 1, some tmp, h =>
    let node := h.scan_at tmp
    let h := free node.sec_modes h
    let h := h.set_scan tmp { node with sec_modes := none }
    let h := WiFiFreeScanResults_vsie h.brk node.vsie h
    let h := free (some tmp) h
    WiFiFreeScanResults_list fuel node.next h

/-- Source `WiFiFreeScanResults`: the result, the caller's pointer after the call, the heap and
the state.  A list has fewer nodes than addresses handed out. -/
def WiFiFreeScanResults (k : Config) (scan_results : Option Nat) (h : Heap) (d : Driver) :
    Option (slsi_status × Option Nat × Heap × Driver) :=
  match ENTER_CRITICAL k d with
  | none => none
  | some d =>
    let h := WiFiFreeScanResults_list h.brk scan_results h
    some (SLSI_STATUS_SUCCESS, none, h, LEAVE_CRITICAL d)

/-- The caller's pointer, the heap log, the blocks still allocated and the addresses released
while not allocated, after `WiFiGetScanResults` on a null pointer followed by
`WiFiFreeScanResults` on the pointer obtained, starting from an empty heap. -/
def scan_round_trip (k : Config) (d : Driver) :
    Option (Option Nat × List heap_op × List Nat × List Nat) :=
  match WiFiGetScanResults k none {} d with
  | none => none
  | some g =>
    match WiFiFreeScanResults k g.2.1 g.2.2.1 g.2.2.2 with
    | none => none
    | some f => some (f.2.1, f.2.2.1.log, heap_live f.2.2.1.log [], heap_bad_free f.2.2.1.log [])

/-- Reply of the supplicant to `BSS` for the given address, information elements, flags and
SSID. -/
def bss_reply (bssid ie flags ssid : String) : wpa_reply :=
  wpa_reply.text ("id=1\nbssid=" ++ bssid ++ "\nfreq=2437\nbeacon_int=100\ncapabilities=0x0411\n"
    ++ "qual=-64\nnoise=0\nlevel=0\ntsf=0011\nage=1\nie=" ++ ie ++ "\nflags=" ++ flags
    ++ "\nssid=" ++ ssid ++ "\nsnr=0\n").toList

/-! ## Theorems -/


/-- C1: `WiFiGetOpMode` always succeeds and stores `slsi_get_op_mode` of the current state, a
function of `g_state` (and of the build option for P2P) alone: Station exactly for
SupplicantRunning, StaConnecting, StaConnected, StaDisconnecting; SoftAP exactly for
ApEnabling, ApEnabled, ApConnected, ApDisabling; P2P exactly for the state P2p with the P2P API
configured; None exactly for NotStarted, Terminating, Recovering (and for P2p when the P2P API
is not configured). -/
theorem slsi_get_op_mode_by_state (k : Config) (d : Driver) :
    WiFiGetOpMode k d
        = (SLSI_STATUS_SUCCESS, slsi_get_op_mode k.CONFIG_SLSI_WIFI_P2P_API d.g_state)
    ∧ (slsi_get_op_mode k.CONFIG_SLSI_WIFI_P2P_API d.g_state = SLSI_WIFI_STATION_IF ↔
        d.g_state = SLSI_WIFIAPI_STATE_SUPPLICANT_RUNNING
        ∨ d.g_state = SLSI_WIFIAPI_STATE_STA_CONNECTING
        ∨ d.g_state = SLSI_WIFIAPI_STATE_STA_CONNECTED
        ∨ d.g_state = SLSI_WIFIAPI_STATE_STA_DISCONNECTING)
    ∧ (slsi_get_op_mode k.CONFIG_SLSI_WIFI_P2P_API d.g_state = SLSI_WIFI_SOFT_AP_IF ↔
        d.g_state = SLSI_WIFIAPI_STATE_AP_ENABLING
        ∨ d.g_state = SLSI_WIFIAPI_STATE_AP_ENABLED
        ∨ d.g_state = SLSI_WIFIAPI_STATE_AP_CONNECTED
        ∨ d.g_state = SLSI_WIFIAPI_STATE_AP_DISABLING)
    ∧ (slsi_get_op_mode k.CONFIG_SLSI_WIFI_P2P_API d.g_state = SLSI_WIFI_P2P_IF ↔
        d.g_state = SLSI_WIFIAPI_STATE_P2P ∧ k.CONFIG_SLSI_WIFI_P2P_API = true)
    ∧ (slsi_get_op_mode k.CONFIG_SLSI_WIFI_P2P_API d.g_state = SLSI_WIFI_NONE ↔
        d.g_state = SLSI_WIFIAPI_STATE_NOT_STARTED
        ∨ d.g_state = SLSI_WIFIAPI_STATE_TERMINATING
        ∨ d.g_state = SLSI_WIFIAPI_STATE_RECOVERING
        ∨ (d.g_state = SLSI_WIFIAPI_STATE_P2P ∧ k.CONFIG_SLSI_WIFI_P2P_API = false)) := by
  refine ⟨rfl, ?_⟩
  cases d.g_state <;> cases k.CONFIG_SLSI_WIFI_P2P_API <;>
    simp [slsi_get_op_mode, slsi_api_states_t.toNat]

/-- C2: `WiFiStart` returns ParamFailed when the kind is None or when it is SoftAP without an
AP configuration; otherwise it returns AlreadyStarted when the kind is the active interface
kind.  In both cases the driver is returned as it was: no command sent, state and counters
unchanged, whatever the start sequence `api_start` would do. -/
theorem WiFiStart_rejected (k : Config)
    (api_start : WiFi_InterFace_ID_t → Option slsi_ap_config_t → Driver → Option (slsi_status × Driver))
    (interface_id : WiFi_InterFace_ID_t) (ap_config : Option slsi_ap_config_t) (d : Driver) :
    ((interface_id = SLSI_WIFI_NONE ∨ (interface_id = SLSI_WIFI_SOFT_AP_IF ∧ ap_config = none)) →
      WiFiStart k api_start interface_id ap_config d = some (SLSI_STATUS_PARAM_FAILED, d))
    ∧ (¬ (interface_id = SLSI_WIFI_NONE ∨ (interface_id = SLSI_WIFI_SOFT_AP_IF ∧ ap_config = none)) →
      interface_id = slsi_get_op_mode k.CONFIG_SLSI_WIFI_P2P_API d.g_state →
      WiFiStart k api_start interface_id ap_config d = some (SLSI_STATUS_ALREADY_STARTED, d)) := by
  constructor
  · intro h
    simp [WiFiStart, h]
  · intro h1 h2
    rw [WiFiStart, if_neg h1, if_pos h2]

/-- Witness of C2: Start(None) and Start(SoftAP) without configuration on a fresh driver, and
Start(Station) on a driver whose station interface is running. -/
theorem WiFiStart_rejected_witness :
    WiFiStart wpa_config (fun _ _ _ => none) SLSI_WIFI_NONE none {}
        = some (SLSI_STATUS_PARAM_FAILED, {})
    ∧ WiFiStart wpa_config (fun _ _ _ => none) SLSI_WIFI_SOFT_AP_IF none {}
        = some (SLSI_STATUS_PARAM_FAILED, {})
    ∧ WiFiStart wpa_config (fun _ _ _ => none) SLSI_WIFI_STATION_IF none
          { g_state := SLSI_WIFIAPI_STATE_STA_CONNECTED }
        = some (SLSI_STATUS_ALREADY_STARTED, { g_state := SLSI_WIFIAPI_STATE_STA_CONNECTED }) :=
  ⟨(WiFiStart_rejected wpa_config _ SLSI_WIFI_NONE none {}).1 (Or.inl rfl),
   (WiFiStart_rejected wpa_config _ SLSI_WIFI_SOFT_AP_IF none {}).1 (Or.inr ⟨rfl, rfl⟩),
   (WiFiStart_rejected wpa_config _ SLSI_WIFI_STATION_IF none
      { g_state := SLSI_WIFIAPI_STATE_STA_CONNECTED }).2 (by decide) (by decide)⟩

/-- C3: `WiFiStop` in state NotStarted returns Success and the driver as it was (no command,
state, callbacks, counters and recovery snapshot unchanged); hence a second Stop gives the same
outcome as the first. -/
theorem WiFiStop_not_started (k : Config) (d : Driver)
    (h : d.g_state = SLSI_WIFIAPI_STATE_NOT_STARTED) :
    WiFiStop k d = some (SLSI_STATUS_SUCCESS, d)
    ∧ (WiFiStop k d).bind (fun r => WiFiStop k r.2) = WiFiStop k d := by
  have h1 : WiFiStop k d = some (SLSI_STATUS_SUCCESS, d) := by
    rw [WiFiStop, if_pos h]
  exact ⟨h1, by rw [h1]; exact h1⟩

/-- Witness of C3: Stop on the driver that was never started. -/
theorem WiFiStop_not_started_witness :
    WiFiStop wpa_config {} = some (SLSI_STATUS_SUCCESS, {})
    ∧ (WiFiStop wpa_config {}).bind (fun r => WiFiStop wpa_config r.2) = WiFiStop wpa_config {} :=
  WiFiStop_not_started wpa_config {} rfl

/-! ## Lemmas: event lines, frames of the monitor steps -/

theorem str_starts_excl (a b ev : CStr) (h1 : a.isPrefixOf b = false)
    (h2 : b.isPrefixOf a = false) (ha : str_starts ev a = true) : str_starts ev b = false := by
  by_contra hb
  simp only [Bool.not_eq_false] at hb
  unfold str_starts at ha hb
  rw [List.isPrefixOf_iff_prefix] at ha hb
  rcases List.prefix_or_prefix_of_prefix ha hb with h | h
  · rw [← List.isPrefixOf_iff_prefix] at h; rw [h] at h1; exact Bool.noConfusion h1
  · rw [← List.isPrefixOf_iff_prefix] at h; rw [h] at h2; exact Bool.noConfusion h2

theorem slsi_event_received_eq (str event : CStr) :
    slsi_event_received str event = str_starts str event := by
  unfold slsi_event_received
  cases str_starts str event <;> rfl

theorem events_excl (k : Config) (hk : k.events_distinct) (i j : Nat) (hi : i < 12) (hj : j < 12)
    (hij : i ≠ j) (ev : CStr) (h : slsi_event_received ev (k.event_names.getD i []) = true) :
    slsi_event_received ev (k.event_names.getD j []) = false := by
  have hlen : k.event_names.length = 12 := rfl
  unfold Config.events_distinct at hk
  rw [List.pairwise_iff_getElem] at hk
  have hi2 : i < k.event_names.length := by omega
  have hj2 : j < k.event_names.length := by omega
  rw [slsi_event_received_eq] at h ⊢
  rw [List.getD_eq_getElem _ _ hi2] at h
  rw [List.getD_eq_getElem _ _ hj2]
  rcases Nat.lt_or_gt_of_ne hij with hlt | hlt
  · exact str_starts_excl _ _ ev (hk i j hi2 hj2 hlt).1 (hk i j hi2 hj2 hlt).2 h
  · exact str_starts_excl _ _ ev (hk j i hj2 hi2 hlt).2 (hk j i hj2 hi2 hlt).1 h

theorem is_event_iff (line name : CStr) :
    is_event line name = true ↔ ∃ ev, event_text line = some ev ∧ slsi_event_received ev name = true := by
  unfold is_event
  cases h : event_text line <;> simp

theorem slsi_scan_event_handler_core (k : Config) (str event : CStr) (d : Driver) :
    (slsi_scan_event_handler k str event d).g_state = d.g_state
    ∧ (slsi_scan_event_handler k str event d).g_num_sta_connected = d.g_num_sta_connected
    ∧ (slsi_scan_event_handler k str event d).join_count = d.join_count := by
  unfold slsi_scan_event_handler slsi_send_mqueue
  split
  · split
    · dsimp only
      split <;> split <;> simp_all
    · simp
  · simp

theorem slsi_verify_back_core (k : Config) (d : Driver) :
    (slsi_verify_back k d).g_state = d.g_state
    ∧ (slsi_verify_back k d).g_num_sta_connected = d.g_num_sta_connected
    ∧ (slsi_verify_back k d).join_count = d.join_count
    ∧ (slsi_verify_back k d).g_recovery_data = d.g_recovery_data := by
  unfold slsi_verify_back slsi_start_scan sem_post
  dsimp only
  split <;> simp [Driver.set_semcount]

theorem slsi_verify_recovered_core (k : Config) (d : Driver) :
    (slsi_verify_recovered k d).g_state = d.g_state
    ∧ (slsi_verify_recovered k d).g_num_sta_connected = d.g_num_sta_connected
    ∧ (slsi_verify_recovered k d).join_count = d.join_count := by
  obtain ⟨h1, h2, h3, h4⟩ := slsi_verify_back_core k d
  unfold slsi_verify_recovered slsi_send_mqueue
  split
  · split
    · dsimp only
      split
      · split <;> (try split) <;> (try split) <;> simp [h1, h2, h3]
      · exact ⟨h1, h2, h3⟩
    · simp
  · simp

/-- Handling of a line whose event text is not a hang report, outside P2P. -/
theorem slsi_monitor_handle_line_eq (k : Config) (line ev : CStr) (d : Driver)
    (hev : event_text line = some ev)
    (hh : slsi_event_received ev k.WPA_EVENT_HANGED = false)
    (hp : d.g_state ≠ SLSI_WIFIAPI_STATE_P2P) :
    slsi_monitor_handle_line k line d =
      (if k.CONFIG_SCSC_WLAN_AUTO_RECOVERY then slsi_verify_recovered k else id)
        (slsi_monitor_switch k ev
          (if d.g_scanning then slsi_scan_event_handler k ev k.WPA_EVENT_SCAN_RESULTS d else d)) := by
  unfold event_text at hev
  unfold slsi_monitor_handle_line
  cases hs : strchr line '>' with
  | none => rw [hs] at hev; exact Option.noConfusion hev
  | some r =>
    rw [hs] at hev
    simp only [Option.some.injEq] at hev
    simp only [hev]
    cases hr : k.CONFIG_SCSC_WLAN_AUTO_RECOVERY <;>
      simp [slsi_recovery_handler, hh, hp]

theorem slsi_monitor_pre_core (k : Config) (ev : CStr) (d : Driver) :
    (if d.g_scanning then slsi_scan_event_handler k ev k.WPA_EVENT_SCAN_RESULTS d else d).g_state
        = d.g_state
    ∧ (if d.g_scanning then slsi_scan_event_handler k ev k.WPA_EVENT_SCAN_RESULTS d
        else d).g_num_sta_connected = d.g_num_sta_connected
    ∧ (if d.g_scanning then slsi_scan_event_handler k ev k.WPA_EVENT_SCAN_RESULTS d
        else d).join_count = d.join_count := by
  split
  · exact slsi_scan_event_handler_core k ev _ d
  · exact ⟨rfl, rfl, rfl⟩

theorem slsi_monitor_post_core (k : Config) (d : Driver) :
    ((if k.CONFIG_SCSC_WLAN_AUTO_RECOVERY then slsi_verify_recovered k else id) d).g_state
        = d.g_state
    ∧ ((if k.CONFIG_SCSC_WLAN_AUTO_RECOVERY then slsi_verify_recovered k else id)
        d).g_num_sta_connected = d.g_num_sta_connected
    ∧ ((if k.CONFIG_SCSC_WLAN_AUTO_RECOVERY then slsi_verify_recovered k else id) d).join_count
        = d.join_count := by
  split
  · exact slsi_verify_recovered_core k d
  · exact ⟨rfl, rfl, rfl⟩

theorem slsi_monitor_switch_ap_enabled (k : Config) (ev : CStr) (d : Driver)
    (hs : d.g_state = SLSI_WIFIAPI_STATE_AP_ENABLED)
    (he : slsi_event_received ev k.AP_STA_CONNECTED = true) :
    (slsi_monitor_switch k ev d).g_num_sta_connected = (d.g_num_sta_connected + 1) % 256
    ∧ (slsi_monitor_switch k ev d).g_state =
        (if (d.g_num_sta_connected + 1) % 256 = 1 then SLSI_WIFIAPI_STATE_AP_CONNECTED
          else SLSI_WIFIAPI_STATE_AP_ENABLED) := by
  unfold slsi_monitor_switch
  rw [hs]
  simp only [he, if_true]
  unfold slsi_send_mqueue
  split <;> split <;> (try split) <;> simp_all

theorem slsi_monitor_switch_ap_connected (k : Config) (ev : CStr) (d : Driver)
    (hs : d.g_state = SLSI_WIFIAPI_STATE_AP_CONNECTED)
    (he : slsi_event_received ev k.AP_STA_DISCONNECTED = true) :
    (slsi_monitor_switch k ev d).g_num_sta_connected = (d.g_num_sta_connected + 255) % 256
    ∧ (slsi_monitor_switch k ev d).g_state =
        (if (d.g_num_sta_connected + 255) % 256 = 0 then SLSI_WIFIAPI_STATE_AP_ENABLED
          else SLSI_WIFIAPI_STATE_AP_CONNECTED) := by
  unfold slsi_monitor_switch
  rw [hs]
  simp only [he, if_true]
  unfold slsi_send_mqueue
  split <;> split <;> (try split) <;> simp_all

/-- C8: in state ApEnabled with no station connected, the monitor handling a StationJoined
line raises the connected-station count by exactly 1 and sets the state to ApConnected;
handling a StationLeft line next brings the count back to 0 and the state back to ApEnabled. -/
theorem monitor_station_joined_then_left (k : Config) (d : Driver) (line1 line2 : CStr)
    (hk : k.events_distinct)
    (hs : d.g_state = SLSI_WIFIAPI_STATE_AP_ENABLED) (hc : d.g_num_sta_connected = 0)
    (h1 : is_event line1 k.AP_STA_CONNECTED = true)
    (h2 : is_event line2 k.AP_STA_DISCONNECTED = true) :
    (slsi_monitor_handle_line k line1 d).g_num_sta_connected = d.g_num_sta_connected + 1
    ∧ (slsi_monitor_handle_line k line1 d).g_state = SLSI_WIFIAPI_STATE_AP_CONNECTED
    ∧ (slsi_monitor_handle_line k line2
        (slsi_monitor_handle_line k line1 d)).g_num_sta_connected = 0
    ∧ (slsi_monitor_handle_line k line2 (slsi_monitor_handle_line k line1 d)).g_state
        = SLSI_WIFIAPI_STATE_AP_ENABLED := by
  obtain ⟨ev1, he1, hr1⟩ := (is_event_iff _ _).1 h1
  obtain ⟨ev2, he2, hr2⟩ := (is_event_iff _ _).1 h2
  have hh1 : slsi_event_received ev1 k.WPA_EVENT_HANGED = false :=
    events_excl k hk 9 1 (by decide) (by decide) (by decide) ev1 hr1
  have hh2 : slsi_event_received ev2 k.WPA_EVENT_HANGED = false :=
    events_excl k hk 10 1 (by decide) (by decide) (by decide) ev2 hr2
  have e1 := slsi_monitor_handle_line_eq k line1 ev1 d he1 hh1 (by rw [hs]; decide)
  obtain ⟨p1, p2, _⟩ := slsi_monitor_pre_core k ev1 d
  obtain ⟨s1, s2⟩ := slsi_monitor_switch_ap_enabled k ev1 _ (p1.trans hs) hr1
  obtain ⟨q1, q2, _⟩ := slsi_monitor_post_core k (slsi_monitor_switch k ev1
    (if d.g_scanning then slsi_scan_event_handler k ev1 k.WPA_EVENT_SCAN_RESULTS d else d))
  rw [p2, hc] at s1 s2
  have a1 : (slsi_monitor_handle_line k line1 d).g_num_sta_connected = 1 := by
    rw [e1, q2, s1]
  have a2 : (slsi_monitor_handle_line k line1 d).g_state = SLSI_WIFIAPI_STATE_AP_CONNECTED := by
    rw [e1, q1, s2]; rfl
  have e2 := slsi_monitor_handle_line_eq k line2 ev2 (slsi_monitor_handle_line k line1 d) he2 hh2
    (by rw [a2]; decide)
  obtain ⟨p1', p2', _⟩ := slsi_monitor_pre_core k ev2 (slsi_monitor_handle_line k line1 d)
  obtain ⟨s1', s2'⟩ := slsi_monitor_switch_ap_connected k ev2 _ (p1'.trans a2) hr2
  obtain ⟨q1', q2', _⟩ := slsi_monitor_post_core k (slsi_monitor_switch k ev2
    (if (slsi_monitor_handle_line k line1 d).g_scanning then
      slsi_scan_event_handler k ev2 k.WPA_EVENT_SCAN_RESULTS (slsi_monitor_handle_line k line1 d)
      else slsi_monitor_handle_line k line1 d))
  rw [p2', a1] at s1' s2'
  refine ⟨by rw [a1, hc], a2, ?_, ?_⟩
  · rw [e2, q2', s1']
  · rw [e2, q1', s2']; rfl

/-- Witness of C8. -/
theorem monitor_station_joined_then_left_witness :
    (slsi_monitor_handle_line wpa_config "<3>AP-STA-CONNECTED 02:00:00:00:01:00".toList
        { g_state := SLSI_WIFIAPI_STATE_AP_ENABLED }).g_num_sta_connected = 0 + 1
    ∧ (slsi_monitor_handle_line wpa_config "<3>AP-STA-CONNECTED 02:00:00:00:01:00".toList
        { g_state := SLSI_WIFIAPI_STATE_AP_ENABLED }).g_state = SLSI_WIFIAPI_STATE_AP_CONNECTED
    ∧ (slsi_monitor_handle_line wpa_config "<3>AP-STA-DISCONNECTED 02:00:00:00:01:00".toList
        (slsi_monitor_handle_line wpa_config "<3>AP-STA-CONNECTED 02:00:00:00:01:00".toList
          { g_state := SLSI_WIFIAPI_STATE_AP_ENABLED })).g_num_sta_connected = 0
    ∧ (slsi_monitor_handle_line wpa_config "<3>AP-STA-DISCONNECTED 02:00:00:00:01:00".toList
        (slsi_monitor_handle_line wpa_config "<3>AP-STA-CONNECTED 02:00:00:00:01:00".toList
          { g_state := SLSI_WIFIAPI_STATE_AP_ENABLED })).g_state = SLSI_WIFIAPI_STATE_AP_ENABLED :=
  monitor_station_joined_then_left wpa_config { g_state := SLSI_WIFIAPI_STATE_AP_ENABLED }
    "<3>AP-STA-CONNECTED 02:00:00:00:01:00".toList "<3>AP-STA-DISCONNECTED 02:00:00:00:01:00".toList
    (by decide) rfl rfl (by decide) (by decide)

theorem slsi_scan_event_handler_other (k : Config) (ev : CStr) (d : Driver)
    (h : slsi_event_received ev k.WPA_EVENT_SCAN_RESULTS = false) :
    (if d.g_scanning then slsi_scan_event_handler k ev k.WPA_EVENT_SCAN_RESULTS d else d) = d := by
  rw [slsi_event_received_eq] at h
  unfold slsi_scan_event_handler
  simp [h]

theorem slsi_verify_recovered_idle (k : Config) (d : Driver) (h : d.g_recovering = false) :
    (if k.CONFIG_SCSC_WLAN_AUTO_RECOVERY then slsi_verify_recovered k else id) d = d := by
  unfold slsi_verify_recovered
  split <;> simp [h]

/-- The failure report of the `STA_CONNECTING` case: the state after an event that is handled
with the non-zero reason code `code`. -/
theorem slsi_monitor_switch_join_failed (k : Config) (ev : CStr) (d : Driver) (code : Nat)
    (hs : d.g_state = SLSI_WIFIAPI_STATE_STA_CONNECTING)
    (he : slsi_monitor_sta_connecting_event k ev d = (true, { reason_code := code }, d))
    (hc : code ≠ 0) :
    slsi_monitor_switch k ev d =
      { d with
        g_state := SLSI_WIFIAPI_STATE_SUPPLICANT_RUNNING
        join_count := 0
        g_network_id := none
        chan := (match d.g_network_id with
          | some id => slsi_remove_network k id d.chan
          | none => d.chan)
        mq := (if d.g_link_up.isSome ∧ d.g_send_cbmqfd then
            d.mq ++ [⟨SLSI_CALLBACK_LINK_UP, { reason_code := code }⟩] else d.mq) } := by
  unfold slsi_monitor_switch
  rw [hs]
  simp only [he, if_true]
  unfold slsi_send_mqueue
  cases hn : d.g_network_id <;> cases hl : d.g_link_up <;> cases hq : d.g_send_cbmqfd <;>
    simp [hc, hn, hl, hq]

theorem slsi_monitor_switch_not_found_retry (k : Config) (ev : CStr) (d : Driver)
    (hs : d.g_state = SLSI_WIFIAPI_STATE_STA_CONNECTING)
    (h1 : slsi_event_received ev k.WPA_EVENT_CONNECTED = false)
    (h2 : slsi_event_received ev k.WPA_EVENT_NETWORK_NOT_FOUND = true)
    (hj : d.join_count ≠ k.SLSI_STA_JOIN_SCAN_ATTEMPT) :
    slsi_monitor_switch k ev d = { d with join_count := (d.join_count + 1) % 256 } := by
  unfold slsi_monitor_switch
  rw [hs]
  simp [slsi_monitor_sta_connecting_event, h1, h2, hj, hs]

theorem slsi_monitor_sta_connecting_not_found (k : Config) (ev : CStr) (d : Driver)
    (h1 : slsi_event_received ev k.WPA_EVENT_CONNECTED = false)
    (h2 : slsi_event_received ev k.WPA_EVENT_NETWORK_NOT_FOUND = true)
    (hj : d.join_count = k.SLSI_STA_JOIN_SCAN_ATTEMPT) :
    slsi_monitor_sta_connecting_event k ev d
      = (true, { reason_code := k.SLSI_REASON_NETWORK_CONFIGURATION_NOT_FOUND % 4294967296 }, d) := by
  simp [slsi_monitor_sta_connecting_event, h1, h2, hj]

/-- A line carrying a NetworkNotFound event, handled in `STA_CONNECTING` outside recovery while
the retry counter has not reached the limit: the counter goes up by one, nothing else. -/
theorem slsi_monitor_handle_not_found_retry (k : Config) (line : CStr) (d : Driver)
    (hk : k.events_distinct) (hN : k.SLSI_STA_JOIN_SCAN_ATTEMPT < 256)
    (hs : d.g_state = SLSI_WIFIAPI_STATE_STA_CONNECTING) (hr : d.g_recovering = false)
    (hl : is_event line k.WPA_EVENT_NETWORK_NOT_FOUND = true)
    (hj : d.join_count < k.SLSI_STA_JOIN_SCAN_ATTEMPT) :
    slsi_monitor_handle_line k line d = { d with join_count := d.join_count + 1 } := by
  obtain ⟨ev, he, hrv⟩ := (is_event_iff _ _).1 hl
  have hh := events_excl k hk 4 1 (by decide) (by decide) (by decide) ev hrv
  have hsc := events_excl k hk 4 0 (by decide) (by decide) (by decide) ev hrv
  have hcn := events_excl k hk 4 2 (by decide) (by decide) (by decide) ev hrv
  have hm : (d.join_count + 1) % 256 = d.join_count + 1 := Nat.mod_eq_of_lt (by omega)
  rw [slsi_monitor_handle_line_eq k line ev d he hh (by rw [hs]; decide),
    slsi_scan_event_handler_other k ev d hsc,
    slsi_monitor_switch_not_found_retry k ev d hs hcn hrv (Nat.ne_of_lt hj), hm]
  exact slsi_verify_recovered_idle k { d with join_count := d.join_count + 1 } hr

theorem monitor_run_not_found_retry (k : Config) (lines : List CStr) (d : Driver)
    (hk : k.events_distinct) (hN : k.SLSI_STA_JOIN_SCAN_ATTEMPT < 256)
    (hs : d.g_state = SLSI_WIFIAPI_STATE_STA_CONNECTING) (hr : d.g_recovering = false)
    (hl : ∀ line ∈ lines, is_event line k.WPA_EVENT_NETWORK_NOT_FOUND = true)
    (hj : d.join_count + lines.length ≤ k.SLSI_STA_JOIN_SCAN_ATTEMPT) :
    monitor_run k lines d = { d with join_count := d.join_count + lines.length } := by
  induction lines generalizing d with
  | nil => rfl
  | cons line rest ih =>
    have h1 := slsi_monitor_handle_not_found_retry k line d hk hN hs hr
      (hl line (List.mem_cons_self _ _)) (by simp only [List.length_cons] at hj; omega)
    have h2 := ih { d with join_count := d.join_count + 1 } hs hr
      (fun l hl' => hl l (List.mem_cons_of_mem _ hl'))
      (by simp only [List.length_cons] at hj; show d.join_count + 1 + rest.length ≤ _; omega)
    have h3 : monitor_run k (line :: rest) d
        = monitor_run k rest (slsi_monitor_handle_line k line d) := rfl
    rw [h3, h1, h2]
    have h4 : d.join_count + 1 + rest.length = d.join_count + (line :: rest).length := by
      simp only [List.length_cons]; omega
    show ({ d with join_count := d.join_count + 1 + rest.length } : Driver) = _
    rw [h4]

/-- C9 (amended): starting in StaConnecting with the join-retry counter at 0, outside
recovery, after any number `n <= SLSI_STA_JOIN_SCAN_ATTEMPT` of NetworkNotFound lines the state
is still StaConnecting and the retry counter equals `n`; one more NetworkNotFound line after
exactly `SLSI_STA_JOIN_SCAN_ATTEMPT` of them (so `SLSI_STA_JOIN_SCAN_ATTEMPT + 1` in all) sets
the state to SupplicantRunning, resets the counter and, when a link-up callback is registered
and the sender queue is open, queues one link-up message with reason code
NetworkConfigurationNotFound. -/
theorem monitor_network_not_found (k : Config) (d : Driver) (lines : List CStr) (line : CStr)
    (hk : k.events_distinct) (hN : k.SLSI_STA_JOIN_SCAN_ATTEMPT < 256)
    (hc0 : 0 < k.SLSI_REASON_NETWORK_CONFIGURATION_NOT_FOUND)
    (hc1 : k.SLSI_REASON_NETWORK_CONFIGURATION_NOT_FOUND < 4294967296)
    (hs : d.g_state = SLSI_WIFIAPI_STATE_STA_CONNECTING) (hj : d.join_count = 0)
    (hr : d.g_recovering = false)
    (hl : ∀ l ∈ lines, is_event l k.WPA_EVENT_NETWORK_NOT_FOUND = true)
    (h1 : is_event line k.WPA_EVENT_NETWORK_NOT_FOUND = true)
    (hlen : lines.length ≤ k.SLSI_STA_JOIN_SCAN_ATTEMPT) :
    (monitor_run k lines d).g_state = SLSI_WIFIAPI_STATE_STA_CONNECTING
    ∧ (monitor_run k lines d).join_count = lines.length
    ∧ (lines.length = k.SLSI_STA_JOIN_SCAN_ATTEMPT →
        (monitor_run k (lines ++ [line]) d).g_state = SLSI_WIFIAPI_STATE_SUPPLICANT_RUNNING
        ∧ (monitor_run k (lines ++ [line]) d).join_count = 0
        ∧ (monitor_run k (lines ++ [line]) d).mq =
            (if d.g_link_up.isSome ∧ d.g_send_cbmqfd then
              d.mq ++ [⟨SLSI_CALLBACK_LINK_UP,
                { reason_code := k.SLSI_REASON_NETWORK_CONFIGURATION_NOT_FOUND }⟩]
            else d.mq)) := by
  have hrun := monitor_run_not_found_retry k lines d hk hN hs hr hl (by omega)
  rw [hj, Nat.zero_add] at hrun
  refine ⟨by rw [hrun]; exact hs, by rw [hrun], fun hfull => ?_⟩
  have hstep : monitor_run k (lines ++ [line]) d
      = slsi_monitor_handle_line k line (monitor_run k lines d) := by
    simp [monitor_run, List.foldl_append]
  obtain ⟨ev, he, hrv⟩ := (is_event_iff _ _).1 h1
  have hh := events_excl k hk 4 1 (by decide) (by decide) (by decide) ev hrv
  have hsc := events_excl k hk 4 0 (by decide) (by decide) (by decide) ev hrv
  have hcn := events_excl k hk 4 2 (by decide) (by decide) (by decide) ev hrv
  have hmod : k.SLSI_REASON_NETWORK_CONFIGURATION_NOT_FOUND % 4294967296
      = k.SLSI_REASON_NETWORK_CONFIGURATION_NOT_FOUND := Nat.mod_eq_of_lt hc1
  have hevt := slsi_monitor_sta_connecting_not_found k ev { d with join_count := lines.length }
    hcn hrv hfull
  rw [hmod] at hevt
  have hsw := slsi_monitor_switch_join_failed k ev { d with join_count := lines.length }
    k.SLSI_REASON_NETWORK_CONFIGURATION_NOT_FOUND hs hevt (by omega)
  have hpre := slsi_scan_event_handler_other k ev { d with join_count := lines.length } hsc
  have hline := slsi_monitor_handle_line_eq k line ev { d with join_count := lines.length } he hh
    (by show d.g_state ≠ _; rw [hs]; decide)
  rw [hpre, hsw] at hline
  rw [hstep, hrun, hline, slsi_verify_recovered_idle]
  · exact ⟨rfl, rfl, rfl⟩
  · exact hr

theorem slsi_send_request_loop_chan (k : Config) (cmd : CStr) (n : Nat) (r : Option slsi_status)
    (ch : Channel) :
    ∃ m, m ≤ n ∧ (0 < n → 0 < m) ∧ (slsi_send_request_loop k cmd n r ch).chan
      = { ch with sent := ch.sent ++ List.replicate m cmd, replies := ch.replies.drop m } := by
  induction n generalizing r ch with
  | zero => exact ⟨0, le_refl _, fun h => absurd h (lt_irrefl _), by simp [slsi_send_request_loop]⟩
  | succ n ih =>
    unfold slsi_send_request_loop
    split
    · exact ⟨1, by omega, fun _ => by omega, by simp⟩
    · obtain ⟨m, h1, _, h⟩ := ih (some SLSI_STATUS_ERROR)
        { ch with sent := ch.sent ++ [cmd], replies := ch.replies.tail }
      refine ⟨m + 1, by omega, fun _ => by omega, ?_⟩
      rw [h]; simp [List.replicate_succ, List.drop_succ_cons, List.tail_drop]
    · obtain ⟨m, h1, _, h⟩ := ih (some SLSI_STATUS_ERROR)
        { ch with sent := ch.sent ++ [cmd], replies := ch.replies.tail }
      refine ⟨m + 1, by omega, fun _ => by omega, ?_⟩
      rw [h]; simp [List.replicate_succ, List.drop_succ_cons, List.tail_drop]

/-- On an open control connection, with at least one attempt allowed, `slsi_send_request`
hands the command to the supplicant. -/
theorem slsi_send_request_sent (k : Config) (cmd : CStr) (ch : Channel)
    (hc : ch.g_ctrl_conn = true) (hn : 0 < k.REQUEST_RETRY_COUNT) :
    cmd ∈ (slsi_send_request k cmd ch).chan.sent := by
  unfold slsi_send_request
  simp only [hc, Bool.not_true, Bool.false_eq_true, if_false]
  obtain ⟨m, _, hm, h⟩ := slsi_send_request_loop_chan k cmd k.REQUEST_RETRY_COUNT none ch
  rw [h]
  obtain ⟨m', rfl⟩ : ∃ m', m = m' + 1 := ⟨m - 1, by have := hm hn; omega⟩
  simp [List.replicate_succ]

theorem slsi_remove_network_sent (k : Config) (id : CStr) (ch : Channel)
    (hc : ch.g_ctrl_conn = true) (hn : 0 < k.REQUEST_RETRY_COUNT)
    (hne : snprintf k.WPA_COMMAND_MAX_SIZE (k.WPA_COMMAND_REMOVE_NETWORK ++ id) ≠ []) :
    snprintf k.WPA_COMMAND_MAX_SIZE (k.WPA_COMMAND_REMOVE_NETWORK ++ id)
      ∈ (slsi_remove_network k id ch).sent := by
  unfold slsi_remove_network slsi_send_command_str_upto_4
  simp only [hne, ne_eq, not_false_eq_true, if_true]
  exact slsi_send_request_sent k _ ch hc hn

theorem slsi_monitor_sta_connecting_failure (k : Config) (ev : CStr) (d : Driver) (code : Nat)
    (hk : k.events_distinct) (hcode : code < 4294967296)
    (h : (slsi_event_received ev k.WPA_EVENT_TEMP_DISABLED = true
          ∧ code = k.SLSI_REASON_NETWORK_AUTHENTICATION_FAILED)
        ∨ (slsi_event_received ev SLSI_EVENT_ASSOCIATION_REQ_FAILED = true
          ∧ code = k.SLSI_REASON_ASSOCIATION_REQ_FAILED)
        ∨ (slsi_event_received ev k.WPA_EVENT_DISCONNECTED = true
          ∧ code = k.SLSI_REASON_ASSOCIATION_REQ_FAILED)) :
    slsi_monitor_sta_connecting_event k ev d = (true, { reason_code := code }, d)
    ∧ slsi_event_received ev k.WPA_EVENT_HANGED = false
    ∧ slsi_event_received ev k.WPA_EVENT_SCAN_RESULTS = false := by
  have hmod : code % 4294967296 = code := Nat.mod_eq_of_lt hcode
  rcases h with ⟨he, hc⟩ | ⟨he, hc⟩ | ⟨he, hc⟩
  · have h0 := events_excl k hk 5 0 (by decide) (by decide) (by decide) ev he
    have h1 := events_excl k hk 5 1 (by decide) (by decide) (by decide) ev he
    have h2 := events_excl k hk 5 2 (by decide) (by decide) (by decide) ev he
    have h4 := events_excl k hk 5 4 (by decide) (by decide) (by decide) ev he
    refine ⟨?_, h1, h0⟩
    simp only [Config.event_names, List.getD_cons_succ, List.getD_cons_zero] at h2 h4
    simp [slsi_monitor_sta_connecting_event, h2, h4, he, ← hc, hmod]
  · have h0 := events_excl k hk 11 0 (by decide) (by decide) (by decide) ev he
    have h1 := events_excl k hk 11 1 (by decide) (by decide) (by decide) ev he
    have h2 := events_excl k hk 11 2 (by decide) (by decide) (by decide) ev he
    have h4 := events_excl k hk 11 4 (by decide) (by decide) (by decide) ev he
    have h5 := events_excl k hk 11 5 (by decide) (by decide) (by decide) ev he
    refine ⟨?_, h1, h0⟩
    simp only [Config.event_names, List.getD_cons_succ, List.getD_cons_zero] at h2 h4 h5
    simp [slsi_monitor_sta_connecting_event, h2, h4, h5, he, ← hc, hmod]
  · have h0 := events_excl k hk 3 0 (by decide) (by decide) (by decide) ev he
    have h1 := events_excl k hk 3 1 (by decide) (by decide) (by decide) ev he
    have h2 := events_excl k hk 3 2 (by decide) (by decide) (by decide) ev he
    have h4 := events_excl k hk 3 4 (by decide) (by decide) (by decide) ev he
    have h5 := events_excl k hk 3 5 (by decide) (by decide) (by decide) ev he
    have h11 := events_excl k hk 3 11 (by decide) (by decide) (by decide) ev he
    refine ⟨?_, h1, h0⟩
    simp only [Config.event_names, List.getD_cons_succ, List.getD_cons_zero] at h2 h4 h5 h11
    simp [slsi_monitor_sta_connecting_event, h2, h4, h5, h11, he, ← hc, hmod]

/-- C10: in state StaConnecting, outside recovery and with the sender queue open, the monitor
handling a TempDisabled line (reason code AuthenticationFailed), or an
association-request-failed line or a Disconnected line (reason code AssociationFailed), sets the
state to SupplicantRunning, resets the join-retry counter to 0, removes the current network
entry (REMOVE_NETWORK is sent for it and `g_network_id` is cleared) and, exactly when a link-up
callback is registered, queues one link-up message carrying that reason code. -/
theorem monitor_join_failure (k : Config) (d : Driver) (line : CStr) (code : Nat)
    (hk : k.events_distinct) (hc0 : 0 < code) (hc1 : code < 4294967296)
    (hs : d.g_state = SLSI_WIFIAPI_STATE_STA_CONNECTING) (hr : d.g_recovering = false)
    (hq : d.g_send_cbmqfd = true)
    (h : (is_event line k.WPA_EVENT_TEMP_DISABLED = true
          ∧ code = k.SLSI_REASON_NETWORK_AUTHENTICATION_FAILED)
        ∨ (is_event line SLSI_EVENT_ASSOCIATION_REQ_FAILED = true
          ∧ code = k.SLSI_REASON_ASSOCIATION_REQ_FAILED)
        ∨ (is_event line k.WPA_EVENT_DISCONNECTED = true
          ∧ code = k.SLSI_REASON_ASSOCIATION_REQ_FAILED)) :
    (slsi_monitor_handle_line k line d).g_state = SLSI_WIFIAPI_STATE_SUPPLICANT_RUNNING
    ∧ (slsi_monitor_handle_line k line d).join_count = 0
    ∧ (slsi_monitor_handle_line k line d).g_network_id = none
    ∧ (slsi_monitor_handle_line k line d).chan =
        (match d.g_network_id with
          | some id => slsi_remove_network k id d.chan
          | none => d.chan)
    ∧ (∀ id, d.g_network_id = some id → d.chan.g_ctrl_conn = true → 0 < k.REQUEST_RETRY_COUNT →
        snprintf k.WPA_COMMAND_MAX_SIZE (k.WPA_COMMAND_REMOVE_NETWORK ++ id) ≠ [] →
        snprintf k.WPA_COMMAND_MAX_SIZE (k.WPA_COMMAND_REMOVE_NETWORK ++ id)
          ∈ (slsi_monitor_handle_line k line d).chan.sent)
    ∧ (slsi_monitor_handle_line k line d).mq =
        (if d.g_link_up.isSome then
          d.mq ++ [⟨SLSI_CALLBACK_LINK_UP, { reason_code := code }⟩] else d.mq) := by
  have hex : ∃ ev, event_text line = some ev
      ∧ ((slsi_event_received ev k.WPA_EVENT_TEMP_DISABLED = true
          ∧ code = k.SLSI_REASON_NETWORK_AUTHENTICATION_FAILED)
        ∨ (slsi_event_received ev SLSI_EVENT_ASSOCIATION_REQ_FAILED = true
          ∧ code = k.SLSI_REASON_ASSOCIATION_REQ_FAILED)
        ∨ (slsi_event_received ev k.WPA_EVENT_DISCONNECTED = true
          ∧ code = k.SLSI_REASON_ASSOCIATION_REQ_FAILED)) := by
    rcases h with ⟨he, hc⟩ | ⟨he, hc⟩ | ⟨he, hc⟩
    · obtain ⟨ev, h1, h2⟩ := (is_event_iff _ _).1 he
      exact ⟨ev, h1, Or.inl ⟨h2, hc⟩⟩
    · obtain ⟨ev, h1, h2⟩ := (is_event_iff _ _).1 he
      exact ⟨ev, h1, Or.inr (Or.inl ⟨h2, hc⟩)⟩
    · obtain ⟨ev, h1, h2⟩ := (is_event_iff _ _).1 he
      exact ⟨ev, h1, Or.inr (Or.inr ⟨h2, hc⟩)⟩
  obtain ⟨ev, he, hev⟩ := hex
  obtain ⟨hevt, hh, hsc⟩ := slsi_monitor_sta_connecting_failure k ev d code hk hc1 hev
  have hline := slsi_monitor_handle_line_eq k line ev d he hh (by rw [hs]; decide)
  rw [slsi_scan_event_handler_other k ev d hsc,
    slsi_monitor_switch_join_failed k ev d code hs hevt (by omega)] at hline
  rw [slsi_verify_recovered_idle] at hline
  · rw [hline]
    refine ⟨rfl, rfl, rfl, rfl, ?_, ?_⟩
    · intro id hid hconn hn hne
      show _ ∈ (match d.g_network_id with
          | some id => slsi_remove_network k id d.chan
          | none => d.chan).sent
      rw [hid]
      exact slsi_remove_network_sent k id d.chan hconn hn hne
    · show (if d.g_link_up.isSome ∧ d.g_send_cbmqfd then _ else _) = _
      simp [hq]
  · exact hr

/-- Witness of C10: a temporarily-disabled report while joining network `0`. -/
theorem monitor_join_failure_witness :
    (wpa_config.events_distinct ∧ 0 < 46 ∧ 46 < 4294967296
      ∧ joining_driver.g_state = SLSI_WIFIAPI_STATE_STA_CONNECTING
      ∧ joining_driver.g_recovering = false ∧ joining_driver.g_send_cbmqfd = true
      ∧ is_event "<3>CTRL-EVENT-SSID-TEMP-DISABLED id=0 ssid=\"ap\" auth_failures=1".toList
          wpa_config.WPA_EVENT_TEMP_DISABLED = true)
    ∧ (slsi_monitor_handle_line wpa_config
        "<3>CTRL-EVENT-SSID-TEMP-DISABLED id=0 ssid=\"ap\" auth_failures=1".toList
        joining_driver).g_state = SLSI_WIFIAPI_STATE_SUPPLICANT_RUNNING
    ∧ (slsi_monitor_handle_line wpa_config
        "<3>CTRL-EVENT-SSID-TEMP-DISABLED id=0 ssid=\"ap\" auth_failures=1".toList
        joining_driver).mq = [⟨SLSI_CALLBACK_LINK_UP, { reason_code := 46 }⟩] :=
  have h := monitor_join_failure wpa_config joining_driver
    "<3>CTRL-EVENT-SSID-TEMP-DISABLED id=0 ssid=\"ap\" auth_failures=1".toList 46
    (by decide) (by decide) (by decide) rfl rfl rfl (Or.inl ⟨by decide, rfl⟩)
  ⟨⟨by decide, by decide, by decide, rfl, rfl, rfl, by decide⟩, h.1, h.2.2.2.2.2⟩

/-! ## Lemmas: commands only add to the list of sent commands -/

theorem slsi_send_request_extends (k : Config) (cmd : CStr) (ch : Channel) :
    ch.sent <+: (slsi_send_request k cmd ch).chan.sent
    ∧ (slsi_send_request k cmd ch).chan.g_ctrl_conn = ch.g_ctrl_conn := by
  unfold slsi_send_request
  split
  · exact ⟨List.prefix_refl _, rfl⟩
  · obtain ⟨m, _, _, h⟩ := slsi_send_request_loop_chan k cmd k.REQUEST_RETRY_COUNT none ch
    rw [h]
    exact ⟨List.prefix_append _ _, rfl⟩

theorem slsi_send_request_grows (k : Config) (cmd : CStr) (ch : Channel)
    (hc : ch.g_ctrl_conn = true) (hn : 0 < k.REQUEST_RETRY_COUNT) :
    ch.sent.length < (slsi_send_request k cmd ch).chan.sent.length := by
  unfold slsi_send_request
  simp only [hc, Bool.not_true, Bool.false_eq_true, if_false]
  obtain ⟨m, _, hm, h⟩ := slsi_send_request_loop_chan k cmd k.REQUEST_RETRY_COUNT none ch
  rw [h]
  have := hm hn
  simp only [List.length_append, List.length_replicate]
  omega

theorem slsi_send_command_str_upto_4_extends (k : Config) (one two three four : Option CStr)
    (ch : Channel) :
    ch.sent <+: (slsi_send_command_str_upto_4 k one two three four ch).2.sent
    ∧ (slsi_send_command_str_upto_4 k one two three four ch).2.g_ctrl_conn = ch.g_ctrl_conn := by
  unfold slsi_send_command_str_upto_4
  dsimp only
  split
  · exact slsi_send_request_extends k _ ch
  · exact ⟨List.prefix_refl _, rfl⟩

theorem slsi_send_command_str_extends (k : Config) (command : CStr) (ch : Channel) :
    ch.sent <+: (slsi_send_command_str k command ch).2.sent
    ∧ (slsi_send_command_str k command ch).2.g_ctrl_conn = ch.g_ctrl_conn := by
  unfold slsi_send_command_str
  dsimp only
  split
  · exact slsi_send_request_extends k _ ch
  · exact ⟨List.prefix_refl _, rfl⟩

theorem slsi_set_scan_interval_extends (k : Config) (interval : Nat) (ch : Channel) :
    ch.sent <+: (slsi_set_scan_interval k interval ch).sent :=
  (slsi_send_request_extends k _ ch).1

theorem slsi_get_network_chan (k : Config) (ssid : List Char) (ssid_len : Nat) (ch : Channel) :
    (slsi_get_network k ssid ssid_len ch).2.2
      = (slsi_send_request k (snprintf k.WPA_COMMAND_MAX_SIZE k.WPA_COMMAND_LIST_NETWORKS) ch).chan := by
  unfold slsi_get_network
  dsimp only
  split
  · rfl
  · split
    · rfl
    · split
      · rfl
      · split
        · rfl
        · split <;> rfl

theorem slsi_set_security_mode_chan_ite (ch : Channel) (c : Prop) [Decidable c]
    (x y : (slsi_status × Channel) ⊕ (CStr × slsi_status × Channel))
    (hx : ch.sent <+: (slsi_set_security_mode_chan x).sent)
    (hy : ch.sent <+: (slsi_set_security_mode_chan y).sent) :
    ch.sent <+: (slsi_set_security_mode_chan (if c then x else y)).sent := by
  split <;> assumption

theorem slsi_set_security_mode_extends (k : Config) (op_mode : WiFi_InterFace_ID_t)
    (sec : slsi_security_config_t) (network_id : CStr) (result : slsi_status) (ch : Channel) :
    ch.sent <+: (slsi_set_security_mode_chan
      (slsi_set_security_mode k op_mode sec network_id result ch)).sent := by
  have p1 := fun a b c e ch => (slsi_send_command_str_upto_4_extends k a b c e ch).1
  unfold slsi_set_security_mode
  lift_lets
  intro proto r1 result1 pairwise r2 result2 r3 result3
  have q1 : ch.sent <+: r1.2.sent := p1 _ _ _ _ ch
  have q2 : ch.sent <+: r2.2.sent := q1.trans (p1 _ _ _ _ r1.2)
  have q3 : ch.sent <+: r3.2.sent := q2.trans (p1 _ _ _ _ r2.2)
  clear_value proto r1 result1 pairwise r2 result2 r3 result3
  repeat' apply slsi_set_security_mode_chan_ite
  all_goals first | exact List.prefix_refl _ | exact q1 | exact q2 | exact q3

theorem prefix_pair_ite {α : Type} (ch : Channel) (c : Prop) [Decidable c] (x y : α × Channel)
    (hx : ch.sent <+: x.2.sent) (hy : ch.sent <+: y.2.sent) :
    ch.sent <+: (if c then x else y).2.sent := by
  split <;> assumption

theorem slsi_set_security_extends (k : Config) (op_mode : WiFi_InterFace_ID_t)
    (sec_config : Option slsi_security_config_t) (network_id : CStr) (ch : Channel) :
    ch.sent <+: (slsi_set_security k op_mode sec_config network_id ch).2.sent := by
  have p1 := fun a b c e ch => (slsi_send_command_str_upto_4_extends k a b c e ch).1
  have p2 := fun cmd ch => (slsi_send_request_extends k cmd ch).1
  unfold slsi_set_security
  cases sec_config with
  | none => exact p1 _ _ _ _ ch
  | some sec =>
    lift_lets
    intro result0
    dsimp -zeta only
    have hm := slsi_set_security_mode_extends k op_mode sec network_id result0 ch
    generalize slsi_set_security_mode k op_mode sec network_id result0 ch = m at hm ⊢
    cases m with
    | inl e => exact hm
    | inr e =>
      obtain ⟨keymgmt, result, ch'⟩ := e
      change ch.sent <+: ch'.sent at hm
      dsimp -zeta only
      lift_lets
      intro authalg r result1 r' result2
      have q1 : ch.sent <+: r.2.sent := hm.trans (p1 _ _ _ _ ch')
      have q2 : ch.sent <+: r'.2.sent := q1.trans (p1 _ _ _ _ r.2)
      clear_value r result1 authalg r' result2
      repeat' apply prefix_pair_ite
      · exact q1
      · exact q2
      · split
        · exact q2
        · lift_lets
          intro q
          have q3 : ch.sent <+: q.chan.sent := q2.trans (p2 _ r'.2)
          clear_value q
          split <;> exact q3
      · exact q2

theorem slsi_join_network_entry_chan_ite (s : List CStr) (c : Prop) [Decidable c]
    (x y : (slsi_status × Channel) ⊕ (CStr × Channel))
    (hx : s <+: (slsi_join_network_entry_chan x).sent)
    (hy : s <+: (slsi_join_network_entry_chan y).sent) :
    s <+: (slsi_join_network_entry_chan (if c then x else y)).sent := by
  split <;> assumption

theorem slsi_join_network_entry_extends (k : Config) (ssid : List Char) (ssid_len : Nat)
    (bssid : Option CStr) (ch : Channel) :
    (slsi_get_network k ssid ssid_len ch).2.2.sent
      <+: (slsi_join_network_entry_chan (slsi_join_network_entry k ssid ssid_len bssid ch)).sent := by
  have p2 := fun cmd ch => (slsi_send_request_extends k cmd ch).1
  have p3 := fun cmd ch => (slsi_send_command_str_extends k cmd ch).1
  unfold slsi_join_network_entry
  lift_lets
  intro g result r ssid_formatted
  have q0 : (slsi_get_network k ssid ssid_len ch).2.2.sent <+: g.2.2.sent := List.prefix_refl _
  have q1 : (slsi_get_network k ssid ssid_len ch).2.2.sent <+: r.chan.sent := q0.trans (p2 _ _)
  clear_value r result ssid_formatted g
  generalize (slsi_get_network k ssid ssid_len ch).2.2.sent = s0 at q0 q1 ⊢
  split
  · exact q0
  · apply slsi_join_network_entry_chan_ite
    · split
      · exact q1
      · lift_lets
        intro network_id r1 result1 r2 result2
        have q2 : s0 <+: r1.chan.sent := q1.trans (p2 _ _)
        have q3 : s0 <+: r2.chan.sent := q2.trans (p2 _ _)
        clear_value network_id r1 result1 r2 result2
        apply slsi_join_network_entry_chan_ite
        · exact q2
        · apply slsi_join_network_entry_chan_ite
          · exact q3
          · split
            · lift_lets
              intro r3 result3
              have q4 : s0 <+: r3.2.sent := q3.trans (p3 _ _)
              clear_value r3 result3
              apply slsi_join_network_entry_chan_ite <;> exact q4
            · exact q3
    · exact q0

theorem prefix_driver_ite {α : Type} (s : List CStr) (c : Prop) [Decidable c] (x y : α × Driver)
    (hx : s <+: x.2.chan.sent) (hy : s <+: y.2.chan.sent) :
    s <+: (if c then x else y).2.chan.sent := by
  split <;> assumption

theorem slsi_join_network_extends (k : Config) (ssid : List Char) (ssid_len : Nat)
    (bssid : Option CStr) (sec_config : Option slsi_security_config_t) (d : Driver) :
    (slsi_get_network k ssid ssid_len d.chan).2.2.sent
      <+: (slsi_join_network k ssid ssid_len bssid sec_config d).2.chan.sent := by
  have p1 := fun a b c e ch => (slsi_send_command_str_upto_4_extends k a b c e ch).1
  have he := slsi_join_network_entry_extends k ssid ssid_len bssid d.chan
  unfold slsi_join_network
  generalize (slsi_get_network k ssid ssid_len d.chan).2.2.sent = s0 at he ⊢
  generalize slsi_join_network_entry k ssid ssid_len bssid d.chan = e at he ⊢
  cases e with
  | inl e => exact he
  | inr e =>
    obtain ⟨network_id, ch⟩ := e
    change s0 <+: ch.sent at he
    dsimp -zeta only
    lift_lets
    intro s r result
    have q1 : s0 <+: s.2.sent := he.trans (slsi_set_security_extends k _ _ _ _)
    have q2 : s0 <+: (slsi_set_scan_interval k k.SLSI_SCAN_INTERVAL_CONNECT s.2).sent :=
      q1.trans (slsi_set_scan_interval_extends k _ _)
    have q3 : s0 <+: r.2.sent := q2.trans (p1 _ _ _ _ _)
    clear_value s r result
    apply prefix_driver_ite
    · exact q1.trans (p1 _ _ _ _ _)
    · apply prefix_driver_ite <;> exact q3

/-- On an open control connection, with at least one attempt allowed, `slsi_join_network`
hands at least one command to the supplicant. -/
theorem slsi_join_network_grows (k : Config) (ssid : List Char) (ssid_len : Nat)
    (bssid : Option CStr) (sec_config : Option slsi_security_config_t) (d : Driver)
    (hc : d.chan.g_ctrl_conn = true) (hn : 0 < k.REQUEST_RETRY_COUNT) :
    d.chan.sent.length < (slsi_join_network k ssid ssid_len bssid sec_config d).2.chan.sent.length := by
  have h1 := slsi_join_network_extends k ssid ssid_len bssid sec_config d
  rw [slsi_get_network_chan] at h1
  have h2 := slsi_send_request_grows k
    (snprintf k.WPA_COMMAND_MAX_SIZE k.WPA_COMMAND_LIST_NETWORKS) d.chan hc hn
  exact lt_of_lt_of_le h2 h1.length_le

/-! ## Join: theorems -/

/-- With no recovery under way, `ENTER_CRITICAL` takes the mutex and goes on at once. -/
theorem ENTER_CRITICAL_idle (k : Config) (d : Driver)
    (hs : d.g_state ≠ SLSI_WIFIAPI_STATE_RECOVERING) (hr : d.g_recovering = false) :
    ENTER_CRITICAL k d
      = some { d with g_mutex_initialized := true,
                      sync_log := d.sync_log ++ [sync_op.lock] } := by
  unfold ENTER_CRITICAL
  cases hm : d.g_mutex_initialized <;> simp [hm, hs, hr]

/-- C5: called while the state is StaConnected (no recovery under way), `WiFiNetworkJoin`
returns AlreadyConnected for every argument tuple; the control channel, and with it the list
of commands sent, is untouched and the state is still StaConnected: only the mutex is taken
and released. -/
theorem WiFiNetworkJoin_already_connected (k : Config) (ssid : List Char) (ssid_len : Nat)
    (bssid : Option CStr) (security_config : Option slsi_security_config_t) (d : Driver)
    (hs : d.g_state = SLSI_WIFIAPI_STATE_STA_CONNECTED) (hr : d.g_recovering = false) :
    WiFiNetworkJoin k ssid ssid_len bssid security_config d
      = some (SLSI_STATUS_ALREADY_CONNECTED,
          { d with g_mutex_initialized := true,
                   sync_log := d.sync_log ++ [sync_op.lock, sync_op.unlock] }) := by
  unfold WiFiNetworkJoin
  rw [ENTER_CRITICAL_idle k d (by rw [hs]; decide) hr]
  simp [hs, LEAVE_CRITICAL]

theorem WiFiNetworkJoin_security_ok_iff (security_config : Option slsi_security_config_t) :
    WiFiNetworkJoin_security_ok security_config = false
      ↔ ∃ c, security_config = some c ∧ (c.secmode = 0 ∨ c.passphrase = []) := by
  cases security_config with
  | none => simp [WiFiNetworkJoin_security_ok]
  | some c =>
    simp only [WiFiNetworkJoin_security_ok, Option.some.injEq, exists_eq_left']
    by_cases h1 : c.secmode = 0 <;> by_cases h2 : c.passphrase = [] <;> simp [h1, h2]

/-- From SupplicantRunning, `WiFiNetworkJoin` with the security test passed goes into
`slsi_join_network`. -/
theorem WiFiNetworkJoin_running (k : Config) (ssid : List Char) (ssid_len : Nat)
    (bssid : Option CStr) (security_config : Option slsi_security_config_t) (d : Driver)
    (hs : d.g_state = SLSI_WIFIAPI_STATE_SUPPLICANT_RUNNING) (hr : d.g_recovering = false) :
    ∃ d1 : Driver, d1.chan = d.chan ∧
      WiFiNetworkJoin k ssid ssid_len bssid security_config d
        = some (if WiFiNetworkJoin_security_ok security_config then
            ((slsi_join_network k ssid ssid_len bssid security_config d1).1,
              LEAVE_CRITICAL (slsi_join_network k ssid ssid_len bssid security_config d1).2)
          else (SLSI_STATUS_NOT_STARTED,
            { d with g_mutex_initialized := true,
                     sync_log := d.sync_log ++ [sync_op.lock, sync_op.unlock] })) := by
  unfold WiFiNetworkJoin
  rw [ENTER_CRITICAL_idle k d (by rw [hs]; decide) hr]
  cases hok : WiFiNetworkJoin_security_ok security_config
  · refine ⟨d, rfl, ?_⟩
    simp [hs, LEAVE_CRITICAL]
  · dsimp -zeta only
    lift_lets
    intro d1
    refine ⟨d1, ?_, ?_⟩
    · simp only [d1]
      split <;> rfl
    · simp [hs]

theorem LEAVE_CRITICAL_chan (d : Driver) : (LEAVE_CRITICAL d).chan = d.chan := by
  unfold LEAVE_CRITICAL
  split <;> rfl

/-- C6 (amended): from SupplicantRunning, with the control connection open, `WiFiNetworkJoin`
returns; it is rejected before any command is sent (a result other than Success, the state
still SupplicantRunning, the list of sent commands as before) exactly when a security
configuration is supplied whose security mode is 0 or whose passphrase is empty, and the
result is then NotStarted. -/
theorem WiFiNetworkJoin_rejected_iff (k : Config) (ssid : List Char) (ssid_len : Nat)
    (bssid : Option CStr) (security_config : Option slsi_security_config_t) (d : Driver)
    (hs : d.g_state = SLSI_WIFIAPI_STATE_SUPPLICANT_RUNNING) (hr : d.g_recovering = false)
    (hc : d.chan.g_ctrl_conn = true) (hn : 0 < k.REQUEST_RETRY_COUNT) :
    (∃ r, WiFiNetworkJoin k ssid ssid_len bssid security_config d = some r
        ∧ ((r.1 ≠ SLSI_STATUS_SUCCESS ∧ r.2.g_state = SLSI_WIFIAPI_STATE_SUPPLICANT_RUNNING
              ∧ r.2.chan.sent = d.chan.sent)
            ↔ ∃ c, security_config = some c ∧ (c.secmode = 0 ∨ c.passphrase = [])))
      ∧ ((∃ c, security_config = some c ∧ (c.secmode = 0 ∨ c.passphrase = []))
          → WiFiNetworkJoin k ssid ssid_len bssid security_config d
              = some (SLSI_STATUS_NOT_STARTED,
                  { d with g_mutex_initialized := true,
                           sync_log := d.sync_log ++ [sync_op.lock, sync_op.unlock] })) := by
  obtain ⟨d1, hd1, hj⟩ := WiFiNetworkJoin_running k ssid ssid_len bssid security_config d hs hr
  rw [hj, ← WiFiNetworkJoin_security_ok_iff]
  cases hok : WiFiNetworkJoin_security_ok security_config
  · refine ⟨⟨_, rfl, ?_⟩, fun _ => rfl⟩
    simp [hs]
  · refine ⟨⟨_, rfl, ?_⟩, fun h => absurd h (by simp)⟩
    have hg := slsi_join_network_grows k ssid ssid_len bssid security_config d1
      (by rw [hd1]; exact hc) hn
    rw [hd1] at hg
    simp only [if_true, LEAVE_CRITICAL_chan, Bool.true_eq_false, iff_false, not_and]
    intro _ _ he
    rw [he] at hg
    exact lt_irrefl _ hg

/-! ## Stop, leave and join on concrete drivers -/

/-- C4: a station is connected and the supplicant answers `FAIL` to `DISCONNECT`: `WiFiStop`
returns CommandFailed with the state left at StaDisconnecting; `TERMINATE` is never sent, the
supplicant task is still recorded and only the mutex is destroyed. -/
theorem WiFiStop_disconnect_failed :
    (WiFiStop wpa_config (connected_driver [wpa_reply.text "FAIL\n".toList])).map
        (fun r => (r.1, r.2.g_state, r.2.chan.sent, r.2.g_task, r.2.g_mutex_initialized))
      = some (SLSI_STATUS_COMMAND_FAILED, SLSI_WIFIAPI_STATE_STA_DISCONNECTING,
          ["DISCONNECT".toList], 7, false) := by
  decide

/-- Witness of C5: a join of network `net` on a connected station. -/
theorem WiFiNetworkJoin_already_connected_witness :
    ((connected_driver []).g_state = SLSI_WIFIAPI_STATE_STA_CONNECTED
      ∧ (connected_driver []).g_recovering = false)
    ∧ WiFiNetworkJoin wpa_config "net".toList 3 none none (connected_driver [])
      = some (SLSI_STATUS_ALREADY_CONNECTED,
          { connected_driver [] with
            g_mutex_initialized := true
            sync_log := (connected_driver []).sync_log ++ [sync_op.lock, sync_op.unlock] }) :=
  ⟨⟨rfl, rfl⟩,
    WiFiNetworkJoin_already_connected wpa_config "net".toList 3 none none (connected_driver [])
      rfl rfl⟩

/-- Counterexample of C6: a join whose security configuration has mode 0 and the non-empty
passphrase `secret` is rejected with NotStarted before any command is sent, the state still
SupplicantRunning. -/
theorem WiFiNetworkJoin_open_config_rejected :
    (WiFiNetworkJoin wpa_config "net".toList 3 none
          (some { secmode := 0, passphrase := "secret".toList })
          (running_driver [wpa_reply.text "OK\n".toList])).map
        (fun r => (r.1, r.2.g_state, r.2.chan.sent))
      = some (SLSI_STATUS_NOT_STARTED, SLSI_WIFIAPI_STATE_SUPPLICANT_RUNNING, [])
    ∧ (running_driver [wpa_reply.text "OK\n".toList]).chan.sent = []
    ∧ "secret".toList ≠ [] := by
  decide

/-- Witness of C6: a join with mode `SLSI_SEC_MODE_WPA2_CCMP` and an empty passphrase. -/
theorem WiFiNetworkJoin_rejected_iff_witness :
    ((running_driver []).g_state = SLSI_WIFIAPI_STATE_SUPPLICANT_RUNNING
      ∧ (running_driver []).g_recovering = false
      ∧ (running_driver []).chan.g_ctrl_conn = true
      ∧ 0 < wpa_config.REQUEST_RETRY_COUNT)
    ∧ WiFiNetworkJoin wpa_config "net".toList 3 none
          (some { secmode := 32, passphrase := [] }) (running_driver [])
        = some (SLSI_STATUS_NOT_STARTED,
            { running_driver [] with
              g_mutex_initialized := true
              sync_log := (running_driver []).sync_log ++ [sync_op.lock, sync_op.unlock] }) :=
  ⟨⟨rfl, rfl, rfl, by decide⟩,
    (WiFiNetworkJoin_rejected_iff wpa_config "net".toList 3 none
      (some { secmode := 32, passphrase := [] }) (running_driver []) rfl rfl rfl (by decide)).2
      ⟨_, rfl, Or.inr rfl⟩⟩

/-- C7: a soft AP has one station connected and the supplicant answers `FAIL` to `DISCONNECT`:
`WiFiNetworkLeave` sends `DISCONNECT`, returns CommandFailed and leaves the state at
StaDisconnecting; when the supplicant answers `OK` and no event follows, the caller is never
resumed. -/
theorem WiFiNetworkLeave_ap_connected :
    (WiFiNetworkLeave wpa_config (ap_connected_driver [wpa_reply.text "FAIL\n".toList])).map
        (fun r => (r.1, r.2.g_state, r.2.chan.sent))
      = some (SLSI_STATUS_COMMAND_FAILED, SLSI_WIFIAPI_STATE_STA_DISCONNECTING,
          ["DISCONNECT".toList])
    ∧ WiFiNetworkLeave wpa_config (ap_connected_driver [wpa_reply.text "OK\n".toList]) = none := by
  decide

/-- Counterexample of C9: with `SLSI_STA_JOIN_SCAN_ATTEMPT = 2`, after exactly two
NetworkNotFound lines the state is still StaConnecting, the retry counter is 2 and no reason
has been surfaced. -/
theorem monitor_network_not_found_twice :
    wpa_config.SLSI_STA_JOIN_SCAN_ATTEMPT = 2
    ∧ joining_driver.g_state = SLSI_WIFIAPI_STATE_STA_CONNECTING
    ∧ joining_driver.join_count = 0
    ∧ (monitor_run wpa_config
        ["<3>CTRL-EVENT-NETWORK-NOT-FOUND ".toList, "<3>CTRL-EVENT-NETWORK-NOT-FOUND ".toList]
        joining_driver).g_state = SLSI_WIFIAPI_STATE_STA_CONNECTING
    ∧ (monitor_run wpa_config
        ["<3>CTRL-EVENT-NETWORK-NOT-FOUND ".toList, "<3>CTRL-EVENT-NETWORK-NOT-FOUND ".toList]
        joining_driver).join_count = 2
    ∧ (monitor_run wpa_config
        ["<3>CTRL-EVENT-NETWORK-NOT-FOUND ".toList, "<3>CTRL-EVENT-NETWORK-NOT-FOUND ".toList]
        joining_driver).mq = [] := by
  decide

/-- Witness of C9: two NetworkNotFound lines while joining, then a third. -/
theorem monitor_network_not_found_witness :
    (wpa_config.events_distinct ∧ wpa_config.SLSI_STA_JOIN_SCAN_ATTEMPT < 256
      ∧ 0 < wpa_config.SLSI_REASON_NETWORK_CONFIGURATION_NOT_FOUND
      ∧ wpa_config.SLSI_REASON_NETWORK_CONFIGURATION_NOT_FOUND < 4294967296
      ∧ joining_driver.g_state = SLSI_WIFIAPI_STATE_STA_CONNECTING
      ∧ joining_driver.join_count = 0 ∧ joining_driver.g_recovering = false
      ∧ is_event "<3>CTRL-EVENT-NETWORK-NOT-FOUND ".toList
          wpa_config.WPA_EVENT_NETWORK_NOT_FOUND = true)
    ∧ (monitor_run wpa_config
        (["<3>CTRL-EVENT-NETWORK-NOT-FOUND ".toList, "<3>CTRL-EVENT-NETWORK-NOT-FOUND ".toList]
          ++ ["<3>CTRL-EVENT-NETWORK-NOT-FOUND ".toList])
        joining_driver).g_state = SLSI_WIFIAPI_STATE_SUPPLICANT_RUNNING
    ∧ (monitor_run wpa_config
        (["<3>CTRL-EVENT-NETWORK-NOT-FOUND ".toList, "<3>CTRL-EVENT-NETWORK-NOT-FOUND ".toList]
          ++ ["<3>CTRL-EVENT-NETWORK-NOT-FOUND ".toList])
        joining_driver).mq = [⟨SLSI_CALLBACK_LINK_UP, { reason_code := 45 }⟩] :=
  have h := (monitor_network_not_found wpa_config joining_driver
    ["<3>CTRL-EVENT-NETWORK-NOT-FOUND ".toList, "<3>CTRL-EVENT-NETWORK-NOT-FOUND ".toList]
    "<3>CTRL-EVENT-NETWORK-NOT-FOUND ".toList
    (by decide) (by decide) (by decide) (by decide) rfl rfl rfl (by decide) (by decide)
    (by decide)).2.2 rfl
  ⟨⟨by decide, by decide, by decide, by decide, rfl, rfl, rfl, by decide⟩, h.1, h.2.2⟩

/-! ## The disconnect semaphore -/

theorem slsi_scan_event_handler_sem (k : Config) (str event : CStr) (d : Driver) :
    (slsi_scan_event_handler k str event d).g_state = d.g_state
    ∧ (slsi_scan_event_handler k str event d).sem_disconnect = d.sem_disconnect := by
  unfold slsi_scan_event_handler slsi_send_mqueue
  split
  · split
    · dsimp only
      split <;> split <;> simp_all
    · simp
  · simp

theorem slsi_verify_back_sem (k : Config) (d : Driver) :
    (slsi_verify_back k d).g_state = d.g_state
    ∧ (slsi_verify_back k d).sem_disconnect = d.sem_disconnect := by
  unfold slsi_verify_back slsi_start_scan sem_post
  dsimp only
  split <;> simp [Driver.set_semcount]

theorem slsi_verify_recovered_sem (k : Config) (d : Driver) :
    (slsi_verify_recovered k d).g_state = d.g_state
    ∧ (slsi_verify_recovered k d).sem_disconnect = d.sem_disconnect := by
  obtain ⟨h1, h2⟩ := slsi_verify_back_sem k d
  unfold slsi_verify_recovered slsi_send_mqueue
  split
  · split
    · dsimp only
      split
      · split <;> (try split) <;> (try split) <;> simp [h1, h2]
      · exact ⟨h1, h2⟩
    · simp
  · simp

theorem slsi_monitor_pre_sem (k : Config) (ev : CStr) (d : Driver) :
    (if d.g_scanning then slsi_scan_event_handler k ev k.WPA_EVENT_SCAN_RESULTS d else d).g_state
        = d.g_state
    ∧ (if d.g_scanning then slsi_scan_event_handler k ev k.WPA_EVENT_SCAN_RESULTS d
        else d).sem_disconnect = d.sem_disconnect := by
  split
  · exact slsi_scan_event_handler_sem k ev _ d
  · exact ⟨rfl, rfl⟩

theorem slsi_monitor_post_sem (k : Config) (d : Driver) :
    ((if k.CONFIG_SCSC_WLAN_AUTO_RECOVERY then slsi_verify_recovered k else id) d).g_state
        = d.g_state
    ∧ ((if k.CONFIG_SCSC_WLAN_AUTO_RECOVERY then slsi_verify_recovered k else id) d).sem_disconnect
        = d.sem_disconnect := by
  split
  · exact slsi_verify_recovered_sem k d
  · exact ⟨rfl, rfl⟩

/-- The `STA_DISCONNECTING` case of the monitor switch on a disconnect report. -/
theorem slsi_monitor_switch_disconnecting (k : Config) (ev : CStr) (d : Driver)
    (hs : d.g_state = SLSI_WIFIAPI_STATE_STA_DISCONNECTING)
    (he : slsi_event_received ev k.WPA_EVENT_DISCONNECTED = true) :
    (slsi_monitor_switch k ev d).g_state = SLSI_WIFIAPI_STATE_SUPPLICANT_RUNNING
    ∧ (slsi_monitor_switch k ev d).sem_disconnect = d.sem_disconnect + 1 := by
  unfold slsi_monitor_switch
  rw [hs]
  simp only [he, if_true]
  unfold slsi_send_mqueue sem_post
  dsimp only
  split <;> split <;> (try split) <;> simp [Driver.set_semcount, Driver.semcount]

/-- The `STA_DISCONNECTING` case of the monitor switch on any other event. -/
theorem slsi_monitor_switch_disconnecting_other (k : Config) (ev : CStr) (d : Driver)
    (hs : d.g_state = SLSI_WIFIAPI_STATE_STA_DISCONNECTING)
    (he : slsi_event_received ev k.WPA_EVENT_DISCONNECTED = false) :
    slsi_monitor_switch k ev d = d := by
  unfold slsi_monitor_switch
  rw [hs]
  simp [he]

/-- The `SUPPLICANT_RUNNING` case of the monitor switch on an event other than a connection
report. -/
theorem slsi_monitor_switch_running_other (k : Config) (ev : CStr) (d : Driver)
    (hs : d.g_state = SLSI_WIFIAPI_STATE_SUPPLICANT_RUNNING)
    (he : slsi_event_received ev k.WPA_EVENT_CONNECTED = false) :
    slsi_monitor_switch k ev d = { d with join_count := 0 } := by
  unfold slsi_monitor_switch
  rw [hs]
  simp [he, hs]

/-- Handling of a line that the recovery handler leaves to the dispatch, outside P2P. -/
theorem slsi_monitor_handle_line_dispatch (k : Config) (line ev : CStr) (d : Driver)
    (hev : event_text line = some ev)
    (hh : k.CONFIG_SCSC_WLAN_AUTO_RECOVERY = true →
      slsi_event_received ev k.WPA_EVENT_HANGED = false)
    (hp : d.g_state ≠ SLSI_WIFIAPI_STATE_P2P) :
    slsi_monitor_handle_line k line d =
      (if k.CONFIG_SCSC_WLAN_AUTO_RECOVERY then slsi_verify_recovered k else id)
        (slsi_monitor_switch k ev
          (if d.g_scanning then slsi_scan_event_handler k ev k.WPA_EVENT_SCAN_RESULTS d else d)) := by
  unfold event_text at hev
  unfold slsi_monitor_handle_line
  cases hs : strchr line '>' with
  | none => rw [hs] at hev; exact Option.noConfusion hev
  | some r =>
    rw [hs] at hev
    simp only [Option.some.injEq] at hev
    simp only [hev]
    cases hr : k.CONFIG_SCSC_WLAN_AUTO_RECOVERY
    · simp [hp]
    · simp [slsi_recovery_handler, hh hr, hp]

/-- A line that is not a hang report, handled in `STA_DISCONNECTING`. -/
theorem slsi_monitor_handle_disconnecting (k : Config) (line ev : CStr) (d : Driver)
    (hev : event_text line = some ev)
    (hh : k.CONFIG_SCSC_WLAN_AUTO_RECOVERY = true →
      slsi_event_received ev k.WPA_EVENT_HANGED = false)
    (hs : d.g_state = SLSI_WIFIAPI_STATE_STA_DISCONNECTING) :
    (slsi_event_received ev k.WPA_EVENT_DISCONNECTED = true →
      (slsi_monitor_handle_line k line d).g_state = SLSI_WIFIAPI_STATE_SUPPLICANT_RUNNING
      ∧ (slsi_monitor_handle_line k line d).sem_disconnect = d.sem_disconnect + 1)
    ∧ (slsi_event_received ev k.WPA_EVENT_DISCONNECTED = false →
      (slsi_monitor_handle_line k line d).g_state = SLSI_WIFIAPI_STATE_STA_DISCONNECTING
      ∧ (slsi_monitor_handle_line k line d).sem_disconnect = d.sem_disconnect) := by
  rw [slsi_monitor_handle_line_dispatch k line ev d hev hh (by rw [hs]; decide)]
  obtain ⟨p1, p2⟩ := slsi_monitor_pre_sem k ev d
  constructor
  · intro he
    obtain ⟨q1, q2⟩ := slsi_monitor_switch_disconnecting k ev _ (p1.trans hs) he
    obtain ⟨r1, r2⟩ := slsi_monitor_post_sem k (slsi_monitor_switch k ev
      (if d.g_scanning then slsi_scan_event_handler k ev k.WPA_EVENT_SCAN_RESULTS d else d))
    exact ⟨r1.trans q1, by rw [r2, q2, p2]⟩
  · intro he
    rw [slsi_monitor_switch_disconnecting_other k ev _ (p1.trans hs) he]
    obtain ⟨r1, r2⟩ := slsi_monitor_post_sem k
      (if d.g_scanning then slsi_scan_event_handler k ev k.WPA_EVENT_SCAN_RESULTS d else d)
    exact ⟨r1.trans (p1.trans hs), r2.trans p2⟩

/-- A line without event text is dropped. -/
theorem slsi_monitor_handle_line_none (k : Config) (line : CStr) (d : Driver)
    (hev : event_text line = none) : slsi_monitor_handle_line k line d = d := by
  unfold event_text at hev
  unfold slsi_monitor_handle_line
  cases hs : strchr line '>' with
  | none => rfl
  | some r => rw [hs] at hev; exact Option.noConfusion hev

/-- A hang report handled in a state other than Terminating, with recovery configured. -/
theorem slsi_monitor_handle_hanged (k : Config) (line : CStr) (d : Driver)
    (hc : k.CONFIG_SCSC_WLAN_AUTO_RECOVERY = true)
    (hh : is_event line k.WPA_EVENT_HANGED = true)
    (hs : d.g_state ≠ SLSI_WIFIAPI_STATE_TERMINATING) :
    (slsi_monitor_handle_line k line d).g_state = SLSI_WIFIAPI_STATE_RECOVERING
    ∧ (slsi_monitor_handle_line k line d).sem_disconnect = d.sem_disconnect := by
  obtain ⟨ev, hev, he⟩ := (is_event_iff _ _).1 hh
  unfold event_text at hev
  unfold slsi_monitor_handle_line
  cases hr : strchr line '>' with
  | none => rw [hr] at hev; exact Option.noConfusion hev
  | some r =>
    rw [hr] at hev
    simp only [Option.some.injEq] at hev
    simp only [hev, hc, if_true]
    have h1 : slsi_recovery_handler k ev d
        = (true, { d with
            sync_log := d.sync_log ++ [sync_op.trylock, sync_op.unlock],
            g_recovery_data := { d.g_recovery_data with old_state := d.g_state,
                                                         recovering_state := d.g_state },
            g_state := SLSI_WIFIAPI_STATE_RECOVERING,
            chan := (slsi_terminate_supplicant k d.chan).2 }) := by
      simp [slsi_recovery_handler, he, hs]
    rw [h1]
    dsimp only
    obtain ⟨r1, r2⟩ := slsi_verify_recovered_sem k { d with
            sync_log := d.sync_log ++ [sync_op.trylock, sync_op.unlock],
            g_recovery_data := { d.g_recovery_data with old_state := d.g_state,
                                                         recovering_state := d.g_state },
            g_state := SLSI_WIFIAPI_STATE_RECOVERING,
            chan := (slsi_terminate_supplicant k d.chan).2 }
    simp only [Bool.true_eq_false, if_false]
    exact ⟨r1, r2⟩

/-- Scan-results lines handled in `STA_DISCONNECTING` keep the state and post nothing on the
disconnect semaphore. -/
theorem monitor_run_scan_disconnecting (k : Config) (hk : k.events_distinct) (lines : List CStr)
    (d : Driver) (hs : d.g_state = SLSI_WIFIAPI_STATE_STA_DISCONNECTING)
    (hl : ∀ l ∈ lines, is_event l k.WPA_EVENT_SCAN_RESULTS = true) :
    (monitor_run k lines d).g_state = SLSI_WIFIAPI_STATE_STA_DISCONNECTING
    ∧ (monitor_run k lines d).sem_disconnect = d.sem_disconnect := by
  induction lines generalizing d with
  | nil => exact ⟨hs, rfl⟩
  | cons line rest ih =>
    obtain ⟨ev, hev, he⟩ := (is_event_iff _ _).1 (hl line (List.mem_cons_self _ _))
    have hh := events_excl k hk 0 1 (by decide) (by decide) (by decide) ev he
    have hd := events_excl k hk 0 3 (by decide) (by decide) (by decide) ev he
    obtain ⟨q1, q2⟩ := (slsi_monitor_handle_disconnecting k line ev d hev (fun _ => hh) hs).2 hd
    obtain ⟨r1, r2⟩ := ih (slsi_monitor_handle_line k line d) q1
      (fun l h => hl l (List.mem_cons_of_mem _ h))
    exact ⟨r1, r2.trans q2⟩

/-- Scan-results lines handled in `SUPPLICANT_RUNNING` keep the state and post nothing on the
disconnect semaphore. -/
theorem monitor_run_scan_running (k : Config) (hk : k.events_distinct) (lines : List CStr)
    (d : Driver) (hs : d.g_state = SLSI_WIFIAPI_STATE_SUPPLICANT_RUNNING)
    (hl : ∀ l ∈ lines, is_event l k.WPA_EVENT_SCAN_RESULTS = true) :
    (monitor_run k lines d).g_state = SLSI_WIFIAPI_STATE_SUPPLICANT_RUNNING
    ∧ (monitor_run k lines d).sem_disconnect = d.sem_disconnect := by
  induction lines generalizing d with
  | nil => exact ⟨hs, rfl⟩
  | cons line rest ih =>
    obtain ⟨ev, hev, he⟩ := (is_event_iff _ _).1 (hl line (List.mem_cons_self _ _))
    have hh := events_excl k hk 0 1 (by decide) (by decide) (by decide) ev he
    have hc := events_excl k hk 0 2 (by decide) (by decide) (by decide) ev he
    obtain ⟨p1, p2⟩ := slsi_monitor_pre_sem k ev d
    have hline := slsi_monitor_handle_line_dispatch k line ev d hev (fun _ => hh)
      (by rw [hs]; decide)
    rw [slsi_monitor_switch_running_other k ev _ (p1.trans hs) hc] at hline
    obtain ⟨r1, r2⟩ := slsi_monitor_post_sem k
      { (if d.g_scanning then slsi_scan_event_handler k ev k.WPA_EVENT_SCAN_RESULTS d else d)
        with join_count := 0 }
    have q1 : (slsi_monitor_handle_line k line d).g_state
        = SLSI_WIFIAPI_STATE_SUPPLICANT_RUNNING := by
      rw [hline, r1]; exact p1.trans hs
    have q2 : (slsi_monitor_handle_line k line d).sem_disconnect = d.sem_disconnect := by
      rw [hline, r2]; exact p2
    obtain ⟨s1, s2⟩ := ih (slsi_monitor_handle_line k line d) q1
      (fun l h => hl l (List.mem_cons_of_mem _ h))
    exact ⟨s1, s2.trans q2⟩

/-- C11 (amended): in state StaDisconnecting a Disconnected line posts the disconnect semaphore
once and sets the state to SupplicantRunning; a line that is neither a Disconnected event nor,
with recovery configured, a hang report (a scan-results line, say) posts nothing and leaves the
state StaDisconnecting; a hang report with recovery configured posts nothing and sets the
state to Recovering.  Hence one Disconnected line among scan-results lines posts the semaphore
exactly once in all. -/
theorem monitor_disconnecting (k : Config) (d : Driver) (line : CStr)
    (hk : k.events_distinct)
    (hs : d.g_state = SLSI_WIFIAPI_STATE_STA_DISCONNECTING) :
    (is_event line k.WPA_EVENT_DISCONNECTED = true →
      (slsi_monitor_handle_line k line d).g_state = SLSI_WIFIAPI_STATE_SUPPLICANT_RUNNING
      ∧ (slsi_monitor_handle_line k line d).sem_disconnect = d.sem_disconnect + 1)
    ∧ (is_event line k.WPA_EVENT_DISCONNECTED = false →
      (k.CONFIG_SCSC_WLAN_AUTO_RECOVERY = true → is_event line k.WPA_EVENT_HANGED = false) →
      (slsi_monitor_handle_line k line d).g_state = SLSI_WIFIAPI_STATE_STA_DISCONNECTING
      ∧ (slsi_monitor_handle_line k line d).sem_disconnect = d.sem_disconnect)
    ∧ (is_event line k.WPA_EVENT_HANGED = true → k.CONFIG_SCSC_WLAN_AUTO_RECOVERY = true →
      (slsi_monitor_handle_line k line d).g_state = SLSI_WIFIAPI_STATE_RECOVERING
      ∧ (slsi_monitor_handle_line k line d).sem_disconnect = d.sem_disconnect)
    ∧ (∀ before after : List CStr,
      (∀ l ∈ before, is_event l k.WPA_EVENT_SCAN_RESULTS = true) →
      (∀ l ∈ after, is_event l k.WPA_EVENT_SCAN_RESULTS = true) →
      is_event line k.WPA_EVENT_DISCONNECTED = true →
      (monitor_run k (before ++ line :: after) d).g_state = SLSI_WIFIAPI_STATE_SUPPLICANT_RUNNING
      ∧ (monitor_run k (before ++ line :: after) d).sem_disconnect = d.sem_disconnect + 1) := by
  have hdisc : ∀ d : Driver, d.g_state = SLSI_WIFIAPI_STATE_STA_DISCONNECTING →
      is_event line k.WPA_EVENT_DISCONNECTED = true →
      (slsi_monitor_handle_line k line d).g_state = SLSI_WIFIAPI_STATE_SUPPLICANT_RUNNING
      ∧ (slsi_monitor_handle_line k line d).sem_disconnect = d.sem_disconnect + 1 := by
    intro d hs h
    obtain ⟨ev, hev, he⟩ := (is_event_iff _ _).1 h
    have hh := events_excl k hk 3 1 (by decide) (by decide) (by decide) ev he
    exact (slsi_monitor_handle_disconnecting k line ev d hev (fun _ => hh) hs).1 he
  refine ⟨hdisc d hs, ?_, ?_, ?_⟩
  · intro hnd hnh
    cases hev : event_text line with
    | none =>
      rw [slsi_monitor_handle_line_none k line d hev]
      exact ⟨hs, rfl⟩
    | some ev =>
      have e1 : slsi_event_received ev k.WPA_EVENT_DISCONNECTED = false := by
        simpa [is_event, hev] using hnd
      have e2 : k.CONFIG_SCSC_WLAN_AUTO_RECOVERY = true →
          slsi_event_received ev k.WPA_EVENT_HANGED = false := by
        intro hc
        simpa [is_event, hev] using hnh hc
      exact (slsi_monitor_handle_disconnecting k line ev d hev e2 hs).2 e1
  · intro hh hc
    exact slsi_monitor_handle_hanged k line d hc hh (by rw [hs]; decide)
  · intro pre post hpre hpost h
    obtain ⟨a1, a2⟩ := monitor_run_scan_disconnecting k hk pre d hs hpre
    obtain ⟨b1, b2⟩ := hdisc (monitor_run k pre d) a1 h
    obtain ⟨c1, c2⟩ := monitor_run_scan_running k hk post
      (slsi_monitor_handle_line k line (monitor_run k pre d)) b1 hpost
    have hrun : monitor_run k (pre ++ line :: post) d
        = monitor_run k post (slsi_monitor_handle_line k line (monitor_run k pre d)) := by
      simp [monitor_run, List.foldl_append]
    rw [hrun]
    exact ⟨c1, by rw [c2, b2, a2]⟩

/-- Counterexample of C11: a hang report is not a Disconnected event, and handling it in state
StaDisconnecting sets the state to Recovering. -/
theorem monitor_disconnecting_hanged :
    disconnecting_driver.g_state = SLSI_WIFIAPI_STATE_STA_DISCONNECTING
    ∧ is_event "<3>CTRL-EVENT-HANGED ".toList wpa_config.WPA_EVENT_DISCONNECTED = false
    ∧ (slsi_monitor_handle_line wpa_config "<3>CTRL-EVENT-HANGED ".toList
        disconnecting_driver).g_state = SLSI_WIFIAPI_STATE_RECOVERING := by
  decide

/-- Witness of C11: a Disconnected line between two scan-results lines; and `WiFiNetworkLeave`
on a connected station whose monitor receives these lines returns Success, the semaphore
posted once and taken once, the line after the report still pending. -/
theorem monitor_disconnecting_witness :
    (wpa_config.events_distinct
      ∧ disconnecting_driver.g_state = SLSI_WIFIAPI_STATE_STA_DISCONNECTING)
    ∧ ((monitor_run wpa_config
          (["<3>CTRL-EVENT-SCAN-RESULTS ".toList]
            ++ "<3>CTRL-EVENT-DISCONNECTED bssid=02:00:00:00:01:00 reason=3 locally_generated=1".toList
              :: ["<3>CTRL-EVENT-SCAN-RESULTS ".toList])
          disconnecting_driver).g_state = SLSI_WIFIAPI_STATE_SUPPLICANT_RUNNING
        ∧ (monitor_run wpa_config
          (["<3>CTRL-EVENT-SCAN-RESULTS ".toList]
            ++ "<3>CTRL-EVENT-DISCONNECTED bssid=02:00:00:00:01:00 reason=3 locally_generated=1".toList
              :: ["<3>CTRL-EVENT-SCAN-RESULTS ".toList])
          disconnecting_driver).sem_disconnect = disconnecting_driver.sem_disconnect + 1)
    ∧ (WiFiNetworkLeave wpa_config
          { connected_driver [wpa_reply.text "OK\n".toList] with
            events := ["<3>CTRL-EVENT-SCAN-RESULTS ".toList,
              "<3>CTRL-EVENT-DISCONNECTED bssid=02:00:00:00:01:00 reason=3 locally_generated=1".toList,
              "<3>CTRL-EVENT-SCAN-RESULTS ".toList] }).map
        (fun r => (r.1, r.2.g_state, r.2.sem_disconnect, r.2.events))
      = some (SLSI_STATUS_SUCCESS, SLSI_WIFIAPI_STATE_SUPPLICANT_RUNNING, 0,
          ["<3>CTRL-EVENT-SCAN-RESULTS ".toList]) :=
  ⟨⟨by decide, rfl⟩,
    (monitor_disconnecting wpa_config disconnecting_driver
      "<3>CTRL-EVENT-DISCONNECTED bssid=02:00:00:00:01:00 reason=3 locally_generated=1".toList
      (by decide) rfl).2.2.2 ["<3>CTRL-EVENT-SCAN-RESULTS ".toList]
      ["<3>CTRL-EVENT-SCAN-RESULTS ".toList] (by decide) (by decide) (by decide),
    by decide⟩

/-! ## Recovery: theorems -/

/-- C12: on a line that starts with the hang-report name, in a state other than Terminating,
`slsi_recovery_handler` reports the event handled, stores the state in `old_state` and
`recovering_state` of the snapshot (its other fields as they were) and sets the state to
Recovering; in state Terminating, or on a line that does not start with that name, it reports
not handled and returns the driver as it was. -/
theorem slsi_recovery_handler_hanged (k : Config) (str : CStr) (d : Driver) :
    (str_starts str k.WPA_EVENT_HANGED = true ∧ d.g_state ≠ SLSI_WIFIAPI_STATE_TERMINATING →
      (slsi_recovery_handler k str d).1 = true
      ∧ (slsi_recovery_handler k str d).2.g_recovery_data
          = { d.g_recovery_data with old_state := d.g_state, recovering_state := d.g_state }
      ∧ (slsi_recovery_handler k str d).2.g_state = SLSI_WIFIAPI_STATE_RECOVERING)
    ∧ (¬ (str_starts str k.WPA_EVENT_HANGED = true
          ∧ d.g_state ≠ SLSI_WIFIAPI_STATE_TERMINATING) →
      slsi_recovery_handler k str d = (false, d)) := by
  unfold slsi_recovery_handler
  rw [slsi_event_received_eq]
  constructor
  · rintro ⟨h1, h2⟩
    simp [h1, h2]
  · intro h
    by_cases h1 : str_starts str k.WPA_EVENT_HANGED = true
    · have h2 : d.g_state = SLSI_WIFIAPI_STATE_TERMINATING := by
        by_contra hc; exact h ⟨h1, hc⟩
      simp [h2]
    · simp [h1]

/-- Witness of C12: a hang report on a connected station, and the same report in state
Terminating. -/
theorem slsi_recovery_handler_hanged_witness :
    ((str_starts "CTRL-EVENT-HANGED ".toList wpa_config.WPA_EVENT_HANGED = true
        ∧ (connected_driver []).g_state ≠ SLSI_WIFIAPI_STATE_TERMINATING)
      ∧ (slsi_recovery_handler wpa_config "CTRL-EVENT-HANGED ".toList (connected_driver [])).1
          = true
      ∧ (slsi_recovery_handler wpa_config "CTRL-EVENT-HANGED ".toList
          (connected_driver [])).2.g_recovery_data
          = { old_state := SLSI_WIFIAPI_STATE_STA_CONNECTED,
              recovering_state := SLSI_WIFIAPI_STATE_STA_CONNECTED }
      ∧ (slsi_recovery_handler wpa_config "CTRL-EVENT-HANGED ".toList
          (connected_driver [])).2.g_state = SLSI_WIFIAPI_STATE_RECOVERING)
    ∧ slsi_recovery_handler wpa_config "CTRL-EVENT-HANGED ".toList
          { g_state := SLSI_WIFIAPI_STATE_TERMINATING }
        = (false, { g_state := SLSI_WIFIAPI_STATE_TERMINATING }) :=
  ⟨⟨⟨by decide, by decide⟩,
      (slsi_recovery_handler_hanged wpa_config "CTRL-EVENT-HANGED ".toList
        (connected_driver [])).1 ⟨by decide, by decide⟩⟩,
    (slsi_recovery_handler_hanged wpa_config "CTRL-EVENT-HANGED ".toList
      { g_state := SLSI_WIFIAPI_STATE_TERMINATING }).2 (by decide)⟩

theorem slsi_verify_back_frame (k : Config) (d : Driver) :
    (slsi_verify_back k d).g_state = d.g_state
    ∧ (slsi_verify_back k d).g_recovering = false
    ∧ (slsi_verify_back k d).sem_api_block = d.sem_api_block + 1
    ∧ (slsi_verify_back k d).g_link_up = d.g_recovery_data.link_up
    ∧ (slsi_verify_back k d).g_link_down = d.g_recovery_data.link_down
    ∧ (slsi_verify_back k d).g_recovery_data = d.g_recovery_data
    ∧ (slsi_verify_back k d).mq = d.mq
    ∧ (slsi_verify_back k d).g_send_cbmqfd = d.g_send_cbmqfd := by
  unfold slsi_verify_back slsi_start_scan sem_post
  dsimp only
  split <;> simp [Driver.set_semcount, Driver.semcount]

/-- C13: with the recovering flag set and the live state equal to `recovering_state`,
`slsi_verify_recovered` clears the flag, posts the API-gate semaphore once, restores the link
callbacks from the snapshot and queues a message only when `recovering_state` differs from
`old_state`: link-down for `old_state` StaDisconnecting or ApConnected when the link-down
callback is registered, link-up for `old_state` StaConnecting when the link-up callback is
registered (the sender queue being open); with `recovering_state = old_state` nothing is
queued.  With the flag clear or the live state different it returns the driver as it was. -/
theorem slsi_verify_recovered_back (k : Config) (d : Driver) :
    (d.g_recovering = true ∧ d.g_recovery_data.recovering_state = d.g_state →
      (slsi_verify_recovered k d).g_recovering = false
      ∧ (slsi_verify_recovered k d).sem_api_block = d.sem_api_block + 1
      ∧ (slsi_verify_recovered k d).g_link_up = d.g_recovery_data.link_up
      ∧ (slsi_verify_recovered k d).g_link_down = d.g_recovery_data.link_down
      ∧ (slsi_verify_recovered k d).g_state = d.g_state
      ∧ (slsi_verify_recovered k d).mq =
          (if d.g_recovery_data.recovering_state ≠ d.g_recovery_data.old_state
              ∧ (d.g_recovery_data.old_state = SLSI_WIFIAPI_STATE_STA_DISCONNECTING
                ∨ d.g_recovery_data.old_state = SLSI_WIFIAPI_STATE_AP_CONNECTED)
              ∧ d.g_recovery_data.link_down.isSome = true ∧ d.g_send_cbmqfd = true then
            d.mq ++ [⟨SLSI_CALLBACK_LINK_DOWN, {}⟩]
          else if d.g_recovery_data.recovering_state ≠ d.g_recovery_data.old_state
              ∧ d.g_recovery_data.old_state = SLSI_WIFIAPI_STATE_STA_CONNECTING
              ∧ d.g_recovery_data.link_up.isSome = true ∧ d.g_send_cbmqfd = true then
            d.mq ++ [⟨SLSI_CALLBACK_LINK_UP, {}⟩]
          else d.mq)
      ∧ (d.g_recovery_data.recovering_state = d.g_recovery_data.old_state →
          (slsi_verify_recovered k d).mq = d.mq))
    ∧ (¬ (d.g_recovering = true ∧ d.g_recovery_data.recovering_state = d.g_state) →
      slsi_verify_recovered k d = d) := by
  obtain ⟨b1, b2, b3, b4, b5, b6, b7, b8⟩ := slsi_verify_back_frame k d
  constructor
  · rintro ⟨h1, h2⟩
    have hv : slsi_verify_recovered k d
        = (if (slsi_verify_back k d).g_recovery_data.recovering_state
              ≠ (slsi_verify_back k d).g_recovery_data.old_state then
            match (slsi_verify_back k d).g_recovery_data.old_state with
            | SLSI_WIFIAPI_STATE_STA_DISCONNECTING =>
              if (slsi_verify_back k d).g_link_down.isSome then
                (slsi_send_mqueue SLSI_CALLBACK_LINK_DOWN (some {}) (slsi_verify_back k d)).2
              else slsi_verify_back k d
            | SLSI_WIFIAPI_STATE_STA_CONNECTING =>
              if (slsi_verify_back k d).g_link_up.isSome then
                (slsi_send_mqueue SLSI_CALLBACK_LINK_UP (some {}) (slsi_verify_back k d)).2
              else slsi_verify_back k d
            | SLSI_WIFIAPI_STATE_AP_CONNECTED =>
              if (slsi_verify_back k d).g_link_down.isSome then
                (slsi_send_mqueue SLSI_CALLBACK_LINK_DOWN (some {}) (slsi_verify_back k d)).2
              else slsi_verify_back k d
            | _ => slsi_verify_back k d
          else slsi_verify_back k d) := by
      unfold slsi_verify_recovered
      simp only [h1, h2, if_true]
    rw [hv, b6, b4, b5]
    generalize slsi_verify_back k d = v at b1 b2 b3 b4 b5 b6 b7 b8
    unfold slsi_send_mqueue
    rw [b8]
    by_cases hne : d.g_recovery_data.recovering_state = d.g_recovery_data.old_state
    · simp [hne, b1, b2, b3, b4, b5, b7]
    · simp only [ne_eq, hne, not_false_eq_true, if_true, true_and]
      cases hos : d.g_recovery_data.old_state <;>
        cases hu : d.g_recovery_data.link_up.isSome <;>
        cases hd : d.g_recovery_data.link_down.isSome <;>
        cases hq : d.g_send_cbmqfd <;>
        simp [b1, b2, b3, b4, b5, b7, hos] at hne ⊢
  · intro h
    unfold slsi_verify_recovered
    by_cases h1 : d.g_recovering = true
    · have h2 : ¬ d.g_recovery_data.recovering_state = d.g_state := fun hc => h ⟨h1, hc⟩
      simp [h1, h2]
    · simp [h1]
/-- Witness of C13: the recovery of a station that hung while connecting queues one link-up
message; the recovery of a station that hung while connected queues nothing. -/
theorem slsi_verify_recovered_back_witness :
    ((recovered_driver SLSI_WIFIAPI_STATE_STA_CONNECTING).g_recovering = true
      ∧ (recovered_driver SLSI_WIFIAPI_STATE_STA_CONNECTING).g_recovery_data.recovering_state
          = (recovered_driver SLSI_WIFIAPI_STATE_STA_CONNECTING).g_state)
    ∧ ((slsi_verify_recovered wpa_config
          (recovered_driver SLSI_WIFIAPI_STATE_STA_CONNECTING)).g_recovering = false
      ∧ (slsi_verify_recovered wpa_config
          (recovered_driver SLSI_WIFIAPI_STATE_STA_CONNECTING)).sem_api_block = 0 + 1
      ∧ (slsi_verify_recovered wpa_config
          (recovered_driver SLSI_WIFIAPI_STATE_STA_CONNECTING)).g_link_up = some 1
      ∧ (slsi_verify_recovered wpa_config
          (recovered_driver SLSI_WIFIAPI_STATE_STA_CONNECTING)).mq
          = [⟨SLSI_CALLBACK_LINK_UP, {}⟩])
    ∧ (slsi_verify_recovered wpa_config
          (recovered_driver SLSI_WIFIAPI_STATE_STA_CONNECTED)).mq = [] :=
  have h := (slsi_verify_recovered_back wpa_config
    (recovered_driver SLSI_WIFIAPI_STATE_STA_CONNECTING)).1 ⟨rfl, rfl⟩
  ⟨⟨rfl, rfl⟩, ⟨h.1, h.2.1, h.2.2.1, h.2.2.2.2.2.1⟩,
    ((slsi_verify_recovered_back wpa_config
      (recovered_driver SLSI_WIFIAPI_STATE_STA_CONNECTED)).1 ⟨rfl, rfl⟩).2.2.2.2.2.2 rfl⟩

/-! ## Requests to the supplicant -/

/-- The three reply prefixes exclude one another, so the order of the tests in
`slsi_classify_reply` does not matter. -/
theorem slsi_classify_reply_iff (buf : CStr) :
    (slsi_classify_reply buf = SLSI_STATUS_SUCCESS ↔ str_starts buf "OK".toList = true)
    ∧ (slsi_classify_reply buf = SLSI_STATUS_COMMAND_FAILED
        ↔ str_starts buf "FAIL".toList = true)
    ∧ (slsi_classify_reply buf = SLSI_STATUS_COMMAND_UNKNOWN
        ↔ str_starts buf "UNKNOWN COMMAND".toList = true)
    ∧ (slsi_classify_reply buf = SLSI_STATUS_ERROR
        ↔ (str_starts buf "OK".toList = false ∧ str_starts buf "FAIL".toList = false
            ∧ str_starts buf "UNKNOWN COMMAND".toList = false)) := by
  have e1 : str_starts buf "OK".toList = true → str_starts buf "FAIL".toList = false :=
    str_starts_excl _ _ buf (by decide) (by decide)
  have e2 : str_starts buf "OK".toList = true →
      str_starts buf "UNKNOWN COMMAND".toList = false :=
    str_starts_excl _ _ buf (by decide) (by decide)
  have e3 : str_starts buf "FAIL".toList = true →
      str_starts buf "UNKNOWN COMMAND".toList = false :=
    str_starts_excl _ _ buf (by decide) (by decide)
  unfold slsi_classify_reply
  cases h1 : str_starts buf "OK".toList <;> cases h2 : str_starts buf "FAIL".toList <;>
    cases h3 : str_starts buf "UNKNOWN COMMAND".toList <;> simp_all

/-- Whenever the retry loop of `slsi_send_request` stores a status, it is the classification
of the returned buffer. -/
theorem slsi_send_request_loop_status (k : Config) (cmd : CStr) (n : Nat)
    (r : Option slsi_status) (ch : Channel) (h0 : n = 0 → r = some SLSI_STATUS_ERROR) :
    ∃ buf, (slsi_send_request_loop k cmd n r ch).buf = some buf
      ∧ (slsi_send_request_loop k cmd n r ch).result = some (slsi_classify_reply buf) := by
  induction n generalizing r ch with
  | zero =>
    refine ⟨[], rfl, ?_⟩
    rw [slsi_send_request_loop, h0 rfl]
    rfl
  | succ n ih =>
    unfold slsi_send_request_loop
    split
    · exact ⟨_, rfl, rfl⟩
    · by_cases hn : n = 0
      · subst hn
        exact ⟨[], rfl, rfl⟩
      · exact ih _ _ (fun h => absurd h hn)
    · by_cases hn : n = 0
      · subst hn
        exact ⟨[], rfl, rfl⟩
      · exact ih _ _ (fun h => absurd h hn)

/-- C14: on an open control connection, with at least one attempt allowed, `slsi_send_request`
returns a buffer and a status, and the status is Success exactly when the buffer starts with
`OK`, CommandFailed exactly when it starts with `FAIL`, CommandUnknown exactly when it starts
with `UNKNOWN COMMAND`, and Error exactly when it starts with none of them. -/
theorem slsi_send_request_status (k : Config) (cmd : CStr) (ch : Channel)
    (hc : ch.g_ctrl_conn = true) (hn : 0 < k.REQUEST_RETRY_COUNT) :
    ∃ buf st, (slsi_send_request k cmd ch).buf = some buf
      ∧ (slsi_send_request k cmd ch).result = some st
      ∧ (st = SLSI_STATUS_SUCCESS ↔ str_starts buf "OK".toList = true)
      ∧ (st = SLSI_STATUS_COMMAND_FAILED ↔ str_starts buf "FAIL".toList = true)
      ∧ (st = SLSI_STATUS_COMMAND_UNKNOWN ↔ str_starts buf "UNKNOWN COMMAND".toList = true)
      ∧ (st = SLSI_STATUS_ERROR
          ↔ (str_starts buf "OK".toList = false ∧ str_starts buf "FAIL".toList = false
              ∧ str_starts buf "UNKNOWN COMMAND".toList = false)) := by
  unfold slsi_send_request
  simp only [hc, Bool.not_true, Bool.false_eq_true, if_false]
  obtain ⟨buf, hb, hr⟩ := slsi_send_request_loop_status k cmd k.REQUEST_RETRY_COUNT none ch
    (fun h => absurd h (by omega))
  exact ⟨buf, slsi_classify_reply buf, hb, hr, slsi_classify_reply_iff buf⟩

/-- Witness of C14: the replies `OK`, `FAIL`, `UNKNOWN COMMAND` and `PONG` to a command. -/
theorem slsi_send_request_status_witness :
    (({ g_ctrl_conn := true, replies := [wpa_reply.text "PONG\n".toList] } : Channel).g_ctrl_conn
        = true ∧ 0 < wpa_config.REQUEST_RETRY_COUNT)
    ∧ (∃ buf st,
        (slsi_send_request wpa_config "PING".toList
          { g_ctrl_conn := true, replies := [wpa_reply.text "PONG\n".toList] }).buf = some buf
        ∧ (slsi_send_request wpa_config "PING".toList
          { g_ctrl_conn := true, replies := [wpa_reply.text "PONG\n".toList] }).result = some st
        ∧ (st = SLSI_STATUS_SUCCESS ↔ str_starts buf "OK".toList = true)
        ∧ (st = SLSI_STATUS_COMMAND_FAILED ↔ str_starts buf "FAIL".toList = true)
        ∧ (st = SLSI_STATUS_COMMAND_UNKNOWN ↔ str_starts buf "UNKNOWN COMMAND".toList = true)
        ∧ (st = SLSI_STATUS_ERROR
            ↔ (str_starts buf "OK".toList = false ∧ str_starts buf "FAIL".toList = false
                ∧ str_starts buf "UNKNOWN COMMAND".toList = false)))
    ∧ ((fun t => (slsi_send_request wpa_config "PING".toList
          { g_ctrl_conn := true, replies := [wpa_reply.text t] }).result) <$>
        ["OK\n".toList, "FAIL\n".toList, "UNKNOWN COMMAND\n".toList, "PONG\n".toList])
      = [some SLSI_STATUS_SUCCESS, some SLSI_STATUS_COMMAND_FAILED,
          some SLSI_STATUS_COMMAND_UNKNOWN, some SLSI_STATUS_ERROR] :=
  ⟨⟨rfl, by decide⟩,
    slsi_send_request_status wpa_config "PING".toList
      { g_ctrl_conn := true, replies := [wpa_reply.text "PONG\n".toList] } rfl (by decide),
    by decide⟩
/-- The retry loop when the first reply comes after `pre.length` attempts without one. -/
theorem slsi_send_request_loop_reply (k : Config) (cmd : CStr) (pre : List wpa_reply)
    (t : CStr) (rest : List wpa_reply) (n : Nat) (r : Option slsi_status) (ch : Channel)
    (hrep : ch.replies = pre ++ wpa_reply.text t :: rest)
    (hpre : ∀ o ∈ pre, o = wpa_reply.timeout ∨ o = wpa_reply.failed) (hlen : pre.length < n) :
    slsi_send_request_loop k cmd n r ch
      = ⟨some (t.take (k.WPA_BUFFER_SIZE - 1)),
          some (slsi_classify_reply (t.take (k.WPA_BUFFER_SIZE - 1))),
          { ch with sent := ch.sent ++ List.replicate (pre.length + 1) cmd, replies := rest }⟩ := by
  induction pre generalizing n r ch with
  | nil =>
    obtain ⟨m, rfl⟩ : ∃ m, n = m + 1 := ⟨n - 1, by simp at hlen; omega⟩
    unfold slsi_send_request_loop
    simp [hrep]
  | cons o pre ih =>
    obtain ⟨m, rfl⟩ : ∃ m, n = m + 1 := ⟨n - 1, by simp at hlen; omega⟩
    have ho := hpre o (List.mem_cons_self _ _)
    have hrec := ih m (some SLSI_STATUS_ERROR)
      { ch with sent := ch.sent ++ [cmd], replies := ch.replies.tail }
      (by simp [hrep]) (fun o h => hpre o (List.mem_cons_of_mem _ h))
      (by simp at hlen; omega)
    unfold slsi_send_request_loop
    cases o with
    | text b => simp at ho
    | timeout =>
      simp only [hrep, List.cons_append, List.head?_cons]
      simp only [hrep, List.cons_append] at hrec
      rw [hrec]
      simp [List.replicate_succ]
    | failed =>
      simp only [hrep, List.cons_append, List.head?_cons]
      simp only [hrep, List.cons_append] at hrec
      rw [hrec]
      simp [List.replicate_succ]

/-- The retry loop when none of its `n` attempts gets a reply. -/
theorem slsi_send_request_loop_silent (k : Config) (cmd : CStr) (n : Nat)
    (r : Option slsi_status) (ch : Channel)
    (hrep : ∀ o ∈ ch.replies.take n, o = wpa_reply.timeout ∨ o = wpa_reply.failed) :
    slsi_send_request_loop k cmd n r ch
      = ⟨some [], if n = 0 then r else some SLSI_STATUS_ERROR,
          { ch with sent := ch.sent ++ List.replicate n cmd, replies := ch.replies.drop n }⟩ := by
  induction n generalizing r ch with
  | zero => simp [slsi_send_request_loop]
  | succ n ih =>
    have hrec := ih (some SLSI_STATUS_ERROR)
      { ch with sent := ch.sent ++ [cmd], replies := ch.replies.tail }
      (by
        intro o ho
        apply hrep o
        cases hl : ch.replies with
        | nil => simp [hl] at ho
        | cons a l => simp only [hl, List.tail_cons] at ho; simp [List.take_succ_cons, ho])
    have hres : (if n = 0 then some SLSI_STATUS_ERROR else some SLSI_STATUS_ERROR)
        = some SLSI_STATUS_ERROR := by split <;> rfl
    rw [hres] at hrec
    unfold slsi_send_request_loop
    cases hl : ch.replies with
    | nil =>
      simp only [hl, List.head?_nil]
      simp only [hl] at hrec
      rw [hrec]
      simp [List.replicate_succ]
    | cons o l =>
      cases o with
      | text b =>
        have := hrep (wpa_reply.text b) (by simp [hl, List.take_succ_cons])
        simp at this
      | timeout =>
        simp only [hl, List.head?_cons]
        simp only [hl] at hrec
        rw [hrec]
        simp [List.replicate_succ]
      | failed =>
        simp only [hl, List.head?_cons]
        simp only [hl] at hrec
        rw [hrec]
        simp [List.replicate_succ]
/-- C15: on an open control connection `slsi_send_request` hands the command to the supplicant
once per attempt up to and including the first attempt that gets a reply, whatever the reply
is (so `FAIL` and `UNKNOWN COMMAND` are not sent again), and the status is the classification
of that reply; when none of the `REQUEST_RETRY_COUNT` attempts gets a reply the command has
been handed over `REQUEST_RETRY_COUNT` times and the status is Error. -/
theorem slsi_send_request_attempts (k : Config) (cmd : CStr) (ch : Channel)
    (hc : ch.g_ctrl_conn = true) (hn : 0 < k.REQUEST_RETRY_COUNT) :
    (∀ (pre : List wpa_reply) (t : CStr) (rest : List wpa_reply),
      ch.replies = pre ++ wpa_reply.text t :: rest →
      (∀ o ∈ pre, o = wpa_reply.timeout ∨ o = wpa_reply.failed) →
      pre.length < k.REQUEST_RETRY_COUNT →
      slsi_send_request k cmd ch
        = ⟨some (t.take (k.WPA_BUFFER_SIZE - 1)),
            some (slsi_classify_reply (t.take (k.WPA_BUFFER_SIZE - 1))),
            { ch with sent := ch.sent ++ List.replicate (pre.length + 1) cmd,
                      replies := rest }⟩)
    ∧ ((∀ o ∈ ch.replies.take k.REQUEST_RETRY_COUNT,
        o = wpa_reply.timeout ∨ o = wpa_reply.failed) →
      slsi_send_request k cmd ch
        = ⟨some [], some SLSI_STATUS_ERROR,
            { ch with sent := ch.sent ++ List.replicate k.REQUEST_RETRY_COUNT cmd,
                      replies := ch.replies.drop k.REQUEST_RETRY_COUNT }⟩) := by
  unfold slsi_send_request
  rw [if_neg (by simp [hc])]
  constructor
  · intro pre t rest hrep hpre hlen
    exact slsi_send_request_loop_reply k cmd pre t rest _ none ch hrep hpre hlen
  · intro hrep
    rw [slsi_send_request_loop_silent k cmd _ none ch hrep, if_neg (by omega)]

/-- Witness of C15: with three attempts allowed, a `FAIL` reply on the third attempt is
reported after three sends, and a supplicant that never replies gets the command three times. -/
theorem slsi_send_request_attempts_witness :
    (({ g_ctrl_conn := true,
        replies := [wpa_reply.timeout, wpa_reply.failed, wpa_reply.text "FAIL\n".toList,
          wpa_reply.text "OK\n".toList] } : Channel).g_ctrl_conn = true
      ∧ 0 < wpa_config.REQUEST_RETRY_COUNT)
    ∧ slsi_send_request wpa_config "PING".toList
        { g_ctrl_conn := true,
          replies := [wpa_reply.timeout, wpa_reply.failed, wpa_reply.text "FAIL\n".toList,
            wpa_reply.text "OK\n".toList] }
      = ⟨some "FAIL\n".toList, some SLSI_STATUS_COMMAND_FAILED,
          { g_ctrl_conn := true, replies := [wpa_reply.text "OK\n".toList],
            sent := ["PING".toList, "PING".toList, "PING".toList] }⟩
    ∧ slsi_send_request wpa_config "PING".toList { g_ctrl_conn := true }
      = ⟨some [], some SLSI_STATUS_ERROR,
          { g_ctrl_conn := true, sent := ["PING".toList, "PING".toList, "PING".toList] }⟩ :=
  ⟨⟨rfl, by decide⟩,
    (slsi_send_request_attempts wpa_config "PING".toList
      { g_ctrl_conn := true,
        replies := [wpa_reply.timeout, wpa_reply.failed, wpa_reply.text "FAIL\n".toList,
          wpa_reply.text "OK\n".toList] } rfl (by decide)).1
      [wpa_reply.timeout, wpa_reply.failed] "FAIL\n".toList [wpa_reply.text "OK\n".toList]
      rfl (by decide) (by decide),
    (slsi_send_request_attempts wpa_config "PING".toList { g_ctrl_conn := true } rfl
      (by decide)).2 (by decide)⟩

/-! ## The disconnect report -/

/-- What `strstr` returns starts with the needle and ends the string. -/
theorem strstr_some (s n t : CStr) (h : strstr s n = some t) : n <+: t ∧ t <:+ s := by
  induction s with
  | nil =>
    unfold strstr at h
    split at h
    · cases h
      rename_i hn
      rw [List.isEmpty_iff] at hn
      subst hn
      exact ⟨List.prefix_refl _, List.suffix_refl _⟩
    · cases h
  | cons x xs ih =>
    unfold strstr at h
    split at h
    · cases h
      rename_i hp
      exact ⟨List.isPrefixOf_iff_prefix.1 hp, List.suffix_refl _⟩
    · obtain ⟨h1, h2⟩ := ih h
      exact ⟨h1, h2.trans (List.suffix_cons _ _)⟩

/-- A needle that `strstr` does not find in a string is in none of its endings. -/
theorem strstr_none_suffix (s n t : CStr) (h : strstr s n = none) (ht : t <:+ s) :
    strstr t n = none := by
  induction s with
  | nil =>
    rw [List.suffix_nil] at ht
    subst ht
    exact h
  | cons x xs ih =>
    rw [List.suffix_cons_iff] at ht
    rcases ht with ht | ht
    · subst ht
      exact h
    · unfold strstr at h
      split at h
      · cases h
      · exact ih h ht

/-- A needle with the character `c` at offset `a.length`, after a text `pre` without `c`: when
`c` is not in the first `a.length` characters of the needle either, `strstr` finds the needle
right after `pre`. -/
theorem strstr_append (pre a b rest : CStr) (c : Char) (h1 : c ∉ pre) (h2 : c ∉ a) :
    strstr (pre ++ (a ++ c :: b) ++ rest) (a ++ c :: b) = some ((a ++ c :: b) ++ rest) := by
  induction pre with
  | nil =>
    have hp : (a ++ c :: b).isPrefixOf ((a ++ c :: b) ++ rest) = true :=
      List.isPrefixOf_iff_prefix.2 (List.prefix_append _ _)
    cases hl : (a ++ c :: b) ++ rest with
    | nil => simp at hl
    | cons x xs =>
      rw [List.nil_append, hl]
      unfold strstr
      rw [← hl, if_pos hp]
  | cons x pre ih =>
    have hx : c ≠ x := fun h => h1 (by simp [h])
    have hpre : c ∉ pre := fun h => h1 (List.mem_cons_of_mem _ h)
    rw [List.cons_append, List.cons_append]
    unfold strstr
    rw [if_neg]
    · exact ih hpre
    · intro hp
      rw [List.isPrefixOf_iff_prefix] at hp
      obtain ⟨t, ht⟩ := hp
      have e1 : ((a ++ c :: b) ++ t)[a.length]? = some c := by
        rw [List.append_assoc, List.getElem?_append_right (le_refl _)]
        simp
      rw [ht] at e1
      have hmem : c ∈ (x :: pre) ++ a := by
        have hlt : a.length < ((x :: pre) ++ a).length := by simp; omega
        have e2 : ((x :: pre) ++ a)[a.length]? = some c := by
          have e3 : x :: (pre ++ (a ++ c :: b) ++ rest)
              = ((x :: pre) ++ a) ++ (c :: b ++ rest) := by simp
          rw [e3, List.getElem?_append_left hlt] at e1
          exact e1
        exact List.mem_iff_getElem?.2 ⟨_, e2⟩
      rcases List.mem_append.1 hmem with h | h
      · exact h1 h
      · exact h2 h
theorem digits_value_append (ds rest : CStr) (acc : Nat)
    (hd : ∀ c ∈ ds, c.isDigit = true) (hr : ∀ c, rest.head? = some c → c.isDigit = false) :
    digits_value acc (ds ++ rest) = acc * 10 ^ ds.length + decimal_value ds := by
  induction ds generalizing acc with
  | nil =>
    simp only [List.nil_append, List.length_nil, pow_zero, mul_one, decimal_value, List.map_nil,
      List.reverse_nil, Nat.ofDigits_nil, add_zero]
    cases rest with
    | nil => rfl
    | cons c cs =>
      unfold digits_value
      rw [if_neg]
      simp [hr c rfl]
  | cons c ds ih =>
    have hc : c.isDigit = true := hd c (List.mem_cons_self _ _)
    rw [List.cons_append]
    unfold digits_value
    rw [if_pos hc, ih _ (fun c h => hd c (List.mem_cons_of_mem _ h))]
    simp only [decimal_value, List.map_cons, List.reverse_cons, Nat.ofDigits_append,
      List.length_reverse, List.length_map, Nat.ofDigits_singleton, List.length_cons]
    ring

theorem isspace_of_isDigit (c : Char) (h : c.isDigit = true) :
    isspace c = false ∧ c ≠ '-' ∧ c ≠ '+' := by
  refine ⟨?_, ?_, ?_⟩
  · unfold isspace
    simp only [Bool.or_eq_false_iff, decide_eq_false_iff_not]
    refine ⟨⟨⟨⟨⟨?_, ?_⟩, ?_⟩, ?_⟩, ?_⟩, ?_⟩ <;> (intro he; subst he; revert h; decide)
  · intro he; subst he; revert h; decide
  · intro he; subst he; revert h; decide

/-- C `strtol` on a string that starts with a run of digits. -/
theorem strtol_digits (long_max : Nat) (ds rest : CStr) (hne : ds ≠ [])
    (hd : ∀ c ∈ ds, c.isDigit = true) (hr : ∀ c, rest.head? = some c → c.isDigit = false) :
    strtol long_max (ds ++ rest) = min (long_max : Int) (decimal_value ds : Nat) := by
  cases ds with
  | nil => exact absurd rfl hne
  | cons c cs =>
    obtain ⟨s1, s2, s3⟩ := isspace_of_isDigit c (hd c (List.mem_cons_self _ _))
    have hv := digits_value_append (c :: cs) rest 0 hd hr
    rw [Nat.zero_mul, Nat.zero_add] at hv
    unfold strtol
    rw [List.cons_append, List.dropWhile_cons_of_neg (by simp [s1])]
    split
    · rename_i r heq; exact absurd (List.cons.inj heq).1 s2
    · rename_i r heq; exact absurd (List.cons.inj heq).1 s3
    · rw [← List.cons_append, hv]
/-- After a text `pre` in which the needle does not start, `strstr` finds the needle right
after `pre`: the occurrence is the first one. -/
theorem strstr_first (pre n rest : CStr) (h : ¬ n <:+: pre ++ n.dropLast) :
    strstr (pre ++ n ++ rest) n = some (n ++ rest) := by
  have hn : n ≠ [] := by
    intro e
    subst e
    exact h List.nil_infix
  induction pre with
  | nil =>
    have hp : n.isPrefixOf (n ++ rest) = true :=
      List.isPrefixOf_iff_prefix.2 (List.prefix_append _ _)
    cases hl : n ++ rest with
    | nil => simp [hn] at hl
    | cons x xs =>
      rw [List.nil_append, hl]
      unfold strstr
      rw [← hl, if_pos hp]
  | cons x pre ih =>
    have hi : ¬ n <:+: pre ++ n.dropLast := by
      intro hc
      apply h
      rw [List.cons_append]
      exact hc.trans (List.suffix_cons _ _).isInfix
    rw [List.cons_append, List.cons_append]
    unfold strstr
    rw [if_neg]
    · exact ih hi
    · intro hp
      rw [List.isPrefixOf_iff_prefix] at hp
      apply h
      have e : x :: (pre ++ n ++ rest)
          = ((x :: pre) ++ n.dropLast) ++ ([n.getLast hn] ++ rest) := by
        have := List.dropLast_append_getLast hn
        conv_lhs => rw [← this]
        simp
      rw [e] at hp
      have hlen : n.length ≤ ((x :: pre) ++ n.dropLast).length := by
        simp
        omega
      exact (List.prefix_of_prefix_length_le hp (List.prefix_append _ _) hlen).isInfix

theorem strstr_none_of_not_infix (s n : CStr) (h : ¬ n <:+: s) : strstr s n = none := by
  cases hs : strstr s n with
  | none => rfl
  | some t =>
    obtain ⟨h1, h2⟩ := strstr_some s n t hs
    exact absurd (h1.isInfix.trans h2.isInfix) h

theorem slsi_sta_disconnect_event_handler_zero (k : Config) (str : CStr) :
    (slsi_sta_disconnect_event_handler k str).ssid = []
    ∧ (slsi_sta_disconnect_event_handler k str).ssid_len = 0 := by
  unfold slsi_sta_disconnect_event_handler
  dsimp only
  split <;> split <;> split <;> exact ⟨rfl, rfl⟩

theorem slsi_sta_disconnect_event_handler_absent (k : Config) (str : CStr) :
    (¬ k.WPA_PARAM_BSSID <:+: str → (slsi_sta_disconnect_event_handler k str).bssid = [])
    ∧ (¬ k.WPA_PARAM_REASON <:+: str →
        (slsi_sta_disconnect_event_handler k str).reason_code = 0)
    ∧ (¬ k.WPA_PARAM_LOACLLY_GENERATED <:+: str →
        (slsi_sta_disconnect_event_handler k str).locally_generated = 0) := by
  refine ⟨fun h => ?_, fun h => ?_, fun h => ?_⟩
  · have h1 := strstr_none_of_not_infix _ _ h
    unfold slsi_sta_disconnect_event_handler
    simp only [h1]
    split <;> split <;> rfl
  · have h1 := strstr_none_of_not_infix _ _ h
    have h2 : ∀ t, t <:+ str → strstr t k.WPA_PARAM_REASON = none :=
      fun t ht => strstr_none_suffix _ _ t h1 ht
    unfold slsi_sta_disconnect_event_handler
    dsimp only
    cases hb : strstr str k.WPA_PARAM_BSSID with
    | none =>
      simp only [h1]
      split <;> rfl
    | some s =>
      have hs : (s.drop 6).drop 17 <:+ str :=
        ((List.drop_suffix _ _).trans (List.drop_suffix _ _)).trans
          (strstr_some _ _ _ hb).2
      simp only [h2 _ hs]
      split <;> rfl
  · have h1 := strstr_none_of_not_infix _ _ h
    have h2 : ∀ t, t <:+ str → strstr t k.WPA_PARAM_LOACLLY_GENERATED = none :=
      fun t ht => strstr_none_suffix _ _ t h1 ht
    unfold slsi_sta_disconnect_event_handler
    dsimp only
    have hp : ∀ p : slsi_reason_t × CStr, p.2 <:+ str →
        (match strstr (match strstr p.2 k.WPA_PARAM_REASON with
            | some s => (({ p.1 with
                reason_code := to_uint32 (strtol k.LONG_MAX (s.drop 7)) } : slsi_reason_t), s)
            | none => (p.1, str)).2 k.WPA_PARAM_LOACLLY_GENERATED with
          | none => ({ (match strstr p.2 k.WPA_PARAM_REASON with
              | some s => (({ p.1 with
                  reason_code := to_uint32 (strtol k.LONG_MAX (s.drop 7)) } : slsi_reason_t), s)
              | none => (p.1, str)).1 with locally_generated := 0 } : slsi_reason_t)
          | some s => { (match strstr p.2 k.WPA_PARAM_REASON with
              | some s => (({ p.1 with
                  reason_code := to_uint32 (strtol k.LONG_MAX (s.drop 7)) } : slsi_reason_t), s)
              | none => (p.1, str)).1 with
              locally_generated := to_uint8 (strtol k.LONG_MAX (s.drop 18)) }).locally_generated
          = 0 := by
      intro p hps
      cases hr : strstr p.2 k.WPA_PARAM_REASON with
      | none => simp only [h1]
      | some s =>
        have hs : s <:+ str := (strstr_some _ _ _ hr).2.trans hps
        simp only [h2 s hs]
    cases hb : strstr str k.WPA_PARAM_BSSID with
    | none => exact hp (_, str) (List.suffix_refl _)
    | some s =>
      exact hp (_, (s.drop 6).drop 17)
        (((List.drop_suffix _ _).trans (List.drop_suffix _ _)).trans (strstr_some _ _ _ hb).2)
/-- The handler on a line with the three fields in the order the supplicant writes them. -/
theorem slsi_sta_disconnect_event_handler_fields (k : Config) (pre B rs ls rest : CStr)
    (hB : k.WPA_PARAM_BSSID = "bssid=".toList) (hR : k.WPA_PARAM_REASON = "reason=".toList)
    (hL : k.WPA_PARAM_LOACLLY_GENERATED = "locally_generated=".toList)
    (hpre : ¬ "bssid=".toList <:+: pre ++ "bssid".toList) (hlen : B.length = 17)
    (hrs : rs ≠ [] ∧ ∀ c ∈ rs, c.isDigit = true) (hls : ls ≠ [] ∧ ∀ c ∈ ls, c.isDigit = true)
    (hrest : ∀ c, rest.head? = some c → c.isDigit = false)
    (hrv : decimal_value rs ≤ k.LONG_MAX ∧ decimal_value rs < 4294967296)
    (hlv : decimal_value ls ≤ k.LONG_MAX ∧ decimal_value ls < 256) :
    slsi_sta_disconnect_event_handler k
        (pre ++ "bssid=".toList ++ B ++ " reason=".toList ++ rs
          ++ " locally_generated=".toList ++ ls ++ rest)
      = { bssid := B, reason_code := decimal_value rs, locally_generated := decimal_value ls } := by
  have e1 : strstr (pre ++ "bssid=".toList ++ B ++ " reason=".toList ++ rs
        ++ " locally_generated=".toList ++ ls ++ rest) "bssid=".toList
      = some ("bssid=".toList ++ (B ++ " reason=".toList ++ rs
          ++ " locally_generated=".toList ++ ls ++ rest)) := by
    have h := strstr_first pre "bssid=".toList (B ++ " reason=".toList ++ rs
      ++ " locally_generated=".toList ++ ls ++ rest) hpre
    simpa [List.append_assoc] using h
  have e2 : strstr (" reason=".toList ++ rs ++ " locally_generated=".toList ++ ls ++ rest)
        "reason=".toList
      = some ("reason=".toList ++ (rs ++ " locally_generated=".toList ++ ls ++ rest)) := by
    have h := strstr_append " ".toList "reason".toList []
      (rs ++ " locally_generated=".toList ++ ls ++ rest) '=' (by decide) (by decide)
    simpa [List.append_assoc] using h
  have hu : '_' ∉ "reason=".toList ++ rs ++ " ".toList := by
    intro h
    rcases List.mem_append.1 h with h | h
    · rcases List.mem_append.1 h with h | h
      · revert h; decide
      · have := hrs.2 _ h; revert this; decide
    · revert h; decide
  have e3 : strstr ("reason=".toList ++ (rs ++ " locally_generated=".toList ++ ls ++ rest))
        "locally_generated=".toList
      = some ("locally_generated=".toList ++ (ls ++ rest)) := by
    have h := strstr_append ("reason=".toList ++ rs ++ " ".toList) "locally".toList
      "generated=".toList (ls ++ rest) '_' hu (by decide)
    simpa [List.append_assoc] using h
  have d1 : (("bssid=".toList ++ (B ++ " reason=".toList ++ rs
        ++ " locally_generated=".toList ++ ls ++ rest)).drop 6).take 17 = B := by
    show (B ++ " reason=".toList ++ rs ++ " locally_generated=".toList ++ ls ++ rest).take 17 = B
    rw [List.append_assoc, List.append_assoc, List.append_assoc, List.append_assoc,
      ← hlen, List.take_left]
  have d2 : (("bssid=".toList ++ (B ++ " reason=".toList ++ rs
        ++ " locally_generated=".toList ++ ls ++ rest)).drop 6).drop 17
      = " reason=".toList ++ rs ++ " locally_generated=".toList ++ ls ++ rest := by
    show (B ++ " reason=".toList ++ rs ++ " locally_generated=".toList ++ ls ++ rest).drop 17 = _
    rw [List.append_assoc B, List.append_assoc B, List.append_assoc B, List.append_assoc B,
      ← hlen, List.drop_left]
  have v1 : to_uint32 (strtol k.LONG_MAX
      (("reason=".toList ++ (rs ++ " locally_generated=".toList ++ ls ++ rest)).drop 7))
      = decimal_value rs := by
    show to_uint32 (strtol k.LONG_MAX (rs ++ " locally_generated=".toList ++ ls ++ rest)) = _
    rw [List.append_assoc, List.append_assoc,
      strtol_digits k.LONG_MAX rs _ hrs.1 hrs.2 (by intro c hc; cases hc; decide),
      min_eq_right (by exact_mod_cast hrv.1)]
    unfold to_uint32
    have := hrv.2
    omega
  have v2 : to_uint8 (strtol k.LONG_MAX (("locally_generated=".toList ++ (ls ++ rest)).drop 18))
      = decimal_value ls := by
    show to_uint8 (strtol k.LONG_MAX (ls ++ rest)) = _
    rw [strtol_digits k.LONG_MAX ls _ hls.1 hls.2 hrest,
      min_eq_right (by exact_mod_cast hlv.1)]
    unfold to_uint8
    have := hlv.2
    omega
  unfold slsi_sta_disconnect_event_handler
  simp only [hB, hR, hL, e1, d1, d2, e2, e3, v1, v2]
theorem slsi_sta_disconnect_event_handler_bssid (k : Config) (pre B rest : CStr)
    (hB : k.WPA_PARAM_BSSID = "bssid=".toList)
    (hpre : ¬ "bssid=".toList <:+: pre ++ "bssid".toList) (hlen : B.length = 17) :
    (slsi_sta_disconnect_event_handler k (pre ++ "bssid=".toList ++ B ++ rest)).bssid = B := by
  have e1 : strstr (pre ++ "bssid=".toList ++ B ++ rest) "bssid=".toList
      = some ("bssid=".toList ++ (B ++ rest)) := by
    have h := strstr_first pre "bssid=".toList (B ++ rest) hpre
    simpa [List.append_assoc] using h
  have d1 : (("bssid=".toList ++ (B ++ rest)).drop 6).take 17 = B := by
    show (B ++ rest).take 17 = B
    rw [← hlen, List.take_left]
  unfold slsi_sta_disconnect_event_handler
  simp only [hB, e1, d1]
  split <;> split <;> rfl

/-- C16 (amended): `slsi_sta_disconnect_event_handler` is total and returns a reason whose ssid
and ssid length are zero; the bssid is empty when the line has no `bssid=` key and is the 17
characters after the first `bssid=` key when 17 characters follow it; the reason code is 0 when
the line has no `reason=` key and the locally-generated flag is 0 when it has no
`locally_generated=` key.  On a line `... bssid=B reason=R locally_generated=L` (this `bssid=`
being the first on the line, `B` of 17 characters, `R` and `L` decimal numbers that end at the
first character that is not a digit and are not above `LONG_MAX`, where `strtol` saturates, `R`
below 2^32 and `L` below 256) the result is exactly `(B, R, L)`. -/
theorem slsi_sta_disconnect_event_handler_reason (k : Config) (str : CStr)
    (hB : k.WPA_PARAM_BSSID = "bssid=".toList) (hR : k.WPA_PARAM_REASON = "reason=".toList)
    (hL : k.WPA_PARAM_LOACLLY_GENERATED = "locally_generated=".toList) :
    ((slsi_sta_disconnect_event_handler k str).ssid = []
      ∧ (slsi_sta_disconnect_event_handler k str).ssid_len = 0)
    ∧ (¬ "bssid=".toList <:+: str → (slsi_sta_disconnect_event_handler k str).bssid = [])
    ∧ (¬ "reason=".toList <:+: str → (slsi_sta_disconnect_event_handler k str).reason_code = 0)
    ∧ (¬ "locally_generated=".toList <:+: str →
        (slsi_sta_disconnect_event_handler k str).locally_generated = 0)
    ∧ (∀ pre B rest : CStr, str = pre ++ "bssid=".toList ++ B ++ rest →
        ¬ "bssid=".toList <:+: pre ++ "bssid".toList →
        B.length = 17 → (slsi_sta_disconnect_event_handler k str).bssid = B)
    ∧ (∀ pre B rs ls rest : CStr,
        str = pre ++ "bssid=".toList ++ B ++ " reason=".toList ++ rs
          ++ " locally_generated=".toList ++ ls ++ rest →
        ¬ "bssid=".toList <:+: pre ++ "bssid".toList → B.length = 17 →
        (rs ≠ [] ∧ ∀ c ∈ rs, c.isDigit = true) → (ls ≠ [] ∧ ∀ c ∈ ls, c.isDigit = true) →
        (∀ c, rest.head? = some c → c.isDigit = false) →
        (decimal_value rs ≤ k.LONG_MAX ∧ decimal_value rs < 4294967296) →
        (decimal_value ls ≤ k.LONG_MAX ∧ decimal_value ls < 256) →
        slsi_sta_disconnect_event_handler k str
          = { bssid := B, reason_code := decimal_value rs,
              locally_generated := decimal_value ls }) := by
  obtain ⟨a1, a2, a3⟩ := slsi_sta_disconnect_event_handler_absent k str
  rw [hB] at a1
  rw [hR] at a2
  rw [hL] at a3
  refine ⟨slsi_sta_disconnect_event_handler_zero k str, a1, a2, a3, ?_, ?_⟩
  · intro pre B rest hs hpre hlen
    rw [hs]
    exact slsi_sta_disconnect_event_handler_bssid k pre B rest hB hpre hlen
  · intro pre B rs ls rest hs hpre hlen hrs hls hrest hrv hlv
    rw [hs]
    exact slsi_sta_disconnect_event_handler_fields k pre B rs ls rest hB hR hL hpre hlen hrs hls
      hrest hrv hlv

/-- Counterexample of C16: on a line whose `reason=` key comes before the `bssid=` key the
reason code returned is 0, not the number after the key. -/
theorem slsi_sta_disconnect_event_handler_order :
    (slsi_sta_disconnect_event_handler wpa_config
      "CTRL-EVENT-DISCONNECTED reason=3 bssid=02:00:00:00:01:00".toList).reason_code = 0
    ∧ "reason=3".toList <:+: "CTRL-EVENT-DISCONNECTED reason=3 bssid=02:00:00:00:01:00".toList
    ∧ (slsi_sta_disconnect_event_handler wpa_config
      "CTRL-EVENT-DISCONNECTED bssid=02:00:00:00:01:00 locally_generated=1 reason=3".toList)
      = { bssid := "02:00:00:00:01:00".toList, reason_code := 3, locally_generated := 0 } := by
  refine ⟨by decide, ?_, by decide⟩
  exact ⟨"CTRL-EVENT-DISCONNECTED ".toList, " bssid=02:00:00:00:01:00".toList, by decide⟩

/-- Witness of C16: the line the supplicant writes for a disconnect with reason 3. -/
theorem slsi_sta_disconnect_event_handler_reason_witness :
    (wpa_config.WPA_PARAM_BSSID = "bssid=".toList
      ∧ wpa_config.WPA_PARAM_REASON = "reason=".toList
      ∧ wpa_config.WPA_PARAM_LOACLLY_GENERATED = "locally_generated=".toList)
    ∧ slsi_sta_disconnect_event_handler wpa_config
        "CTRL-EVENT-DISCONNECTED bssid=02:00:00:00:01:00 reason=3 locally_generated=1".toList
      = { bssid := "02:00:00:00:01:00".toList, reason_code := 3, locally_generated := 1 } :=
  ⟨⟨rfl, rfl, rfl⟩,
    (slsi_sta_disconnect_event_handler_reason wpa_config
      "CTRL-EVENT-DISCONNECTED bssid=02:00:00:00:01:00 reason=3 locally_generated=1".toList
      rfl rfl rfl).2.2.2.2.2
      "CTRL-EVENT-DISCONNECTED ".toList "02:00:00:00:01:00".toList "3".toList "1".toList []
      (by decide) (by decide) (by decide) (by decide) (by decide) (by decide) (by decide)
      (by decide)⟩

/-! ## Join rollback -/

/-- C18: the list of networks has no entry for `net`, `ADD_NETWORK` creates entry `0` and the
supplicant answers `FAIL` to the command that sets its ssid: `slsi_join_network` returns
CommandFailed in state SupplicantRunning without a `REMOVE_NETWORK` for the entry; the same
when every setting succeeds and `SELECT_NETWORK` is answered `FAIL`.  When the security
settings fail, the entry is removed. -/
theorem slsi_join_network_entry_left :
    (fun r : slsi_status × Driver => (r.1, r.2.g_state, r.2.chan.sent))
        (slsi_join_network wpa_config "net".toList 3 none none
          (running_driver [wpa_reply.text "network id / ssid / bssid / flags\n".toList,
            wpa_reply.text "0\n".toList, wpa_reply.text "FAIL\n".toList]))
      = (SLSI_STATUS_COMMAND_FAILED, SLSI_WIFIAPI_STATE_SUPPLICANT_RUNNING,
          ["LIST_NETWORKS".toList, "ADD_NETWORK".toList,
            "SET_NETWORK 0 ssid P\"net\"".toList])
    ∧ (fun r : slsi_status × Driver => (r.1, r.2.g_state, r.2.chan.sent))
        (slsi_join_network wpa_config "net".toList 3 none none
          (running_driver [wpa_reply.text "network id / ssid / bssid / flags\n".toList,
            wpa_reply.text "0\n".toList, wpa_reply.text "OK\n".toList,
            wpa_reply.text "OK\n".toList, wpa_reply.text "OK\n".toList,
            wpa_reply.text "OK\n".toList, wpa_reply.text "FAIL\n".toList]))
      = (SLSI_STATUS_COMMAND_FAILED, SLSI_WIFIAPI_STATE_SUPPLICANT_RUNNING,
          ["LIST_NETWORKS".toList, "ADD_NETWORK".toList,
            "SET_NETWORK 0 ssid P\"net\"".toList, "SET_NETWORK 0 scan_ssid 1".toList,
            "SET_NETWORK 0 key_mgmt NONE".toList, "SCAN_INTERVAL 10".toList,
            "SELECT_NETWORK 0".toList])
    ∧ (fun r : slsi_status × Driver => (r.1, r.2.g_state, r.2.chan.sent))
        (slsi_join_network wpa_config "net".toList 3 none none
          (running_driver [wpa_reply.text "network id / ssid / bssid / flags\n".toList,
            wpa_reply.text "0\n".toList, wpa_reply.text "OK\n".toList,
            wpa_reply.text "OK\n".toList, wpa_reply.text "FAIL\n".toList,
            wpa_reply.text "OK\n".toList]))
      = (SLSI_STATUS_COMMAND_FAILED, SLSI_WIFIAPI_STATE_SUPPLICANT_RUNNING,
          ["LIST_NETWORKS".toList, "ADD_NETWORK".toList,
            "SET_NETWORK 0 ssid P\"net\"".toList, "SET_NETWORK 0 scan_ssid 1".toList,
            "SET_NETWORK 0 key_mgmt NONE".toList, "REMOVE_NETWORK 0".toList]) := by
  decide

/-! ## Security settings -/

/-- A request on an open connection whose next reply is a text. -/
theorem slsi_send_request_reply (k : Config) (cmd t : CStr) (rest : List wpa_reply)
    (s : List CStr) (hn : 0 < k.REQUEST_RETRY_COUNT) :
    slsi_send_request k cmd ⟨true, wpa_reply.text t :: rest, s⟩
      = ⟨some (t.take (k.WPA_BUFFER_SIZE - 1)),
          some (slsi_classify_reply (t.take (k.WPA_BUFFER_SIZE - 1))),
          ⟨true, rest, s ++ [cmd]⟩⟩ := by
  unfold slsi_send_request
  rw [if_neg (by simp)]
  have h := slsi_send_request_loop_reply k cmd [] t rest k.REQUEST_RETRY_COUNT none
    ⟨true, wpa_reply.text t :: rest, s⟩ rfl (by simp) (by simpa using hn)
  simpa using h

theorem snprintf_ne_nil (k : Config) (a x : CStr) (ha : a ≠ [])
    (hsz : 2 ≤ k.WPA_COMMAND_MAX_SIZE) : snprintf k.WPA_COMMAND_MAX_SIZE (a ++ x) ≠ [] := by
  cases a with
  | nil => exact absurd rfl ha
  | cons y ys =>
    obtain ⟨j, hj⟩ : ∃ j, k.WPA_COMMAND_MAX_SIZE - 1 = j + 1 :=
      ⟨k.WPA_COMMAND_MAX_SIZE - 2, by omega⟩
    simp [snprintf, hj]

/-- A three-part command on an open connection whose next reply is classified as Success. -/
theorem slsi_send_command_str_upto_4_ok3 (k : Config) (a b c ok : CStr)
    (rest : List wpa_reply) (s : List CStr) (hn : 0 < k.REQUEST_RETRY_COUNT)
    (hok : slsi_classify_reply (ok.take (k.WPA_BUFFER_SIZE - 1)) = SLSI_STATUS_SUCCESS)
    (ha : a ≠ []) (hsz : 2 ≤ k.WPA_COMMAND_MAX_SIZE) :
    slsi_send_command_str_upto_4 k (some a) (some b) (some c) none
        ⟨true, wpa_reply.text ok :: rest, s⟩
      = (some SLSI_STATUS_SUCCESS,
          ⟨true, rest, s ++ [snprintf k.WPA_COMMAND_MAX_SIZE (a ++ b ++ [' '] ++ c)]⟩) := by
  have hne := snprintf_ne_nil k a (b ++ [' '] ++ c) ha hsz
  rw [← List.append_assoc, ← List.append_assoc] at hne
  unfold slsi_send_command_str_upto_4
  simp only [hne, ne_eq, not_false_eq_true, if_true]
  rw [slsi_send_request_reply k _ ok rest s hn, hok]

/-- A four-part command on an open connection whose next reply is classified as Success. -/
theorem slsi_send_command_str_upto_4_ok4 (k : Config) (a b c e ok : CStr)
    (rest : List wpa_reply) (s : List CStr) (hn : 0 < k.REQUEST_RETRY_COUNT)
    (hok : slsi_classify_reply (ok.take (k.WPA_BUFFER_SIZE - 1)) = SLSI_STATUS_SUCCESS)
    (ha : a ≠ []) (hsz : 2 ≤ k.WPA_COMMAND_MAX_SIZE) :
    slsi_send_command_str_upto_4 k (some a) (some b) (some c) (some e)
        ⟨true, wpa_reply.text ok :: rest, s⟩
      = (some SLSI_STATUS_SUCCESS,
          ⟨true, rest, s ++ [snprintf k.WPA_COMMAND_MAX_SIZE (a ++ b ++ [' '] ++ c ++ e)]⟩) := by
  have hne := snprintf_ne_nil k a (b ++ [' '] ++ c ++ e) ha hsz
  rw [← List.append_assoc, ← List.append_assoc, ← List.append_assoc] at hne
  unfold slsi_send_command_str_upto_4
  simp only [hne, ne_eq, not_false_eq_true, if_true]
  rw [slsi_send_request_reply k _ ok rest s hn, hok]

/-- Source `slsi_set_security` after the choice of `keymgmt`, when the supplicant accepts every
command: the key-management and `auth_alg` commands, then the key command when the passphrase
has a valid length, or ParamFailed without a key command. -/
theorem slsi_set_security_tail (k : Config) (op_mode : WiFi_InterFace_ID_t)
    (sec : slsi_security_config_t) (network_id ok keymgmt : CStr) (res0 : slsi_status)
    (rest : List wpa_reply) (s : List CStr) (hn : 0 < k.REQUEST_RETRY_COUNT)
    (hok : slsi_classify_reply (ok.take (k.WPA_BUFFER_SIZE - 1)) = SLSI_STATUS_SUCCESS)
    (ha : k.WPA_COMMAND_SET_NETWORK ≠ []) (hsz : 2 ≤ k.WPA_COMMAND_MAX_SIZE)
    (hopen : sec.secmode ≠ k.SLSI_SEC_MODE_OPEN) (hp : sec.passphrase ≠ [])
    (ch0 : Channel)
    (hmode : slsi_set_security_mode k op_mode sec network_id SLSI_STATUS_SECURITY_FAILED ch0
      = .inr (keymgmt, res0,
          ⟨true, wpa_reply.text ok :: wpa_reply.text ok :: wpa_reply.text ok :: rest, s⟩)) :
    slsi_set_security k op_mode (some sec) network_id ch0
      = (match slsi_set_security_key k sec network_id with
        | some cmd => (SLSI_STATUS_SUCCESS, ⟨true, rest,
            s ++ [snprintf k.WPA_COMMAND_MAX_SIZE
                (k.WPA_COMMAND_SET_NETWORK ++ network_id ++ [' '] ++ keymgmt)]
              ++ [snprintf k.WPA_COMMAND_MAX_SIZE
                (k.WPA_COMMAND_SET_NETWORK ++ network_id ++ [' '] ++ k.WPA_PARAM_AUTH_ALG
                  ++ (if sec.secmode = k.SLSI_SEC_MODE_WEP_SHARED then
                      k.WPA_VALUE_AUTH_ALG_SHARED else k.WPA_VALUE_AUTH_ALG_OPEN))]
              ++ [cmd]⟩)
        | none => (SLSI_STATUS_PARAM_FAILED, ⟨true, wpa_reply.text ok :: rest,
            s ++ [snprintf k.WPA_COMMAND_MAX_SIZE
                (k.WPA_COMMAND_SET_NETWORK ++ network_id ++ [' '] ++ keymgmt)]
              ++ [snprintf k.WPA_COMMAND_MAX_SIZE
                (k.WPA_COMMAND_SET_NETWORK ++ network_id ++ [' '] ++ k.WPA_PARAM_AUTH_ALG
                  ++ (if sec.secmode = k.SLSI_SEC_MODE_WEP_SHARED then
                      k.WPA_VALUE_AUTH_ALG_SHARED else k.WPA_VALUE_AUTH_ALG_OPEN))]⟩)) := by
  unfold slsi_set_security
  simp only [hmode]
  rw [slsi_send_command_str_upto_4_ok3 k _ _ _ ok _ s hn hok ha hsz]
  simp only [Option.getD_some, ne_eq, not_true_eq_false, if_false]
  rw [slsi_send_command_str_upto_4_ok4 k _ _ _ _ ok _ _ hn hok ha hsz]
  simp only [Option.getD_some, ne_eq, not_true_eq_false, if_false, hopen, hp,
    not_false_eq_true, and_self, if_true]
  cases hk : slsi_set_security_key k sec network_id with
  | none => rfl
  | some cmd =>
    simp only [slsi_send_request_reply k cmd ok rest _ hn, hok, Option.getD_some]
/-- The choice of `keymgmt` for a WEP mode outside soft-AP operation: no command is sent. -/
theorem slsi_set_security_mode_wep (k : Config) (op_mode : WiFi_InterFace_ID_t)
    (sec : slsi_security_config_t) (network_id : CStr) (res : slsi_status) (ch : Channel)
    (hopen : sec.secmode ≠ k.SLSI_SEC_MODE_OPEN)
    (hwep : sec.secmode = k.SLSI_SEC_MODE_WEP ∨ sec.secmode = k.SLSI_SEC_MODE_WEP_SHARED)
    (hop : op_mode ≠ SLSI_WIFI_SOFT_AP_IF) :
    slsi_set_security_mode k op_mode sec network_id res ch
      = .inr (k.WPA_PARAM_KEY_MGMT_WEP, res, ch) := by
  rw [slsi_set_security_mode, if_neg hopen, if_pos hwep, if_neg hop]

/-- The choice of `keymgmt` for a WEP mode in soft-AP operation: ParamFailed. -/
theorem slsi_set_security_mode_wep_ap (k : Config)
    (sec : slsi_security_config_t) (network_id : CStr) (res : slsi_status) (ch : Channel)
    (hopen : sec.secmode ≠ k.SLSI_SEC_MODE_OPEN)
    (hwep : sec.secmode = k.SLSI_SEC_MODE_WEP ∨ sec.secmode = k.SLSI_SEC_MODE_WEP_SHARED) :
    slsi_set_security_mode k SLSI_WIFI_SOFT_AP_IF sec network_id res ch
      = .inl (SLSI_STATUS_PARAM_FAILED, ch) := by
  rw [slsi_set_security_mode, if_neg hopen, if_pos hwep, if_pos rfl]

/-- The choice of `keymgmt` for a WPA or WPA2 mode when the supplicant accepts every command:
the protocol and cipher commands are sent (two, and the group cipher in soft-AP operation). -/
theorem slsi_set_security_mode_wpa (k : Config) (op_mode : WiFi_InterFace_ID_t)
    (mode : Nat) (network_id ok : CStr) (res : slsi_status)
    (rest : List wpa_reply) (s : List CStr) (hn : 0 < k.REQUEST_RETRY_COUNT)
    (hok : slsi_classify_reply (ok.take (k.WPA_BUFFER_SIZE - 1)) = SLSI_STATUS_SUCCESS)
    (ha : k.WPA_COMMAND_SET_NETWORK ≠ []) (hsz : 2 ≤ k.WPA_COMMAND_MAX_SIZE)
    (hopen : mode ≠ k.SLSI_SEC_MODE_OPEN)
    (hwep : ¬ (mode = k.SLSI_SEC_MODE_WEP ∨ mode = k.SLSI_SEC_MODE_WEP_SHARED))
    (heap : mode ≠ k.SLSI_SEC_MODE_EAP)
    (hboth : mode ≠ (k.SLSI_SEC_MODE_WEP ||| k.SLSI_SEC_MODE_WEP_SHARED))
    (hwpa : mode &&& (k.SLSI_SEC_MODE_WPA_MIXED ||| k.SLSI_SEC_MODE_WPA2_MIXED) ≠ 0) :
    ∃ pre : List CStr, ∀ pass : CStr,
      slsi_set_security_mode k op_mode ⟨mode, pass⟩ network_id res
          ⟨true, (if op_mode = SLSI_WIFI_SOFT_AP_IF then [wpa_reply.text ok] else [])
            ++ wpa_reply.text ok :: wpa_reply.text ok :: rest, s⟩
        = .inr (k.WPA_PARAM_KEY_MGMT_WPA_PSK, SLSI_STATUS_SUCCESS, ⟨true, rest, s ++ pre⟩) := by
  have hpass : ∀ (pass : CStr) (ch : Channel),
      slsi_set_security_mode k op_mode ⟨mode, pass⟩ network_id res ch
        = slsi_set_security_mode k op_mode ⟨mode, []⟩ network_id res ch := by
    intro pass ch
    unfold slsi_set_security_mode
    rfl
  have h0 : ∃ pre : List CStr,
      slsi_set_security_mode k op_mode ⟨mode, []⟩ network_id res
          ⟨true, (if op_mode = SLSI_WIFI_SOFT_AP_IF then [wpa_reply.text ok] else [])
            ++ wpa_reply.text ok :: wpa_reply.text ok :: rest, s⟩
        = .inr (k.WPA_PARAM_KEY_MGMT_WPA_PSK, SLSI_STATUS_SUCCESS, ⟨true, rest, s ++ pre⟩) := by
    rw [slsi_set_security_mode]
    dsimp only
    rw [if_neg hopen, if_neg hwep, if_neg heap, if_neg hboth, if_pos hwpa]
    by_cases hop : op_mode = SLSI_WIFI_SOFT_AP_IF
    · simp only [hop, if_true, List.singleton_append]
      rw [slsi_send_command_str_upto_4_ok4 k _ _ _ _ ok _ _ hn hok ha hsz]
      simp only [Option.getD_some, ne_eq, not_true_eq_false, if_false]
      rw [slsi_send_command_str_upto_4_ok4 k _ _ _ _ ok _ _ hn hok ha hsz]
      simp only [Option.getD_some, ne_eq, not_true_eq_false, if_false]
      rw [slsi_send_command_str_upto_4_ok4 k _ _ _ _ ok _ _ hn hok ha hsz]
      simp only [Option.getD_some, ne_eq, not_true_eq_false, if_false, List.append_assoc]
      exact ⟨_, rfl⟩
    · simp only [hop, if_false, List.nil_append]
      rw [slsi_send_command_str_upto_4_ok4 k _ _ _ _ ok _ _ hn hok ha hsz]
      simp only [Option.getD_some, ne_eq, not_true_eq_false, if_false]
      rw [slsi_send_command_str_upto_4_ok4 k _ _ _ _ ok _ _ hn hok ha hsz]
      simp only [Option.getD_some, ne_eq, not_true_eq_false, if_false, List.append_assoc]
      exact ⟨_, rfl⟩
  obtain ⟨pre, hpre⟩ := h0
  exact ⟨pre, fun pass => (hpass pass _).trans hpre⟩
/-- C19 (amended): with every command accepted by the supplicant and a non-empty passphrase of
length `n`, `slsi_set_security` sends the key command after the mode commands and returns
Success exactly when, for a WEP mode outside soft-AP operation, the passphrase starts with a
double quote and `n - 2` is between 5 and 13 or it does not and `n` is between 10 and 26,
and, for a WPA or WPA2 mode, `n` is between 8 and `SLSI_PASSPHRASE_LEN - 1`; outside these
bounds it returns ParamFailed after the mode commands, without a key command.  A WEP mode in
soft-AP operation is refused with ParamFailed before any command, whatever the passphrase. -/
theorem slsi_set_security_passphrase (k : Config) (op_mode : WiFi_InterFace_ID_t) (mode : Nat)
    (network_id ok : CStr) (rest : List wpa_reply) (s : List CStr)
    (hn : 0 < k.REQUEST_RETRY_COUNT)
    (hok : slsi_classify_reply (ok.take (k.WPA_BUFFER_SIZE - 1)) = SLSI_STATUS_SUCCESS)
    (ha : k.WPA_COMMAND_SET_NETWORK ≠ []) (hsz : 2 ≤ k.WPA_COMMAND_MAX_SIZE)
    (hopen : mode ≠ k.SLSI_SEC_MODE_OPEN) :
    ((mode = k.SLSI_SEC_MODE_WEP ∨ mode = k.SLSI_SEC_MODE_WEP_SHARED) →
      op_mode ≠ SLSI_WIFI_SOFT_AP_IF →
      ∃ pre : List CStr, ∀ pass : CStr, pass ≠ [] →
        (fun r : slsi_status × Channel => (r.1, r.2.sent))
            (slsi_set_security k op_mode (some ⟨mode, pass⟩) network_id
              ⟨true, wpa_reply.text ok :: wpa_reply.text ok :: wpa_reply.text ok :: rest, s⟩)
          = if (if pass.head? = some '"' then 5 + 2 ≤ pass.length ∧ pass.length ≤ 13 + 2
                else 10 ≤ pass.length ∧ pass.length ≤ 26) then
              (SLSI_STATUS_SUCCESS, s ++ pre ++ [snprintf k.WPA_COMMAND_MAX_SIZE
                (k.WPA_COMMAND_SET_NETWORK ++ network_id ++ [' '] ++ k.WPA_PARAM_WEPKEY ++ pass)])
            else (SLSI_STATUS_PARAM_FAILED, s ++ pre))
    ∧ ((mode = k.SLSI_SEC_MODE_WEP ∨ mode = k.SLSI_SEC_MODE_WEP_SHARED) →
      ∀ (pass : CStr) (ch : Channel),
        slsi_set_security k SLSI_WIFI_SOFT_AP_IF (some ⟨mode, pass⟩) network_id ch
          = (SLSI_STATUS_PARAM_FAILED, ch))
    ∧ (¬ (mode = k.SLSI_SEC_MODE_WEP ∨ mode = k.SLSI_SEC_MODE_WEP_SHARED) →
      mode ≠ k.SLSI_SEC_MODE_EAP →
      mode ≠ (k.SLSI_SEC_MODE_WEP ||| k.SLSI_SEC_MODE_WEP_SHARED) →
      mode &&& (k.SLSI_SEC_MODE_WPA_MIXED ||| k.SLSI_SEC_MODE_WPA2_MIXED) ≠ 0 →
      ∃ pre : List CStr, ∀ pass : CStr, pass ≠ [] →
        (fun r : slsi_status × Channel => (r.1, r.2.sent))
            (slsi_set_security k op_mode (some ⟨mode, pass⟩) network_id
              ⟨true, (if op_mode = SLSI_WIFI_SOFT_AP_IF then [wpa_reply.text ok] else [])
                ++ wpa_reply.text ok :: wpa_reply.text ok :: wpa_reply.text ok
                  :: wpa_reply.text ok :: wpa_reply.text ok :: rest, s⟩)
          = if 8 ≤ pass.length ∧ pass.length ≤ k.SLSI_PASSPHRASE_LEN - 1 then
              (SLSI_STATUS_SUCCESS, s ++ pre ++ [snprintf k.WPA_COMMAND_MAX_SIZE
                (k.WPA_COMMAND_SET_NETWORK ++ network_id ++ [' '] ++ k.WPA_PARAM_PSK ++ ['"']
                  ++ pass ++ ['"'])])
            else (SLSI_STATUS_PARAM_FAILED, s ++ pre)) := by
  refine ⟨fun hwep hop => ?_, fun hwep pass ch => ?_, fun hwep heap hboth hwpa => ?_⟩
  · refine ⟨[snprintf k.WPA_COMMAND_MAX_SIZE
        (k.WPA_COMMAND_SET_NETWORK ++ network_id ++ [' '] ++ k.WPA_PARAM_KEY_MGMT_WEP),
      snprintf k.WPA_COMMAND_MAX_SIZE
        (k.WPA_COMMAND_SET_NETWORK ++ network_id ++ [' '] ++ k.WPA_PARAM_AUTH_ALG
          ++ (if mode = k.SLSI_SEC_MODE_WEP_SHARED then
              k.WPA_VALUE_AUTH_ALG_SHARED else k.WPA_VALUE_AUTH_ALG_OPEN))], fun pass hp => ?_⟩
    rw [slsi_set_security_tail k op_mode ⟨mode, pass⟩ network_id ok k.WPA_PARAM_KEY_MGMT_WEP
      SLSI_STATUS_SECURITY_FAILED rest s hn hok ha hsz hopen hp _
      (slsi_set_security_mode_wep k op_mode ⟨mode, pass⟩ network_id _ _ hopen hwep hop)]
    unfold slsi_set_security_key
    simp only [hwep, if_true, SLSI_WIFI_WEP_ASCII_KEY_MIN, SLSI_WIFI_WEP_ASCII_KEY_MAX,
      SLSI_WIFI_WEP_HEX_KEY_MIN, SLSI_WIFI_WEP_HEX_KEY_MAX, ge_iff_le]
    by_cases hq : pass.head? = some '"'
    · simp only [hq, if_true]
      by_cases hb : 5 + 2 ≤ pass.length ∧ pass.length ≤ 13 + 2 <;> simp [hb]
    · simp only [hq, if_false]
      by_cases hb : 10 ≤ pass.length ∧ pass.length ≤ 26 <;> simp [hb]
  · unfold slsi_set_security
    simp only [slsi_set_security_mode_wep_ap k ⟨mode, pass⟩ network_id _ ch hopen hwep]
  · obtain ⟨pre, hpre⟩ := slsi_set_security_mode_wpa k op_mode mode network_id ok
      SLSI_STATUS_SECURITY_FAILED
      (wpa_reply.text ok :: wpa_reply.text ok :: wpa_reply.text ok :: rest) s hn hok ha hsz
      hopen hwep heap hboth hwpa
    refine ⟨pre ++ [snprintf k.WPA_COMMAND_MAX_SIZE
        (k.WPA_COMMAND_SET_NETWORK ++ network_id ++ [' '] ++ k.WPA_PARAM_KEY_MGMT_WPA_PSK),
      snprintf k.WPA_COMMAND_MAX_SIZE
        (k.WPA_COMMAND_SET_NETWORK ++ network_id ++ [' '] ++ k.WPA_PARAM_AUTH_ALG
          ++ (if mode = k.SLSI_SEC_MODE_WEP_SHARED then
              k.WPA_VALUE_AUTH_ALG_SHARED else k.WPA_VALUE_AUTH_ALG_OPEN))], fun pass hp => ?_⟩
    rw [slsi_set_security_tail k op_mode ⟨mode, pass⟩ network_id ok
      k.WPA_PARAM_KEY_MGMT_WPA_PSK SLSI_STATUS_SUCCESS rest (s ++ pre) hn hok ha hsz hopen hp _
      (hpre pass)]
    unfold slsi_set_security_key
    simp only [hwep, if_false, SLSI_WIFI_WPA_ASCII_KEY_MIN, SLSI_WIFI_WPA_ASCII_KEY_MAX,
      ge_iff_le]
    by_cases hb : 8 ≤ pass.length ∧ pass.length ≤ k.SLSI_PASSPHRASE_LEN - 1 <;> simp [hb]
/-- Counterexample of C19: in soft-AP operation a WEP mode with the quoted five-character key
`"abcde"` returns ParamFailed and sends nothing, although every command would be accepted. -/
theorem slsi_set_security_wep_soft_ap :
    slsi_set_security wpa_config SLSI_WIFI_SOFT_AP_IF
        (some ⟨wpa_config.SLSI_SEC_MODE_WEP, "\"abcde\"".toList⟩) "0".toList
        ⟨true, [wpa_reply.text "OK\n".toList, wpa_reply.text "OK\n".toList,
          wpa_reply.text "OK\n".toList], []⟩
      = (SLSI_STATUS_PARAM_FAILED,
        ⟨true, [wpa_reply.text "OK\n".toList, wpa_reply.text "OK\n".toList,
          wpa_reply.text "OK\n".toList], []⟩)
    ∧ "\"abcde\"".toList.head? = some '"'
    ∧ "\"abcde\"".toList.length - 2 = 5 := by
  decide

/-- Witness of C19: the WEP mode in station operation; the key `"abcde"` is sent, the key
`"abcd"` is refused. -/
theorem slsi_set_security_passphrase_witness :
    (0 < wpa_config.REQUEST_RETRY_COUNT
      ∧ slsi_classify_reply ("OK\n".toList.take (wpa_config.WPA_BUFFER_SIZE - 1))
          = SLSI_STATUS_SUCCESS
      ∧ wpa_config.WPA_COMMAND_SET_NETWORK ≠ [] ∧ 2 ≤ wpa_config.WPA_COMMAND_MAX_SIZE
      ∧ wpa_config.SLSI_SEC_MODE_WEP ≠ wpa_config.SLSI_SEC_MODE_OPEN)
    ∧ (∃ pre : List CStr, ∀ pass : CStr, pass ≠ [] →
        (fun r : slsi_status × Channel => (r.1, r.2.sent))
            (slsi_set_security wpa_config SLSI_WIFI_STATION_IF
              (some ⟨wpa_config.SLSI_SEC_MODE_WEP, pass⟩) "0".toList
              ⟨true, wpa_reply.text "OK\n".toList :: wpa_reply.text "OK\n".toList
                :: wpa_reply.text "OK\n".toList :: [], []⟩)
          = if (if pass.head? = some '"' then 5 + 2 ≤ pass.length ∧ pass.length ≤ 13 + 2
                else 10 ≤ pass.length ∧ pass.length ≤ 26) then
              (SLSI_STATUS_SUCCESS, [] ++ pre ++ [snprintf wpa_config.WPA_COMMAND_MAX_SIZE
                (wpa_config.WPA_COMMAND_SET_NETWORK ++ "0".toList ++ [' ']
                  ++ wpa_config.WPA_PARAM_WEPKEY ++ pass)])
            else (SLSI_STATUS_PARAM_FAILED, [] ++ pre))
    ∧ (fun r : slsi_status × Channel => (r.1, r.2.sent))
        (slsi_set_security wpa_config SLSI_WIFI_STATION_IF
          (some ⟨wpa_config.SLSI_SEC_MODE_WEP, "\"abcde\"".toList⟩) "0".toList
          ⟨true, [wpa_reply.text "OK\n".toList, wpa_reply.text "OK\n".toList,
            wpa_reply.text "OK\n".toList], []⟩)
      = (SLSI_STATUS_SUCCESS, ["SET_NETWORK 0 key_mgmt NONE".toList,
          "SET_NETWORK 0 auth_alg OPEN".toList, "SET_NETWORK 0 wep_key0 \"abcde\"".toList])
    ∧ (fun r : slsi_status × Channel => (r.1, r.2.sent))
        (slsi_set_security wpa_config SLSI_WIFI_STATION_IF
          (some ⟨wpa_config.SLSI_SEC_MODE_WEP, "\"abcd\"".toList⟩) "0".toList
          ⟨true, [wpa_reply.text "OK\n".toList, wpa_reply.text "OK\n".toList,
            wpa_reply.text "OK\n".toList], []⟩)
      = (SLSI_STATUS_PARAM_FAILED, ["SET_NETWORK 0 key_mgmt NONE".toList,
          "SET_NETWORK 0 auth_alg OPEN".toList]) :=
  ⟨⟨by decide, by decide, by decide, by decide, by decide⟩,
    (slsi_set_security_passphrase wpa_config SLSI_WIFI_STATION_IF wpa_config.SLSI_SEC_MODE_WEP
      "0".toList "OK\n".toList [] [] (by decide) (by decide) (by decide) (by decide)
      (by decide)).1 (Or.inl rfl) (by decide),
    by decide, by decide⟩

/-! ## Persisted configuration -/

/-- A block with the marker is left as it is. -/
theorem slsi_init_nvram_kept (k : Config) (f : Flash) (d : Driver) (hr : f.read_ok = true)
    (hm : f.record.initialized.take 4 = "SLSI".toList) : (slsi_init_nvram k f d).1 = f := by
  unfold slsi_init_nvram up_wlan_read_config
  rw [if_pos hr]
  dsimp only
  rw [if_neg (fun h => h hm)]

/-- C20: when the read succeeds and the marker of the persisted record is `SLSI`,
`slsi_init_nvram` leaves the block as it is (no erase, no write), so a country code and a tx
power stored with the marker are kept; when the marker is anything else and the write
succeeds, the block is erased once and written once with the marker `SLSI`, the default
country code and the default tx power.  Hence, reads and writes succeeding, a second
`slsi_init_nvram` leaves the record of the first. -/
theorem slsi_init_nvram_marker (k : Config) (f : Flash) (d : Driver)
    (hr : f.read_ok = true) :
    (f.record.initialized.take 4 = "SLSI".toList → (slsi_init_nvram k f d).1 = f)
    ∧ (f.record.initialized.take 4 ≠ "SLSI".toList → f.write_ok = true →
        (slsi_init_nvram k f d).1
          = { f with
              record := ⟨"SLSI".toList, k.SLSI_WIFI_NV_DEFAULT_COUNTRY_CODE.take 2,
                k.SLSI_WIFI_NV_DEFAULT_TX_POWER % 256⟩
              erases := f.erases + 1
              writes := f.writes + 1 })
    ∧ (f.write_ok = true →
        (slsi_init_nvram k (slsi_init_nvram k f d).1 (slsi_init_nvram k f d).2).1
          = (slsi_init_nvram k f d).1) := by
  have h2 : f.record.initialized.take 4 ≠ "SLSI".toList → f.write_ok = true →
      (slsi_init_nvram k f d).1
        = { f with
            record := ⟨"SLSI".toList, k.SLSI_WIFI_NV_DEFAULT_COUNTRY_CODE.take 2,
              k.SLSI_WIFI_NV_DEFAULT_TX_POWER % 256⟩
            erases := f.erases + 1
            writes := f.writes + 1 } := by
    intro hm hw
    unfold slsi_init_nvram up_wlan_read_config
    rw [if_pos hr]
    dsimp only
    rw [if_pos hm]
    unfold up_wlan_write_config up_wlan_erase_config
    dsimp only
    rw [if_pos hw]
  refine ⟨fun hm => slsi_init_nvram_kept k f d hr hm, h2, fun hw => ?_⟩
  by_cases hm : f.record.initialized.take 4 = "SLSI".toList
  · rw [slsi_init_nvram_kept k f d hr hm]
    exact slsi_init_nvram_kept k f _ hr hm
  · rw [h2 hm hw]
    exact slsi_init_nvram_kept k _ _ hr rfl

/-- Witness of C20: a block that was never written is initialised with the defaults; a block
that holds the marker with country code `KR` and tx power 20 is left as it is. -/
theorem slsi_init_nvram_marker_witness :
    (({ record := ⟨[], [], 255⟩, erased := ⟨[], [], 255⟩ } : Flash).read_ok = true)
    ∧ (slsi_init_nvram wpa_config { record := ⟨[], [], 255⟩, erased := ⟨[], [], 255⟩ } {}).1
        = { record := ⟨"SLSI".toList, "00".toList, 30⟩, erased := ⟨[], [], 255⟩,
            erases := 1, writes := 1 }
    ∧ (slsi_init_nvram wpa_config
          { record := ⟨"SLSI".toList, "KR".toList, 20⟩, erased := ⟨[], [], 255⟩ } {}).1
        = { record := ⟨"SLSI".toList, "KR".toList, 20⟩, erased := ⟨[], [], 255⟩ } :=
  ⟨rfl,
    (slsi_init_nvram_marker wpa_config { record := ⟨[], [], 255⟩, erased := ⟨[], [], 255⟩ } {}
      rfl).2.1 (by decide) rfl,
    (slsi_init_nvram_marker wpa_config
      { record := ⟨"SLSI".toList, "KR".toList, 20⟩, erased := ⟨[], [], 255⟩ } {} rfl).1
      (by decide)⟩

/-! ## Soft AP start: theorems -/

/-- C23: when `sigprocmask` succeeds, `sigset(sig, SIG_HOLD)` adds `sig` to the signal mask and
leaves every disposition and every other mask bit as it was; for `func` other than `SIG_HOLD`
(and `SIG_ERR`), when `signal` and `sigprocmask` succeed, `sigset(sig, func)` sets the
disposition of `sig` to `func` and removes `sig` from the mask, every other disposition and
mask bit as it was. -/
theorem sigset_effect (sig : Nat) (func : sa_handler_t) (t : SigTask)
    (hp : t.sigprocmask_ok = true) :
    ((sigset sig sa_handler_t.SIG_HOLD t).2.sigprocmask sig = true
      ∧ (∀ s, s ≠ sig → (sigset sig sa_handler_t.SIG_HOLD t).2.sigprocmask s = t.sigprocmask s)
      ∧ (∀ s, (sigset sig sa_handler_t.SIG_HOLD t).2.sigactions s = t.sigactions s))
    ∧ (func ≠ sa_handler_t.SIG_HOLD → func ≠ sa_handler_t.SIG_ERR → t.signal_ok = true →
        (sigset sig func t).1 ≠ sa_handler_t.SIG_ERR →
        (sigset sig func t).2.sigactions sig = func
        ∧ (sigset sig func t).2.sigprocmask sig = false
        ∧ (∀ s, s ≠ sig → (sigset sig func t).2.sigprocmask s = t.sigprocmask s)
        ∧ (∀ s, s ≠ sig → (sigset sig func t).2.sigactions s = t.sigactions s)) := by
  constructor
  · simp only [sigset, sigprocmask, hp, if_true]
    refine ⟨by simp, fun s hne => by simp [hne], ?_⟩
    simp
  · intro h1 h2 hs hok
    have hsig : signal sig func t
        = (t.sigactions sig,
            { t with sigactions := fun s => if s = sig then func else t.sigactions s }) := by
      simp [signal, hs]
    have hmask : ∀ u : SigTask, u.sigprocmask_ok = true →
        sigprocmask sigprocmask_how.SIG_UNBLOCK (fun s => decide (s = sig)) u
          = (0, { u with sigprocmask := fun s => u.sigprocmask s && !decide (s = sig) }) := by
      intro u hu
      simp [sigprocmask, hu]
    unfold sigset at hok ⊢
    rw [if_neg h1] at hok ⊢
    simp only [hsig] at hok ⊢
    by_cases he : t.sigactions sig = sa_handler_t.SIG_ERR
    · simp [he] at hok
    · rw [if_pos he, hmask]
      · simp only [lt_self_iff_false, if_false]
        refine ⟨by simp, by simp, fun s hne => by simp [hne], fun s hne => by simp [hne]⟩
      · exact hp

/-- Witness of C23: signal 5 held, and a handler installed for the blocked signal 3. -/
theorem sigset_effect_witness :
    sample_task.sigprocmask_ok = true
    ∧ (sigset 5 sa_handler_t.SIG_HOLD sample_task).2.sigprocmask 5 = true
    ∧ (sigset 5 sa_handler_t.SIG_HOLD sample_task).2.sigactions 5 = sa_handler_t.SIG_DFL
    ∧ (sigset 3 (sa_handler_t.handler 200) sample_task).2.sigactions 3
        = sa_handler_t.handler 200
    ∧ (sigset 3 (sa_handler_t.handler 200) sample_task).2.sigprocmask 3 = false :=
  have h := sigset_effect 3 (sa_handler_t.handler 200) sample_task rfl
  have h5 := (sigset_effect 5 sa_handler_t.SIG_DFL sample_task rfl).1
  have h3 := h.2 (by decide) (by decide) rfl (by decide)
  ⟨rfl, h5.1, h5.2.2 5, h3.1, h3.2.1⟩

/-- C24: `sigset(5, SIG_HOLD)` on a task in which signal 5 is not blocked returns `SIG_HOLD`,
not the previous disposition `SIG_DFL`; `sigset(3, handler)` on a task in which signal 3 is
blocked returns the previous disposition, not `SIG_HOLD`. -/
theorem sigset_returned_value :
    sample_task.sigprocmask 5 = false
    ∧ sample_task.sigactions 5 = sa_handler_t.SIG_DFL
    ∧ (sigset 5 sa_handler_t.SIG_HOLD sample_task).1 = sa_handler_t.SIG_HOLD
    ∧ sample_task.sigprocmask 3 = true
    ∧ (sigset 3 (sa_handler_t.handler 200) sample_task).1 = sa_handler_t.handler 100 := by
  decide

/-! ## Hex strings: theorems -/

set_option maxRecDepth 100000 in
theorem hex2_length (b : Nat) : (hex2 b).length = 2 := by
  have h : ∀ n < 256, (hex2 n).length = 2 := by decide
  have e : hex2 b = hex2 (b % 256) := by simp [hex2]
  rw [e]
  exact h _ (Nat.mod_lt _ (by decide))

set_option maxRecDepth 100000 in
theorem hex2_upper (b : Nat) : ∀ c ∈ hex2 b, c ∈ "0123456789ABCDEF".toList := by
  have h : ∀ n < 256, ∀ c ∈ hex2 n, c ∈ "0123456789ABCDEF".toList := by decide
  have e : hex2 b = hex2 (b % 256) := by simp [hex2]
  rw [e]
  exact h _ (Nat.mod_lt _ (by decide))

set_option maxRecDepth 100000 in
theorem hex2_lower_value : ∀ n < 256,
    hex_pair_value (((hex2 n).map Char.toLower).getD 0 '\x00')
      (((hex2 n).map Char.toLower).getD 1 '\x00') = n := by
  decide

set_option maxRecDepth 100000 in
theorem hex2_value : ∀ n < 256, n / 16 ≤ 9 → n % 16 ≤ 9 →
    hex_pair_value ((hex2 n).getD 0 '\x00') ((hex2 n).getD 1 '\x00') = n := by
  decide

/-- Characters of a string made of two-character pieces. -/
theorem flatten_pairs_getD (l : List CStr) (h : ∀ c ∈ l, c.length = 2) (j : Nat)
    (hj : j < l.length) (d : Char) :
    l.flatten.getD (2 * j) d = (l.getD j []).getD 0 d
    ∧ l.flatten.getD (2 * j + 1) d = (l.getD j []).getD 1 d := by
  induction l generalizing j with
  | nil => simp at hj
  | cons c cs ih =>
    have hc : c.length = 2 := h c (List.mem_cons_self _ _)
    obtain ⟨x, y, rfl⟩ : ∃ x y, c = [x, y] := by
      match c, hc with
      | [x, y], _ => exact ⟨x, y, rfl⟩
    cases j with
    | zero => simp
    | succ j =>
      have := ih (fun c hc => h c (List.mem_cons_of_mem _ hc)) j (by simpa using hj)
      have e1 : 2 * (j + 1) = (2 * j) + 2 := by ring
      have e2 : 2 * (j + 1) + 1 = (2 * j + 1) + 2 := by ring
      simp only [List.flatten_cons, List.getD_cons_succ, e1, e2]
      simpa [List.getD_cons_succ] using this

/-- Decoding a string made of one two-character piece per byte, each piece decoding to its
byte. -/
theorem slsi_hexstr_2_bytearray_pieces (g : Nat → CStr) (b : List Nat)
    (hlen : ∀ x, (g x).length = 2)
    (hval : ∀ x ∈ b, hex_pair_value ((g x).getD 0 '\x00') ((g x).getD 1 '\x00') = x) :
    slsi_hexstr_2_bytearray (some (b.map g).flatten) (2 * b.length) = some (b, b.length) := by
  unfold slsi_hexstr_2_bytearray
  have h2 : 2 * b.length % 2 = 0 := by omega
  have h3 : 2 * b.length / 2 = b.length := by omega
  simp only [h2, ne_eq, not_true_eq_false, if_false, h3, Option.some.injEq, Prod.mk.injEq,
    and_true]
  apply List.ext_getElem
  · simp
  · intro i h1 h4
    have hi : i < b.length := h4
    obtain ⟨p0, p1⟩ := flatten_pairs_getD (b.map g)
      (fun c hc => by
        obtain ⟨x, _, rfl⟩ := List.mem_map.1 hc
        exact hlen x) i (by simpa using hi) '\x00'
    have hg : (b.map g).getD i [] = g b[i] := by
      simp [List.getD_eq_getElem?_getD, hi]
    simp only [List.getElem_map, List.getElem_range, p0, p1, hg]
    exact hval _ (List.getElem_mem _)
/-- C30 (amended): for every byte array `b`, `slsi_bytearray_2_hexstr` produces exactly
`2 * |b|` hex digits, in upper case; `slsi_hexstr_2_bytearray` applied to that string in lower
case returns `b` with the count `|b|`, and applied to the string itself it returns `b` when no
byte has a hex digit above 9; it returns no array for every input of odd length. -/
theorem slsi_bytearray_2_hexstr_decode (b : List Nat) (hb : ∀ x ∈ b, x < 256) :
    (slsi_bytearray_2_hexstr b b.length).length = 2 * b.length
    ∧ (∀ c ∈ slsi_bytearray_2_hexstr b b.length, c ∈ "0123456789ABCDEF".toList)
    ∧ slsi_hexstr_2_bytearray (some ((slsi_bytearray_2_hexstr b b.length).map Char.toLower))
        (2 * b.length) = some (b, b.length)
    ∧ ((∀ x ∈ b, x / 16 ≤ 9 ∧ x % 16 ≤ 9) →
        slsi_hexstr_2_bytearray (some (slsi_bytearray_2_hexstr b b.length)) (2 * b.length)
          = some (b, b.length))
    ∧ (∀ (str : Option CStr) (n : Nat), n % 2 = 1 → slsi_hexstr_2_bytearray str n = none) := by
  have henc : slsi_bytearray_2_hexstr b b.length = (b.map hex2).flatten := by
    simp [slsi_bytearray_2_hexstr]
  rw [henc]
  refine ⟨?_, ?_, ?_, ?_, ?_⟩
  · have : ∀ l : List Nat, (l.map hex2).flatten.length = 2 * l.length := by
      intro l
      induction l with
      | nil => rfl
      | cons x xs ih => simp [List.flatten_cons, hex2_length, ih]; ring
    exact this b
  · intro c hc
    obtain ⟨l, hl, hcl⟩ := List.mem_flatten.1 hc
    obtain ⟨x, _, rfl⟩ := List.mem_map.1 hl
    exact hex2_upper x c hcl
  · have e : (b.map hex2).flatten.map Char.toLower
        = (b.map (fun x => (hex2 x).map Char.toLower)).flatten := by
      rw [List.map_flatten, List.map_map]
      rfl
    rw [e]
    exact slsi_hexstr_2_bytearray_pieces _ b (fun x => by simp [hex2_length])
      (fun x hx => hex2_lower_value x (hb x hx))
  · intro hd
    exact slsi_hexstr_2_bytearray_pieces hex2 b hex2_length
      (fun x hx => hex2_value x (hb x hx) (hd x hx).1 (hd x hx).2)
  · intro str n hn
    cases str with
    | none => rfl
    | some s => simp [slsi_hexstr_2_bytearray, hn]

/-- Counterexample of C30: the byte `0x1A` is encoded as `1A`, which decodes to the byte
`0xFA`. -/
theorem slsi_bytearray_2_hexstr_upper_case :
    slsi_bytearray_2_hexstr [26] 1 = "1A".toList
    ∧ slsi_hexstr_2_bytearray (some (slsi_bytearray_2_hexstr [26] 1)) 2 = some ([250], 1) := by
  decide

/-- Witness of C30: the bytes `0x1A 0x05 0xAB`. -/
theorem slsi_bytearray_2_hexstr_decode_witness :
    (∀ x ∈ [26, 5, 171], x < 256)
    ∧ slsi_bytearray_2_hexstr [26, 5, 171] 3 = "1A05AB".toList
    ∧ slsi_hexstr_2_bytearray
        (some ((slsi_bytearray_2_hexstr [26, 5, 171] [26, 5, 171].length).map Char.toLower))
        (2 * [26, 5, 171].length) = some ([26, 5, 171], [26, 5, 171].length) :=
  ⟨by decide, by decide,
    (slsi_bytearray_2_hexstr_decode [26, 5, 171] (by decide)).2.2.1⟩

/-! ## Settings and queries in state NotStarted -/

/-- The persisted-record initialisation keeps the channel, the state and the block's
behaviour. -/
theorem slsi_init_nvram_frame (k : Config) (f : Flash) (d : Driver) :
    (slsi_init_nvram k f d).2.chan = d.chan
    ∧ (slsi_init_nvram k f d).2.g_state = d.g_state
    ∧ (slsi_init_nvram k f d).1.read_ok = f.read_ok
    ∧ (slsi_init_nvram k f d).1.write_ok = f.write_ok := by
  unfold slsi_init_nvram up_wlan_read_config up_wlan_write_config up_wlan_erase_config
  by_cases hr : f.read_ok = true
  · rw [if_pos hr]
    dsimp only
    by_cases hm : f.record.initialized.take 4 ≠ "SLSI".toList
    · rw [if_pos hm]
      by_cases hw : f.write_ok = true
      · rw [if_pos hw]
        refine ⟨?_, ?_, rfl, rfl⟩ <;> split <;> rfl
      · rw [if_neg hw]
        refine ⟨?_, ?_, rfl, rfl⟩ <;> split <;> rfl
    · rw [if_neg hm]
      refine ⟨?_, ?_, rfl, rfl⟩ <;> split <;> rfl
  · rw [if_neg hr]
    dsimp only
    refine ⟨?_, ?_, rfl, rfl⟩ <;> split <;> rfl

/-- The state in which an entry point runs its body when called in state NotStarted with no
recovery under way, after `LEAVE_CRITICAL`. -/
theorem LEAVE_CRITICAL_frame (d : Driver) :
    (LEAVE_CRITICAL d).chan = d.chan ∧ (LEAVE_CRITICAL d).g_state = d.g_state := by
  unfold LEAVE_CRITICAL
  split <;> exact ⟨rfl, rfl⟩
/-- With the supplicant left out, `slsi_set_tx_power` in state NotStarted sends nothing, never
answers NotStarted, and writes an accepted value to the record. -/
theorem slsi_set_tx_power_nvram_only (k : Config) (dbm : Nat) (f : Flash) (d : Driver)
    (hs : d.g_state = SLSI_WIFIAPI_STATE_NOT_STARTED) :
    (slsi_set_tx_power k dbm true false f d).2.2.chan = d.chan
    ∧ (slsi_set_tx_power k dbm true false f d).2.2.g_state = d.g_state
    ∧ (slsi_set_tx_power k dbm true false f d).1 ≠ SLSI_STATUS_NOT_STARTED
    ∧ (12 ≤ dbm → dbm ≤ 30 → f.read_ok = true → f.write_ok = true →
        (slsi_set_tx_power k dbm true false f d).1 = SLSI_STATUS_SUCCESS
        ∧ (slsi_set_tx_power k dbm true false f d).2.1.record.tx_power = dbm) := by
  obtain ⟨hc, hg, hr, hw⟩ := slsi_init_nvram_frame k f d
  unfold slsi_set_tx_power
  by_cases hb : dbm > 30 ∨ dbm < 12
  · rw [if_pos hb]
    refine ⟨rfl, rfl, by simp, fun h1 h2 => ?_⟩
    omega
  · rw [if_neg hb]
    simp only [Bool.false_eq_true, if_false, if_true]
    unfold up_wlan_read_config up_wlan_write_config up_wlan_erase_config
    rw [hr]
    by_cases hfr : f.read_ok = true
    · rw [if_pos hfr]
      dsimp only
      rw [hw]
      by_cases hfw : f.write_ok = true
      · rw [if_pos hfw]
        simp [hc, hg, hs]
      · rw [if_neg hfw]
        simp [hc, hg, hs, hfw]
    · rw [if_neg hfr]
      simp [hc, hg, hs, hfr]

/-- With the driver left out, `slsi_set_country_code` in state NotStarted sends nothing, never
answers NotStarted, and writes the country code to the record. -/
theorem slsi_set_country_code_nvram_only (k : Config) (cc : CStr) (f : Flash) (d : Driver)
    (hs : d.g_state = SLSI_WIFIAPI_STATE_NOT_STARTED) :
    (slsi_set_country_code k cc true false f d).2.2.chan = d.chan
    ∧ (slsi_set_country_code k cc true false f d).2.2.g_state = d.g_state
    ∧ (slsi_set_country_code k cc true false f d).1 ≠ SLSI_STATUS_NOT_STARTED
    ∧ (f.read_ok = true → f.write_ok = true →
        (slsi_set_country_code k cc true false f d).1 = SLSI_STATUS_SUCCESS
        ∧ (slsi_set_country_code k cc true false f d).2.1.record.country_code = cc.take 2) := by
  obtain ⟨hc, hg, hr, hw⟩ := slsi_init_nvram_frame k f d
  unfold slsi_set_country_code
  generalize slsi_init_nvram k f d = i at hc hg hr hw ⊢
  obtain ⟨i1, i2⟩ := i
  simp only at hc hg hr hw
  unfold up_wlan_read_config up_wlan_write_config up_wlan_erase_config
  simp only [Bool.false_eq_true, if_false, if_true, hr, hw, hg, hs]
  cases hfr : f.read_ok <;> cases hfw : f.write_ok <;> cases hn : i2.g_nvram <;>
    simp [hc, hg, hs]

/-- C22 (amended): called in state NotStarted with non-null arguments and no recovery under
way, `WiFiGetTxPower`, `WiFiGetMac`, `WiFiGetRssi`, `WiFiGetChannel`, `WiFiGetCountryCode` and
`WiFiIsConnected` return NotStarted, `WiFiSaveConfig` returns NotStarted when built with
file-system support and NotSupported otherwise, and none of them sends a command or touches
the persisted record; `WiFiSetTxPower` and `WiFiSetCountryCode` send no command either, but
never return NotStarted: they write the value to the persisted record and return Success when
the value is accepted and the block can be read and written. -/
theorem WiFi_not_started (k : Config) (g1 : nv_helper) (g2 g3 g4 g5 : sup_helper)
    (details : Option slsi_reason_t) (f : Flash) (d : Driver)
    (hs : d.g_state = SLSI_WIFIAPI_STATE_NOT_STARTED) (hr : d.g_recovering = false) :
    (∃ e : Driver, e.chan = d.chan ∧ e.g_state = SLSI_WIFIAPI_STATE_NOT_STARTED
      ∧ WiFiGetTxPower k g1 true f d = some (SLSI_STATUS_NOT_STARTED, f, e)
      ∧ WiFiGetMac k g2 true d = some (SLSI_STATUS_NOT_STARTED, e)
      ∧ WiFiGetRssi k g3 true d = some (SLSI_STATUS_NOT_STARTED, e)
      ∧ WiFiGetChannel k g4 true d = some (SLSI_STATUS_NOT_STARTED, e)
      ∧ WiFiGetCountryCode k f d = some (SLSI_STATUS_NOT_STARTED, none, f, e)
      ∧ WiFiIsConnected k details d
          = some (SLSI_STATUS_NOT_STARTED, 0, details.map (fun _ => {}), e)
      ∧ WiFiSaveConfig k g5 d
          = some (if k.CONFIG_SLSI_WIFI_FILESYSTEM_SUPPORT then (SLSI_STATUS_NOT_STARTED, e)
                  else (SLSI_STATUS_NOT_SUPPORTED, d)))
    ∧ (∀ dbm : Nat, ∃ r, WiFiSetTxPower k (some dbm) f d = some r
        ∧ r.2.2.chan = d.chan ∧ r.2.2.g_state = SLSI_WIFIAPI_STATE_NOT_STARTED
        ∧ r.1 ≠ SLSI_STATUS_NOT_STARTED
        ∧ (12 ≤ dbm → dbm ≤ 30 → f.read_ok = true → f.write_ok = true →
            r.1 = SLSI_STATUS_SUCCESS ∧ r.2.1.record.tx_power = dbm))
    ∧ (∀ cc : CStr, ∃ r, WiFiSetCountryCode k (some cc) f d = some r
        ∧ r.2.2.chan = d.chan ∧ r.2.2.g_state = SLSI_WIFIAPI_STATE_NOT_STARTED
        ∧ r.1 ≠ SLSI_STATUS_NOT_STARTED
        ∧ (f.read_ok = true → f.write_ok = true →
            r.1 = SLSI_STATUS_SUCCESS ∧ r.2.1.record.country_code = cc.take 2)) := by
  have he := ENTER_CRITICAL_idle k d (by rw [hs]; decide) hr
  have hm : slsi_get_op_mode k.CONFIG_SLSI_WIFI_P2P_API SLSI_WIFIAPI_STATE_NOT_STARTED
      ≠ SLSI_WIFI_STATION_IF := by
    cases k.CONFIG_SLSI_WIFI_P2P_API <;> decide
  refine ⟨⟨LEAVE_CRITICAL
    { d with g_mutex_initialized := true, sync_log := d.sync_log ++ [sync_op.lock] },
    ?_, ?_, ?_, ?_, ?_, ?_, ?_, ?_, ?_⟩, ?_, ?_⟩
  · exact (LEAVE_CRITICAL_frame _).1
  · exact (LEAVE_CRITICAL_frame _).2.trans hs
  · unfold WiFiGetTxPower
    rw [he]
    simp [hs]
  · unfold WiFiGetMac
    rw [he]
    simp [hs]
  · unfold WiFiGetRssi
    rw [he]
    simp [hs]
  · unfold WiFiGetChannel
    rw [he]
    simp [hs]
  · unfold WiFiGetCountryCode
    rw [he]
    simp [hs]
  · unfold WiFiIsConnected
    rw [he]
    simp [hs]
  · unfold WiFiSaveConfig
    rw [he]
    cases k.CONFIG_SLSI_WIFI_FILESYSTEM_SUPPORT
    · simp
    · simp [hs, hm]
  · intro dbm
    unfold WiFiSetTxPower
    rw [he]
    dsimp only
    rw [if_neg (by simp [hs])]
    obtain ⟨h1, h2, h3, h4⟩ := slsi_set_tx_power_nvram_only k dbm f
      { d with g_mutex_initialized := true, sync_log := d.sync_log ++ [sync_op.lock] } hs
    refine ⟨_, rfl, ?_, ?_, h3, h4⟩
    · exact (LEAVE_CRITICAL_frame _).1.trans h1
    · exact (LEAVE_CRITICAL_frame _).2.trans (h2.trans hs)
  · intro cc
    unfold WiFiSetCountryCode
    rw [he]
    dsimp only
    rw [if_neg (by rw [hs]; exact hm)]
    obtain ⟨h1, h2, h3, h4⟩ := slsi_set_country_code_nvram_only k cc f
      { d with g_mutex_initialized := true, sync_log := d.sync_log ++ [sync_op.lock] } hs
    refine ⟨_, rfl, ?_, ?_, h3, h4⟩
    · exact (LEAVE_CRITICAL_frame _).1.trans h1
    · exact (LEAVE_CRITICAL_frame _).2.trans (h2.trans hs)

/-- C22 (amended), at an idle driver with the concrete configuration, helpers that would
answer Success, and a block holding country code `KR` and tx power 20. -/
theorem WiFi_not_started_witness :
    ({} : Driver).g_state = SLSI_WIFIAPI_STATE_NOT_STARTED ∧ ({} : Driver).g_recovering = false
    ∧ (∃ r, WiFiSetTxPower wpa_config (some 12) initialised_flash {} = some r
        ∧ r.2.2.chan = ({} : Driver).chan ∧ r.2.2.g_state = SLSI_WIFIAPI_STATE_NOT_STARTED
        ∧ r.1 ≠ SLSI_STATUS_NOT_STARTED
        ∧ (12 ≤ 12 → 12 ≤ 30 → initialised_flash.read_ok = true →
            initialised_flash.write_ok = true →
            r.1 = SLSI_STATUS_SUCCESS ∧ r.2.1.record.tx_power = 12))
    ∧ WiFiGetMac wpa_config (fun d => (SLSI_STATUS_SUCCESS, d)) true {}
        = some (SLSI_STATUS_NOT_STARTED,
            { g_mutex_initialized := true, sync_log := [sync_op.lock, sync_op.unlock] }) :=
  ⟨rfl, rfl,
    (WiFi_not_started wpa_config (fun f d => (SLSI_STATUS_SUCCESS, f, d))
      (fun d => (SLSI_STATUS_SUCCESS, d)) (fun d => (SLSI_STATUS_SUCCESS, d))
      (fun d => (SLSI_STATUS_SUCCESS, d)) (fun d => (SLSI_STATUS_SUCCESS, d)) none
      initialised_flash {} rfl rfl).2.1 12,
    by decide⟩

/-- C22, as stated, fails for `WiFiSetTxPower`: called in state NotStarted with the value 12 on
a block that holds tx power 20, it returns Success and the persisted record holds 12 (it is
erased and written once), with no command sent. -/
theorem WiFiSetTxPower_not_started_writes :
    WiFiSetTxPower wpa_config (some 12) initialised_flash {}
      = some (SLSI_STATUS_SUCCESS,
          { record := ⟨"SLSI".toList, "KR".toList, 12⟩, erased := ⟨[], [], 255⟩,
            erases := 1, writes := 1 },
          { g_mutex_initialized := true, sync_log := [sync_op.lock, sync_op.unlock] })
    ∧ initialised_flash.record = ⟨"SLSI".toList, "KR".toList, 20⟩
    ∧ WiFiSetCountryCode wpa_config (some "DK".toList) initialised_flash {}
      = some (SLSI_STATUS_SUCCESS,
          { record := ⟨"SLSI".toList, "DK".toList, 20⟩, erased := ⟨[], [], 255⟩,
            erases := 1, writes := 1 },
          { g_mutex_initialized := true, g_country_code := "DK".toList,
            sync_log := [sync_op.lock, sync_op.unlock] }) := by
  decide

/-! ## Security configuration without a key -/

/-- C28, failing input: a WPA2 (CCMP) security configuration with an empty passphrase, every
command acknowledged.  `slsi_set_security` returns Success, in soft-AP and in station
operation, and the commands sent are the protocol, cipher, key-management and
authentication-algorithm ones: no key command is among them.  The same holds for WEP in
station operation. -/
theorem slsi_set_security_key_missing :
    (fun r : slsi_status × Channel => (r.1, r.2.sent))
        (slsi_set_security wpa_config SLSI_WIFI_SOFT_AP_IF
          (some ⟨wpa_config.SLSI_SEC_MODE_WPA2_CCMP, []⟩) "0".toList
          ⟨true, List.replicate 5 (wpa_reply.text "OK\n".toList), []⟩)
      = (SLSI_STATUS_SUCCESS, ["SET_NETWORK 0 proto RSN".toList,
          "SET_NETWORK 0 pairwise CCMP".toList, "SET_NETWORK 0 group CCMP".toList,
          "SET_NETWORK 0 key_mgmt WPA-PSK".toList, "SET_NETWORK 0 auth_alg OPEN".toList])
    ∧ (fun r : slsi_status × Channel => (r.1, r.2.sent))
        (slsi_set_security wpa_config SLSI_WIFI_STATION_IF
          (some ⟨wpa_config.SLSI_SEC_MODE_WPA2_CCMP, []⟩) "0".toList
          ⟨true, List.replicate 4 (wpa_reply.text "OK\n".toList), []⟩)
      = (SLSI_STATUS_SUCCESS, ["SET_NETWORK 0 proto RSN".toList,
          "SET_NETWORK 0 pairwise CCMP".toList,
          "SET_NETWORK 0 key_mgmt WPA-PSK".toList, "SET_NETWORK 0 auth_alg OPEN".toList])
    ∧ (fun r : slsi_status × Channel => (r.1, r.2.sent))
        (slsi_set_security wpa_config SLSI_WIFI_STATION_IF
          (some ⟨wpa_config.SLSI_SEC_MODE_WEP, []⟩) "0".toList
          ⟨true, List.replicate 2 (wpa_reply.text "OK\n".toList), []⟩)
      = (SLSI_STATUS_SUCCESS, ["SET_NETWORK 0 key_mgmt NONE".toList,
          "SET_NETWORK 0 auth_alg OPEN".toList]) := by
  decide

/-! ## Network lookup by SSID -/

/-- C29, failing input: the list holds network 0 with SSID `homewifi` and network 1 with SSID
`home`.  Asked for `home`, `slsi_get_network` returns Success with id `0`, the network whose
SSID only starts with the requested one; asked for `wifi` on a list holding `homewifi` (id 0)
and `wifi` (id 1), it finds the text inside the first SSID, sees no newline before it and
returns Error, although network 1 matches exactly. -/
theorem slsi_get_network_substring :
    (fun r : slsi_status × Option CStr × Channel => (r.1, r.2.1))
        (slsi_get_network wpa_config "home".toList 4
          ⟨true, [wpa_reply.text ("network id / ssid / bssid / flags\n"
            ++ "0\thomewifi\tany\t[DISABLED]\n1\thome\tany\t[CURRENT]\n").toList], []⟩)
      = (SLSI_STATUS_SUCCESS, some "0".toList)
    ∧ (fun r : slsi_status × Option CStr × Channel => (r.1, r.2.1))
        (slsi_get_network wpa_config "wifi".toList 4
          ⟨true, [wpa_reply.text ("network id / ssid / bssid / flags\n"
            ++ "0\thomewifi\tany\t[DISABLED]\n1\twifi\tany\t[CURRENT]\n").toList], []⟩)
      = (SLSI_STATUS_ERROR, none) := by
  decide

/-! ## Waits under the mutex -/

/-- C25 (amended): called on a connected driver (no recovery under way) whose supplicant
acknowledges `DISCONNECT`, `WiFiNetworkLeave` enters the wait on the disconnect semaphore in a
state whose last synchronisation operation is the lock taken by `ENTER_CRITICAL`; its result is
Success with `LEAVE_CRITICAL` applied to the state in which that wait returned, and it does not
return when the wait does not.  `WiFiStop` called in state StaConnected does not return either
when the wait entered in that state does not return. -/
theorem WiFiNetworkLeave_waits_locked (k : Config) (d : Driver)
    (hc : slsi_is_connected d = true) (hr : d.g_recovering = false)
    (hl : (slsi_leave_network k d.chan).1 = SLSI_STATUS_SUCCESS) :
    ∃ d1 : Driver, d1.sync_log = d.sync_log ++ [sync_op.lock]
      ∧ WiFiNetworkLeave k d
          = (sem_wait k g_sem_disconnect d1).map
              (fun d2 => (SLSI_STATUS_SUCCESS, LEAVE_CRITICAL d2))
      ∧ (d.g_state = SLSI_WIFIAPI_STATE_STA_CONNECTED →
          sem_wait k g_sem_disconnect d1 = none → WiFiStop k d = none) := by
  have hs : d.g_state = SLSI_WIFIAPI_STATE_STA_CONNECTED
      ∨ d.g_state = SLSI_WIFIAPI_STATE_AP_CONNECTED := by
    unfold slsi_is_connected at hc
    by_contra hn
    rw [if_neg hn] at hc
    cases hc
  have hne : d.g_state ≠ SLSI_WIFIAPI_STATE_RECOVERING := by
    rcases hs with h | h <;> rw [h] <;> decide
  have hns : d.g_state ≠ SLSI_WIFIAPI_STATE_NOT_STARTED := by
    rcases hs with h | h <;> rw [h] <;> decide
  have he := ENTER_CRITICAL_idle k d hne hr
  refine ⟨{ d with g_mutex_initialized := true, sync_log := d.sync_log ++ [sync_op.lock],
                   g_state := SLSI_WIFIAPI_STATE_STA_DISCONNECTING,
                   chan := (slsi_leave_network k d.chan).2 }, rfl, ?_, ?_⟩
  · unfold WiFiNetworkLeave
    rw [he]
    dsimp only
    rw [if_pos hns, if_pos (by simpa [slsi_is_connected] using hs), if_pos hl, hl]
    cases sem_wait k g_sem_disconnect _ <;> rfl
  · intro hst hw
    unfold WiFiStop
    rw [if_neg hns, he]
    dsimp only
    unfold WiFiStop_mode
    dsimp only
    rw [if_pos hst, if_pos hl, hw]

/-- Witness of C25 (amended): a connected station whose supplicant acknowledges `DISCONNECT`. -/
theorem WiFiNetworkLeave_waits_locked_witness :
    (slsi_is_connected leaving_driver = true ∧ leaving_driver.g_recovering = false
      ∧ (slsi_leave_network wpa_config leaving_driver.chan).1 = SLSI_STATUS_SUCCESS)
    ∧ ∃ d1 : Driver, d1.sync_log = leaving_driver.sync_log ++ [sync_op.lock]
      ∧ WiFiNetworkLeave wpa_config leaving_driver
          = (sem_wait wpa_config g_sem_disconnect d1).map
              (fun d2 => (SLSI_STATUS_SUCCESS, LEAVE_CRITICAL d2))
      ∧ (leaving_driver.g_state = SLSI_WIFIAPI_STATE_STA_CONNECTED →
          sem_wait wpa_config g_sem_disconnect d1 = none →
          WiFiStop wpa_config leaving_driver = none) :=
  ⟨⟨by decide, by decide, by decide⟩,
    WiFiNetworkLeave_waits_locked wpa_config leaving_driver (by decide) (by decide)
      (by decide)⟩

/-- C25, as stated, fails: on a connected station whose supplicant acknowledges every command
and reports the disconnection and the termination, `WiFiNetworkLeave` locks the mutex, waits on
the disconnect semaphore and only then unlocks; `WiFiStop` does the same and later waits on the
terminate semaphore under the lock it took again; on a soft AP `WiFiStop` waits on the AP-mode
semaphore under the lock. -/
theorem WiFiNetworkLeave_lock_held :
    (WiFiNetworkLeave wpa_config leaving_driver).map (fun r => (r.1, r.2.sync_log))
      = some (SLSI_STATUS_SUCCESS,
          [sync_op.lock, sync_op.wait g_sem_disconnect, sync_op.post g_sem_disconnect,
            sync_op.unlock])
    ∧ (WiFiNetworkLeave wpa_config leaving_driver).map
        (fun r => waits_while_locked false r.2.sync_log) = some [g_sem_disconnect]
    ∧ (WiFiStop wpa_config leaving_driver).map
        (fun r => (r.1, r.2.sync_log.take 6, waits_while_locked false r.2.sync_log))
      = some (SLSI_STATUS_SUCCESS,
          [sync_op.lock, sync_op.wait g_sem_disconnect, sync_op.post g_sem_disconnect,
            sync_op.post g_sem_disconnect, sync_op.unlock, sync_op.lock],
          [g_sem_disconnect, g_sem_terminate])
    ∧ (WiFiStop wpa_config
          { ap_connected_driver (List.replicate 3 (wpa_reply.text "OK\n".toList)) with
            events := ["<3>AP-DISABLED ".toList, "<3>CTRL-EVENT-TERMINATING ".toList] }).map
        (fun r => (r.1, r.2.sync_log.take 5, waits_while_locked false r.2.sync_log))
      = some (SLSI_STATUS_SUCCESS,
          [sync_op.lock, sync_op.wait g_sem_ap_mode, sync_op.post g_sem_ap_mode,
            sync_op.post g_sem_disconnect, sync_op.unlock],
          [g_sem_ap_mode, g_sem_terminate]) := by
  decide

/-! ## Connected-station count -/

theorem sem_post_ap (s : sem_id) (d : Driver) :
    (sem_post s d).g_state = d.g_state
    ∧ (sem_post s d).g_num_sta_connected = d.g_num_sta_connected := by
  unfold sem_post
  cases s <;> exact ⟨rfl, rfl⟩

theorem slsi_send_mqueue_ap (e : slsi_callback_t) (m : Option slsi_reason_t) (d : Driver) :
    (slsi_send_mqueue e m d).2.g_state = d.g_state
    ∧ (slsi_send_mqueue e m d).2.g_num_sta_connected = d.g_num_sta_connected := by
  unfold slsi_send_mqueue
  split <;> exact ⟨rfl, rfl⟩

theorem slsi_scan_event_handler_ap (k : Config) (str event : CStr) (d : Driver) :
    (slsi_scan_event_handler k str event d).g_state = d.g_state
    ∧ (slsi_scan_event_handler k str event d).g_num_sta_connected = d.g_num_sta_connected := by
  unfold slsi_scan_event_handler slsi_send_mqueue
  split
  · split
    · dsimp only
      split <;> split <;> simp_all
    · simp
  · simp

theorem slsi_monitor_sta_connecting_event_ap (k : Config) (ev : CStr) (d : Driver) :
    (slsi_monitor_sta_connecting_event k ev d).2.2.g_state = SLSI_WIFIAPI_STATE_STA_CONNECTED
    ∨ (slsi_monitor_sta_connecting_event k ev d).2.2.g_state = d.g_state := by
  unfold slsi_monitor_sta_connecting_event
  repeat' split
  all_goals first | exact Or.inl rfl | exact Or.inr rfl
/-- Outside the states ApEnabled and ApConnected the monitor switch does not enter
ApConnected. -/
theorem slsi_monitor_switch_not_ap_connected (k : Config) (ev : CStr) (d : Driver)
    (h1 : d.g_state ≠ SLSI_WIFIAPI_STATE_AP_ENABLED)
    (h2 : d.g_state ≠ SLSI_WIFIAPI_STATE_AP_CONNECTED) :
    (slsi_monitor_switch k ev d).g_state ≠ SLSI_WIFIAPI_STATE_AP_CONNECTED := by
  unfold slsi_monitor_switch
  have hc := slsi_monitor_sta_connecting_event_ap k ev d
  cases hs : d.g_state
  case SLSI_WIFIAPI_STATE_AP_ENABLED => exact absurd hs h1
  case SLSI_WIFIAPI_STATE_AP_CONNECTED => exact absurd hs h2
  all_goals dsimp only
  all_goals repeat' split
  all_goals try rw [(slsi_send_mqueue_ap _ _ _).1]
  all_goals try rw [(sem_post_ap _ _).1]
  all_goals try dsimp only
  all_goals try rw [hs]
  all_goals try exact fun hx => slsi_api_states_t.noConfusion hx
  all_goals rw [hs] at hc
  all_goals rcases hc with hc | hc <;> rw [hc] <;> exact fun hx => slsi_api_states_t.noConfusion hx
/-- The monitor switch keeps the count at 1 in state ApConnected. -/
theorem slsi_monitor_switch_count (k : Config) (ev : CStr) (d : Driver)
    (h : ap_connected_count d) : ap_connected_count (slsi_monitor_switch k ev d) := by
  unfold ap_connected_count at h ⊢
  by_cases h1 : d.g_state = SLSI_WIFIAPI_STATE_AP_ENABLED
  · cases he : slsi_event_received ev k.AP_STA_CONNECTED
    · have : slsi_monitor_switch k ev d = d := by
        unfold slsi_monitor_switch
        rw [h1]
        simp [he]
      rw [this]
      exact h
    · obtain ⟨a, b⟩ := slsi_monitor_switch_ap_enabled k ev d h1 he
      rw [a, b]
      intro hx
      by_contra hn
      rw [if_neg hn] at hx
      cases hx
  · by_cases h2 : d.g_state = SLSI_WIFIAPI_STATE_AP_CONNECTED
    · cases he : slsi_event_received ev k.AP_STA_DISCONNECTED
      · have : slsi_monitor_switch k ev d = d := by
          unfold slsi_monitor_switch
          rw [h2]
          simp [he]
        rw [this]
        exact h
      · obtain ⟨a, b⟩ := slsi_monitor_switch_ap_connected k ev d h2 he
        rw [a, b, h h2]
        intro hx
        simp at hx
    · intro hx
      exact absurd hx (slsi_monitor_switch_not_ap_connected k ev d h1 h2)
theorem slsi_recovery_handler_ap (k : Config) (ev : CStr) (d : Driver) :
    ((slsi_recovery_handler k ev d).1 = false ∧ (slsi_recovery_handler k ev d).2 = d)
    ∨ ((slsi_recovery_handler k ev d).1 = true
        ∧ (slsi_recovery_handler k ev d).2.g_state = SLSI_WIFIAPI_STATE_RECOVERING) := by
  unfold slsi_recovery_handler
  split
  · exact Or.inr ⟨rfl, rfl⟩
  · exact Or.inl ⟨rfl, rfl⟩

theorem ap_connected_count_of_state (d e : Driver) (hs : e.g_state = d.g_state)
    (hc : e.g_num_sta_connected = d.g_num_sta_connected) (h : ap_connected_count d) :
    ap_connected_count e := by
  unfold ap_connected_count at h ⊢
  rw [hs, hc]
  exact h

theorem ap_connected_count_of_ne (d : Driver)
    (hs : d.g_state ≠ SLSI_WIFIAPI_STATE_AP_CONNECTED) : ap_connected_count d :=
  fun hx => absurd hx hs

/-- A monitor turn on any line keeps the count at 1 in state ApConnected (build without the
P2P API). -/
theorem slsi_monitor_handle_line_count (k : Config) (line : CStr) (d : Driver)
    (hp : k.CONFIG_SLSI_WIFI_P2P_API = false) (h : ap_connected_count d) :
    ap_connected_count (slsi_monitor_handle_line k line d) := by
  have hv : ∀ e : Driver, ap_connected_count e →
      ap_connected_count (if k.CONFIG_SCSC_WLAN_AUTO_RECOVERY then slsi_verify_recovered k e
        else e) := by
    intro e he
    split
    · obtain ⟨a, b, _⟩ := slsi_verify_recovered_core k e
      exact ap_connected_count_of_state e _ a b he
    · exact he
  have hsw : ∀ ev : CStr, ap_connected_count (slsi_monitor_switch k ev
      (if d.g_scanning then slsi_scan_event_handler k ev k.WPA_EVENT_SCAN_RESULTS d else d)) := by
    intro ev
    apply slsi_monitor_switch_count
    split
    · obtain ⟨a, b⟩ := slsi_scan_event_handler_ap k ev k.WPA_EVENT_SCAN_RESULTS d
      exact ap_connected_count_of_state d _ a b h
    · exact h
  unfold slsi_monitor_handle_line
  split
  · exact h
  · rename_i r _
    dsimp only
    apply hv
    cases hrec : k.CONFIG_SCSC_WLAN_AUTO_RECOVERY
    · simp only [Bool.false_eq_true, if_false, if_true, hp, Bool.false_and]
      exact hsw _
    · simp only [if_true, hp, Bool.false_and, Bool.false_eq_true, if_false]
      rcases slsi_recovery_handler_ap k (r.drop 1) d with ⟨a, b⟩ | ⟨a, b⟩
      · rw [if_pos a, b]
        exact hsw _
      · rw [if_neg (by rw [a]; decide)]
        apply ap_connected_count_of_ne
        rw [b]
        decide
/-- C27, failing runs from the started, idle driver (count 0).  After the soft AP is set up the
state is ApEnabled with count 0.  (1) `WiFiStop` during which the supplicant reports a station
leaving and then `AP-ENABLED`: the count wraps to 255 and the state is ApEnabled.  (2) A
station joins (ApConnected, count 1), then `WiFiStop` during which the supplicant reports
`AP-ENABLED`: the state is ApEnabled with count 1. -/
theorem run_actions_ap_enabled_count :
    (running_driver []).g_num_sta_connected = 0
    ∧ (run_actions wpa_config soft_ap_started (running_driver [])).map
        (fun d => (d.g_state, d.g_num_sta_connected)) = some (SLSI_WIFIAPI_STATE_AP_ENABLED, 0)
    ∧ (run_actions wpa_config
        (soft_ap_started
          ++ soft_ap_stop ["<3>AP-STA-DISCONNECTED 00:11:22:33:44:55".toList,
              "<3>AP-ENABLED ".toList])
        (running_driver [])).map (fun d => (d.g_state, d.g_num_sta_connected))
      = some (SLSI_WIFIAPI_STATE_AP_ENABLED, 255)
    ∧ (run_actions wpa_config
        (soft_ap_started ++ [driver_action.received "<3>AP-STA-CONNECTED 00:11:22:33:44:55".toList])
        (running_driver [])).map (fun d => (d.g_state, d.g_num_sta_connected))
      = some (SLSI_WIFIAPI_STATE_AP_CONNECTED, 1)
    ∧ (run_actions wpa_config
        (soft_ap_started ++ [driver_action.received "<3>AP-STA-CONNECTED 00:11:22:33:44:55".toList]
          ++ soft_ap_stop ["<3>AP-ENABLED ".toList])
        (running_driver [])).map (fun d => (d.g_state, d.g_num_sta_connected))
      = some (SLSI_WIFIAPI_STATE_AP_ENABLED, 1) := by
  decide

/-! ## Scan results -/

/-- C21, failing runs on a started driver, from an empty heap.  (1) The dump lists one BSS and
the supplicant has no details for it: `WiFiGetScanResults` hands out node 1, which
`slsi_parse_scan_results` has already released, and `WiFiFreeScanResults` releases it again.
(2) The dump lists two BSS, the first with a vendor element and flags that are not supported:
the vendor-IE nodes 2 and 3 and the content buffer 4 allocated for the first line are never
released.  (3) With both lines accepted every block is released once. -/
theorem scan_round_trip_unbalanced :
    scan_round_trip wpa_config
        (running_driver [wpa_reply.text "bssid\n00:11:22:33:44:55\n".toList, wpa_reply.text []])
      = some (none, [heap_op.alloc 1, heap_op.free 1, heap_op.free 1], [], [1])
    ∧ (scan_round_trip wpa_config
        (running_driver [wpa_reply.text "bssid\n00:11:22:33:44:55\n00:11:22:33:44:66\n".toList,
          bss_reply "00:11:22:33:44:55" "0003616263dd0500112233aa" "[P2P]" "abc",
          bss_reply "00:11:22:33:44:66" "0003616263dd0500112233aa" "[ESS]" "def"])).map
        (fun r => (r.1, r.2.2))
      = some (none, [2, 3, 4], [])
    ∧ (scan_round_trip wpa_config
        (running_driver [wpa_reply.text "bssid\n00:11:22:33:44:55\n00:11:22:33:44:66\n".toList,
          bss_reply "00:11:22:33:44:55" "0003616263" "[WPA2-PSK-CCMP][ESS]" "abc",
          bss_reply "00:11:22:33:44:66" "0003616263dd0500112233aa" "[ESS]" "def"])).map
        (fun r => (r.1, r.2.2))
      = some (none, [], []) := by
  decide

/-- C26, failing inputs, from an empty heap.  (1) A dump with the header line only: the list
returned is node 1, which holds nothing (no BSSID, no next node).  (2) A dump with one BSSID
line whose details the supplicant does not have: the pointer returned is node 1, which has been
released.  (3) Two lines accepted: nodes 1 and 3 in the order of the lines. -/
theorem slsi_parse_scan_results_nodes :
    (fun r : Option Nat × Heap × Channel => (r.1, r.2.1.log, r.2.1.scan_at 1))
        (slsi_parse_scan_results wpa_config "bssid\n".toList {} { g_ctrl_conn := true })
      = (some 1, [heap_op.alloc 1], {})
    ∧ (fun r : Option Nat × Heap × Channel => (r.1, r.2.1.log, r.2.2.sent))
        (slsi_parse_scan_results wpa_config "bssid\n00:11:22:33:44:55\n".toList {}
          { g_ctrl_conn := true, replies := [wpa_reply.text []] })
      = (some 1, [heap_op.alloc 1, heap_op.free 1], ["BSS 00:11:22:33:44:55".toList])
    ∧ (fun r : Option Nat × Heap × Channel =>
          (r.1, (r.2.1.scan_at 1).bssid, (r.2.1.scan_at 1).next, (r.2.1.scan_at 3).bssid,
            (r.2.1.scan_at 3).next, heap_bad_free r.2.1.log []))
        (slsi_parse_scan_results wpa_config
          "bssid\n00:11:22:33:44:55\n00:11:22:33:44:66\n".toList {}
          { g_ctrl_conn := true
            replies := [bss_reply "00:11:22:33:44:55" "0003616263" "[WPA2-PSK-CCMP][ESS]" "abc",
              bss_reply "00:11:22:33:44:66" "0003616263dd0500112233aa" "[ESS]" "def"] })
      = (some 1, "00:11:22:33:44:55".toList, some 3, "00:11:22:33:44:66".toList, none, []) := by
  refine ⟨?_, ?_, ?_⟩ <;> decide

end Slsi
